import Mathlib

/-!
Verification of the snapshot-and-restore engine of `meraki_auto_migration.py`.

The Python code manipulates JSON-like dictionaries and issues HTTP calls
through `MerakiAPIClient._api_call`.  We embed the data as a `Val` inductive
(Python scalars, lists and string-keyed dicts), and the API client as an
oracle `resp : Nat → ApiR` consumed one response per call, so that every
server behaviour (value returned, `None` for a 404, exception raised) is
covered by quantifying over the oracle.  Each restore helper of the
`ComprehensiveRestore` class becomes a state-passing function that records
the API calls it makes (the trace) and the log lines it emits, and returns
the possibly *mutated* snapshot fragments (the Python code updates some
nested dicts of the backup in place through aliases; the embedding makes
those updates explicit in its return value).
-/

set_option maxHeartbeats 1000000

namespace Meraki

/-- Embedding of the Python/JSON values manipulated by the migration tool. -/
inductive Val where
  | str (s : String)
  | nat (n : Nat)
  | boolean (b : Bool)
  | vnone
  | list (xs : List Val)
  | dict (kvs : List (String × Val))
deriving Repr

mutual

/-- Structural equality on `Val`, mirroring Python `==` on JSON data. -/
def Val.beq : Val → Val → Bool
  | Val.str a, Val.str b => a == b
  | Val.nat a, Val.nat b => a == b
  | Val.boolean a, Val.boolean b => a == b
  | Val.vnone, Val.vnone => true
  | Val.list xs, Val.list ys => Val.beqList xs ys
  | Val.dict xs, Val.dict ys => Val.beqPairs xs ys
  | _, _ => false

/-- Elementwise equality of value lists. -/
def Val.beqList : List Val → List Val → Bool
  | [], [] => true
  | x :: xs, y :: ys => Val.beq x y && Val.beqList xs ys
  | _, _ => false

/-- Elementwise equality of key-value pair lists. -/
def Val.beqPairs : List (String × Val) → List (String × Val) → Bool
  | [], [] => true
  | (k₁, v₁) :: xs, (k₂, v₂) :: ys => k₁ == k₂ && Val.beq v₁ v₂ && Val.beqPairs xs ys
  | _, _ => false

end

instance : BEq Val := ⟨Val.beq⟩

/-- Python truthiness of a value (`if v:`). -/
def truthy : Val → Bool
  | Val.str s => s ≠ ""
  | Val.nat n => n ≠ 0
  | Val.boolean b => b
  | Val.vnone => false
  | Val.list xs => !xs.isEmpty
  | Val.dict kvs => !kvs.isEmpty

/-- First binding of a key in a pair list. -/
def lookupStr : List (String × Val) → String → Option Val
  | [], _ => Option.none
  | (k, v) :: rest, key => if k == key then Option.some v else lookupStr rest key

/-- Python `d.get(k)` on a dict value; `Option.none` when the key is missing
or the value is not a dict. -/
def Val.getKey? : Val → String → Option Val
  | Val.dict kvs, k => lookupStr kvs k
  | _, _ => Option.none

/-- Python `d.get(k)` (default `None`). -/
def Val.get (v : Val) (k : String) : Val := (v.getKey? k).getD Val.vnone

/-- Python `d.get(k, default)`. -/
def Val.getDflt (v : Val) (k : String) (d : Val) : Val := (v.getKey? k).getD d

/-- Python `k in d`. -/
def Val.hasKey (v : Val) (k : String) : Bool := (v.getKey? k).isSome

/-- Replace the first binding of a key, or append a new one (Python dict
assignment keeps insertion order). -/
def setPair : List (String × Val) → String → Val → List (String × Val)
  | [], key, v => [(key, v)]
  | (k, w) :: rest, key, v =>
    if k == key then (key, v) :: rest else (k, w) :: setPair rest key v

/-- Python `d[k] = v` on a dict value (identity on non-dicts, which the
source never reaches). -/
def Val.set : Val → String → Val → Val
  | Val.dict kvs, k, v => Val.dict (setPair kvs k v)
  | other, _, _ => other

/-- Python dict comprehension `{k: v for k, v in d.items() if k not in ks}`. -/
def Val.excl : Val → List String → Val
  | Val.dict kvs, ks => Val.dict (kvs.filter (fun p => !ks.contains p.1))
  | other, _ => other

/-- Extract the element list of a list value (empty for non-lists). -/
def Val.items : Val → List Val
  | Val.list xs => xs
  | _ => []

/-- Does the pattern occur as a prefix of the character list? -/
def matchesAt : List Char → List Char → Bool
  | _, [] => true
  | [], _ :: _ => false
  | c :: cs, p :: ps => c == p && matchesAt cs ps

/-- Substring search over character lists. -/
def lcContains : List Char → List Char → Bool
  | [], pat => pat.isEmpty
  | c :: cs, pat => matchesAt (c :: cs) pat || lcContains cs pat

/-- Python `pat in s` substring test. -/
def strContains (s pat : String) : Bool := lcContains s.data pat.data

/-- Python `s[:n]`. -/
def strTake (s : String) (n : Nat) : String := String.mk (s.data.take n)

/-- Python `s.lower()`. -/
def strLower (s : String) : String := String.mk (s.data.map Char.toLower)

/-- Rendering of a value inside a Python f-string. -/
def Val.render : Val → String
  | Val.str s => s
  | Val.nat n => toString n
  | Val.boolean b => if b then "True" else "False"
  | Val.vnone => "None"
  | Val.list _ => "[...]"
  | Val.dict _ => "[dict]"

/-- Keep only the listed keys of a dict (`{k: v for k, v in d.items() if k in ks}`). -/
def Val.keepOnly : Val → List String → Val
  | Val.dict kvs, ks => Val.dict (kvs.filter (fun p => ks.contains p.1))
  | other, _ => other

/-- Test for the Python `None` value. -/
def Val.isNone : Val → Bool
  | Val.vnone => true
  | _ => false

/-- A log line emitted through the `logging` module, tagged with its level. -/
inductive LogEntry where
  | debug (m : String)
  | info (m : String)
  | warn (m : String)
  | error (m : String)
deriving Repr, DecidableEq

/-- The message text of a log line. -/
def LogEntry.msg : LogEntry → String
  | LogEntry.debug m => m
  | LogEntry.info m => m
  | LogEntry.warn m => m
  | LogEntry.error m => m

/-- Outcome of one `MerakiAPIClient._api_call` invocation as seen by the
restore engine: a JSON value, Python `None` (the client translates a 404
into `None`), or a raised exception carrying its message. -/
inductive ApiR where
  | val (v : Val)
  | nil
  | exn (m : String)

/-- One API call issued during restore.  Each constructor corresponds to one
call site (one fixed URL template) of `ComprehensiveRestore`; the management
and device-status endpoints are part of the modelled API surface but, as the
theorems show, are never called by the restore path. -/
inductive Ev where
  | getNetwork (nid : String)
  | postPortSchedule (nid : String) (payload : Val)
  | getPortSchedules (nid : String)
  | postQosRule (nid : String) (payload : Val)
  | postLinkAggregation (nid : String) (payload : Val)
  | postAccessPolicy (nid : String) (payload : Val)
  | putStp (nid : String) (payload : Val)
  | putMtu (nid : String) (payload : Val)
  | putStormControl (nid : String) (payload : Val)
  | putDhcpServerPolicy (nid : String) (payload : Val)
  | putSnmp (nid : String) (payload : Val)
  | putSyslog (nid : String) (payload : Val)
  | putAlerts (nid : String) (payload : Val)
  | putManagement (serial : String) (payload : Val)
  | getDeviceStatus (serial : String)
  | getInterfaces (serial : String)
  | putInterface (serial : String) (iid : Val) (payload : Val)
  | postInterface (serial : String) (payload : Val)
  | postDhcpServer (serial : String) (payload : Val)
  | putDhcpRelays (serial : String) (payload : Val)
  | putInterfaceDhcp (serial : String) (iid : Val) (payload : Val)
  | postStaticRoute (serial : String) (payload : Val)
  | putOspf (serial : String) (payload : Val)
  | putMulticast (serial : String) (payload : Val)
  | postRendezvousPoint (serial : String) (payload : Val)
  | putWarmSpare (serial : String) (payload : Val)
  | putPort (serial : String) (portId : Val) (payload : Val)

/-- Run state of a restore: the response oracle (one `ApiR` per call, in call
order, covering every possible server behaviour), the index of the next
response, the trace of calls issued so far, and the log. -/
structure RSt where
  resp : Nat → ApiR
  idx : Nat
  trace : List Ev
  log : List LogEntry

/-- Issue one API call: record the event and consume the next oracle response. -/
def apiCall (st : RSt) (e : Ev) : ApiR × RSt :=
  (st.resp st.idx, { st with idx := st.idx + 1, trace := st.trace ++ [e] })

/-- Append one log line. -/
def logAdd (st : RSt) (l : LogEntry) : RSt := { st with log := st.log ++ [l] }

/-- Append several log lines. -/
def logAdds (st : RSt) (ls : List LogEntry) : RSt := { st with log := st.log ++ ls }

/-- Lookup in an identifier translation table (Python dict keyed by values). -/
def vlookup : List (Val × Val) → Val → Option Val
  | [], _ => Option.none
  | (k, v) :: rest, key => if Val.beq k key then Option.some v else vlookup rest key

/-- Python `mapping.get(old_id)` (default `None`). -/
def mlookup (m : List (Val × Val)) (k : Val) : Val := (vlookup m k).getD Val.vnone

/-- Python `mapping[old_id] = new_id`: replace the first binding or append. -/
def vset : List (Val × Val) → Val → Val → List (Val × Val)
  | [], key, v => [(key, v)]
  | (k, w) :: rest, key, v =>
    if Val.beq k key then (key, v) :: rest else (k, w) :: vset rest key v

/-- Restore of one captured routing interface (body of the interfaces loop in
`_restore_device_settings`): the VLAN-1 interface is updated in place at
interface id `"1"`; any other interface is created, falling back on a
conflict (`already exists` / `duplicate`) to listing the existing interfaces,
matching one by VLAN id and updating it.  Returns the updated state,
translation table, success count and failed-items count. -/
def restoreOneInterface (serial : String) (st : RSt) (mapping : List (Val × Val))
    (succ failed : Nat) (iface : Val) : RSt × List (Val × Val) × Nat × Nat :=
  let oldId := iface.get "interfaceId"
  let ifaceData := iface.excl ["interfaceId", "serial"]
  if Val.beq (iface.get "vlanId") (Val.nat 1) then
    match apiCall st (Ev.putInterface serial (Val.str "1") ifaceData) with
    | (ApiR.exn m, st₁) =>
      (logAdd st₁ (LogEntry.warn ("    ⚠ Failed to update VLAN 1 interface: " ++ strTake m 100)),
       mapping, succ, failed + 1)
    | (_, st₁) =>
      (logAdd st₁ (LogEntry.debug "    ✓ Updated default VLAN 1 interface"),
       vset mapping oldId (Val.str "1"), succ + 1, failed)
  else
    match apiCall st (Ev.postInterface serial ifaceData) with
    | (ApiR.val v, st₁) =>
      if truthy v && v.hasKey "interfaceId" then
        (logAdd st₁ (LogEntry.debug ("    ✓ Created interface for VLAN " ++
           (iface.get "vlanId").render ++ " with new ID " ++ (v.get "interfaceId").render)),
         vset mapping oldId (v.get "interfaceId"), succ + 1, failed)
      else
        (logAdd st₁ (LogEntry.warn ("    ⚠ Failed to create interface for VLAN " ++
           (iface.get "vlanId").render)), mapping, succ, failed + 1)
    | (ApiR.nil, st₁) =>
      (logAdd st₁ (LogEntry.warn ("    ⚠ Failed to create interface for VLAN " ++
         (iface.get "vlanId").render)), mapping, succ, failed + 1)
    | (ApiR.exn m, st₁) =>
      if strContains m "already exists" || strContains (strLower m) "duplicate" then
        let vlanId := iface.get "vlanId"
        if truthy vlanId then
          match apiCall st₁ (Ev.getInterfaces serial) with
          | (ApiR.val (Val.list xs), st₂) =>
            match xs.find? (fun x => Val.beq (x.get "vlanId") vlanId) with
            | Option.some x =>
              match apiCall st₂ (Ev.putInterface serial (x.get "interfaceId") ifaceData) with
              | (ApiR.exn m₂, st₃) =>
                (logAdd st₃ (LogEntry.warn ("    ⚠ Failed to update existing interface for VLAN " ++
                   vlanId.render ++ ": " ++ strTake m₂ 100)), mapping, succ, failed + 1)
              | (_, st₃) =>
                (logAdd st₃ (LogEntry.debug ("    ✓ Updated existing interface for VLAN " ++
                   vlanId.render)), vset mapping oldId (x.get "interfaceId"), succ + 1, failed)
            | Option.none => (st₂, mapping, succ, failed)
          | (ApiR.val (Val.dict []), st₂) => (st₂, mapping, succ, failed)
          | (ApiR.val _, st₂) =>
            (logAdd st₂ (LogEntry.warn ("    ⚠ Failed to update existing interface for VLAN " ++
               vlanId.render ++ ": object is not iterable")), mapping, succ, failed + 1)
          | (ApiR.nil, st₂) =>
            (logAdd st₂ (LogEntry.warn ("    ⚠ Failed to update existing interface for VLAN " ++
               vlanId.render ++ ": NoneType object is not iterable")), mapping, succ, failed + 1)
          | (ApiR.exn m₂, st₂) =>
            (logAdd st₂ (LogEntry.warn ("    ⚠ Failed to update existing interface for VLAN " ++
               vlanId.render ++ ": " ++ strTake m₂ 100)), mapping, succ, failed + 1)
        else (st₁, mapping, succ, failed)
      else
        (logAdd st₁ (LogEntry.warn ("    ⚠ Failed to create routing interface: " ++ strTake m 100)),
         mapping, succ, failed + 1)

/-- The interfaces loop of `_restore_device_settings`. -/
def restoreInterfacesGo (serial : String) :
    RSt → List (Val × Val) → Nat → Nat → List Val → RSt × List (Val × Val) × Nat × Nat
  | st, mapping, succ, failed, [] => (st, mapping, succ, failed)
  | st, mapping, succ, failed, iface :: rest =>
    match restoreOneInterface serial st mapping succ failed iface with
    | (st₁, m₁, s₁, f₁) => restoreInterfacesGo serial st₁ m₁ s₁ f₁ rest

/-- Routing-interface restore step for one device, including its log lines.
Returns the interface translation table and the counters. -/
def restoreInterfaces (st : RSt) (serial : String) (ifaces : List Val) :
    RSt × List (Val × Val) × Nat × Nat :=
  let st₀ := logAdd st (LogEntry.info ("  → Restoring " ++ toString ifaces.length ++
    " routing interfaces..."))
  match restoreInterfacesGo serial st₀ [] 0 0 ifaces with
  | (st₁, mapping, succ, failed) =>
    if succ > 0 then
      (logAdd st₁ (LogEntry.info ("  ✓ Restored " ++ toString succ ++ "/" ++
         toString ifaces.length ++ " routing interfaces")), mapping, succ, failed)
    else (st₁, mapping, succ, failed)

/-- The DHCP-servers loop: each server with an `interfaceId` is rewritten
through the interface table or skipped with a warning; one raised exception
aborts the remaining servers (the `try` wraps the whole loop).  The `Bool`
is `false` when the loop was aborted by an exception. -/
def restoreDhcpServersGo (serial : String) (imap : List (Val × Val)) :
    RSt → List (Val × Val) → Nat → List Val → RSt × List (Val × Val) × Nat × Bool
  | st, smap, count, [] => (st, smap, count, true)
  | st, smap, count, server :: rest =>
    let oldServerId := server.get "id"
    let sd₀ := server.excl ["id"]
    if truthy (sd₀.get "interfaceId") then
      let newIid := mlookup imap (sd₀.get "interfaceId")
      if truthy newIid then
        match apiCall st (Ev.postDhcpServer serial (sd₀.set "interfaceId" newIid)) with
        | (ApiR.exn m, st₁) =>
          (logAdd st₁ (LogEntry.warn ("  ⚠ Failed to restore DHCP servers: " ++ strTake m 100)),
           smap, count, false)
        | (ApiR.val v, st₁) =>
          restoreDhcpServersGo serial imap st₁
            (if truthy v && v.hasKey "id" then vset smap oldServerId (v.get "id") else smap)
            (count + 1) rest
        | (ApiR.nil, st₁) => restoreDhcpServersGo serial imap st₁ smap (count + 1) rest
      else
        restoreDhcpServersGo serial imap
          (logAdd st (LogEntry.warn "    ⚠ Cannot map interface ID for DHCP server"))
          smap count rest
    else
      match apiCall st (Ev.postDhcpServer serial sd₀) with
      | (ApiR.exn m, st₁) =>
        (logAdd st₁ (LogEntry.warn ("  ⚠ Failed to restore DHCP servers: " ++ strTake m 100)),
         smap, count, false)
      | (ApiR.val v, st₁) =>
        restoreDhcpServersGo serial imap st₁
          (if truthy v && v.hasKey "id" then vset smap oldServerId (v.get "id") else smap)
          (count + 1) rest
      | (ApiR.nil, st₁) => restoreDhcpServersGo serial imap st₁ smap (count + 1) rest

/-- DHCP-server restore step for one device; returns the DHCP-server
translation table and the (restored, failed) item deltas. -/
def restoreDhcpServers (st : RSt) (serial : String) (imap : List (Val × Val))
    (servers : List Val) : RSt × List (Val × Val) × Nat × Nat :=
  match restoreDhcpServersGo serial imap st [] 0 servers with
  | (st₁, smap, count, true) =>
    (logAdd st₁ (LogEntry.info ("  ✓ Restored " ++ toString count ++
       " DHCP server configurations")), smap, 1, 0)
  | (st₁, smap, _, false) => (st₁, smap, 0, 1)

/-- DHCP-relay restore step.  The relay dict is taken from the snapshot *by
reference* in the Python code, so the in-place rewrite of its `interfaceId`
is returned as the second component: the caller stores it back into the
snapshot. -/
def restoreDhcpRelays (st : RSt) (serial : String) (imap : List (Val × Val))
    (relays : Val) : RSt × Val × Nat × Nat :=
  let relays' :=
    match relays with
    | Val.dict _ =>
      if truthy (relays.get "interfaceId") then
        let nid := mlookup imap (relays.get "interfaceId")
        if truthy nid then relays.set "interfaceId" nid else relays
      else relays
    | _ => relays
  match apiCall st (Ev.putDhcpRelays serial relays') with
  | (ApiR.exn m, st₁) =>
    (logAdd st₁ (LogEntry.warn ("  ⚠ Failed to restore DHCP relays: " ++ strTake m 100)),
     relays', 0, 1)
  | (_, st₁) =>
    (logAdd st₁ (LogEntry.info "  ✓ Restored DHCP relay settings"), relays', 1, 0)

/-- The per-interface DHCP loop: entries whose interface never resolved are
skipped with a debug line; failures are logged at debug level only. -/
def restoreInterfaceDhcpGo (serial : String) (imap : List (Val × Val)) :
    RSt → Nat → List Val → RSt × Nat
  | st, succ, [] => (st, succ)
  | st, succ, intDhcp :: rest =>
    let oldIid := intDhcp.get "interfaceId"
    let newIid := mlookup imap oldIid
    if truthy newIid then
      match apiCall st (Ev.putInterfaceDhcp serial newIid (intDhcp.get "dhcpSettings")) with
      | (ApiR.exn m, st₁) =>
        restoreInterfaceDhcpGo serial imap
          (logAdd st₁ (LogEntry.debug ("    Failed to restore DHCP for interface " ++
             newIid.render ++ ": " ++ strTake m 100))) succ rest
      | (_, st₁) => restoreInterfaceDhcpGo serial imap st₁ (succ + 1) rest
    else
      restoreInterfaceDhcpGo serial imap
        (logAdd st (LogEntry.debug ("    Skipping DHCP for unmapped interface " ++
           oldIid.render))) succ rest

/-- Per-interface DHCP restore step; returns the restored-items delta. -/
def restoreInterfaceDhcp (st : RSt) (serial : String) (imap : List (Val × Val))
    (items : List Val) : RSt × Nat :=
  match restoreInterfaceDhcpGo serial imap st 0 items with
  | (st₁, succ) =>
    if succ > 0 then
      (logAdd st₁ (LogEntry.info ("  ✓ Restored DHCP settings for " ++ toString succ ++
         " interfaces")), 1)
    else (st₁, 0)

/-- Restore of one captured static route: its `staticRouteId` is stripped, a
truthy next-hop `interfaceId` is rewritten through the interface table or the
route is skipped with a warning, and a failure of the create call is caught
per route. -/
def restoreOneRoute (serial : String) (imap : List (Val × Val)) (st : RSt)
    (rmap : List (Val × Val)) (succ failed : Nat) (route : Val) :
    RSt × List (Val × Val) × Nat × Nat :=
  let oldRouteId := route.get "staticRouteId"
  let rd₀ := route.excl ["staticRouteId"]
  if truthy (rd₀.get "interfaceId") then
    let newIid := mlookup imap (rd₀.get "interfaceId")
    if truthy newIid then
      match apiCall st (Ev.postStaticRoute serial (rd₀.set "interfaceId" newIid)) with
      | (ApiR.exn m, st₁) =>
        (logAdd st₁ (LogEntry.warn ("    ⚠ Failed to restore static route: " ++ strTake m 100)),
         rmap, succ, failed + 1)
      | (ApiR.val v, st₁) =>
        (logAdd st₁ (LogEntry.debug ("    ✓ Restored route to " ++
           (route.getDflt "subnet" (Val.str "unknown")).render)),
         if truthy v && v.hasKey "staticRouteId" then
           vset rmap oldRouteId (v.get "staticRouteId") else rmap,
         succ + 1, failed)
      | (ApiR.nil, st₁) =>
        (logAdd st₁ (LogEntry.debug ("    ✓ Restored route to " ++
           (route.getDflt "subnet" (Val.str "unknown")).render)), rmap, succ + 1, failed)
    else
      (logAdd st (LogEntry.warn ("    ⚠ Cannot map interface ID for route to " ++
         (route.get "subnet").render)), rmap, succ, failed)
  else
    match apiCall st (Ev.postStaticRoute serial rd₀) with
    | (ApiR.exn m, st₁) =>
      (logAdd st₁ (LogEntry.warn ("    ⚠ Failed to restore static route: " ++ strTake m 100)),
       rmap, succ, failed + 1)
    | (ApiR.val v, st₁) =>
      (logAdd st₁ (LogEntry.debug ("    ✓ Restored route to " ++
         (route.getDflt "subnet" (Val.str "unknown")).render)),
       if truthy v && v.hasKey "staticRouteId" then
         vset rmap oldRouteId (v.get "staticRouteId") else rmap,
       succ + 1, failed)
    | (ApiR.nil, st₁) =>
      (logAdd st₁ (LogEntry.debug ("    ✓ Restored route to " ++
         (route.getDflt "subnet" (Val.str "unknown")).render)), rmap, succ + 1, failed)

/-- The static-routes loop of `_restore_device_settings`. -/
def restoreRoutesGo (serial : String) (imap : List (Val × Val)) :
    RSt → List (Val × Val) → Nat → Nat → List Val → RSt × List (Val × Val) × Nat × Nat
  | st, rmap, succ, failed, [] => (st, rmap, succ, failed)
  | st, rmap, succ, failed, route :: rest =>
    match restoreOneRoute serial imap st rmap succ failed route with
    | (st₁, r₁, s₁, f₁) => restoreRoutesGo serial imap st₁ r₁ s₁ f₁ rest

/-- Static-route restore step for one device, including its log lines. -/
def restoreStaticRoutes (st : RSt) (serial : String) (imap : List (Val × Val))
    (routes : List Val) : RSt × List (Val × Val) × Nat × Nat :=
  let st₀ := logAdd st (LogEntry.info ("  → Restoring " ++ toString routes.length ++
    " static routes..."))
  match restoreRoutesGo serial imap st₀ [] 0 0 routes with
  | (st₁, rmap, succ, failed) =>
    if succ > 0 then
      (logAdd st₁ (LogEntry.info ("  ✓ Restored " ++ toString succ ++ "/" ++
         toString routes.length ++ " static routes")), rmap, succ, failed)
    else (st₁, rmap, succ, failed)

/-- Rewrite of one OSPF `interfaceIds` list: mapped ids are kept (translated),
unmapped ids are dropped, each with a warning. -/
def rewriteOspfIds (imap : List (Val × Val)) : RSt → List Val → RSt × List Val
  | st, [] => (st, [])
  | st, oldId :: rest =>
    let nid := mlookup imap oldId
    if truthy nid then
      match rewriteOspfIds imap st rest with
      | (st₁, others) => (st₁, nid :: others)
    else
      rewriteOspfIds imap
        (logAdd st (LogEntry.warn ("    ⚠ Cannot map interface ID " ++ oldId.render ++
           " for OSPF area"))) rest

/-- Rewrite of one OSPF area (in place in the Python code: the area dicts are
aliased into the snapshot). -/
def rewriteOspfArea (imap : List (Val × Val)) (st : RSt) (area : Val) : RSt × Val :=
  if truthy (area.get "interfaceIds") then
    match rewriteOspfIds imap st (area.get "interfaceIds").items with
    | (st₁, newIds) => (st₁, area.set "interfaceIds" (Val.list newIds))
  else (st, area)

/-- Rewrite of the OSPF area list, threading the log. -/
def rewriteOspfAreas (imap : List (Val × Val)) : RSt → List Val → RSt × List Val
  | st, [] => (st, [])
  | st, area :: rest =>
    match rewriteOspfArea imap st area with
    | (st₁, area') =>
      match rewriteOspfAreas imap st₁ rest with
      | (st₂, rest') => (st₂, area' :: rest')

/-- OSPF restore step.  The `ospfId` key is excluded from the payload, and
every `interfaceIds` list inside the areas is rewritten; since the Python
code mutates the aliased area dicts, the updated OSPF value (still carrying
`ospfId`) is returned for the caller to store back into the snapshot. -/
def restoreOspf (st : RSt) (serial : String) (imap : List (Val × Val)) (ospf : Val) :
    RSt × Val × Nat × Nat :=
  match ospf.get "areas" with
  | Val.list (a :: as₀) =>
    match rewriteOspfAreas imap st (a :: as₀) with
    | (st₁, newAreas) =>
      let ospf' := ospf.set "areas" (Val.list newAreas)
      match apiCall st₁ (Ev.putOspf serial (ospf'.excl ["ospfId"])) with
      | (ApiR.exn m, st₂) =>
        (logAdd st₂ (LogEntry.warn ("  ⚠ Failed to restore OSPF: " ++ strTake m 100)),
         ospf', 0, 1)
      | (_, st₂) =>
        (logAdd st₂ (LogEntry.info "  ✓ Restored OSPF settings"), ospf', 1, 0)
  | v =>
    if truthy v && !(v matches Val.list _) then
      (logAdd st (LogEntry.warn "  ⚠ Failed to restore OSPF: object is not iterable"),
       ospf, 0, 1)
    else
      match apiCall st (Ev.putOspf serial (ospf.excl ["ospfId"])) with
      | (ApiR.exn m, st₁) =>
        (logAdd st₁ (LogEntry.warn ("  ⚠ Failed to restore OSPF: " ++ strTake m 100)),
         ospf, 0, 1)
      | (_, st₁) =>
        (logAdd st₁ (LogEntry.info "  ✓ Restored OSPF settings"), ospf, 1, 0)

/-- Multicast restore step.  A truthy IGMP-snooping `interfaceIds` list is
rewritten through the interface table, *silently dropping* every id that
does not resolve; the rewrite happens in place on the aliased snapshot dict,
so the updated multicast value is returned. -/
def restoreMulticast (st : RSt) (serial : String) (imap : List (Val × Val)) (mc : Val) :
    RSt × Val × Nat × Nat :=
  let igmp := mc.get "igmpSnoopingSettings"
  let mc' :=
    if truthy igmp then
      match igmp.get "interfaceIds" with
      | Val.list (o :: os) =>
        let news := (o :: os).filterMap (fun oldId =>
          let nid := mlookup imap oldId
          if truthy nid then Option.some nid else Option.none)
        mc.set "igmpSnoopingSettings" (igmp.set "interfaceIds" (Val.list news))
      | _ => mc
    else mc
  match apiCall st (Ev.putMulticast serial mc') with
  | (ApiR.exn m, st₁) =>
    (logAdd st₁ (LogEntry.warn ("  ⚠ Failed to restore multicast: " ++ strTake m 100)),
     mc', 0, 1)
  | (_, st₁) =>
    (logAdd st₁ (LogEntry.info "  ✓ Restored multicast settings"), mc', 1, 0)

/-- The rendezvous-points loop: each point with a truthy `interfaceId` is
rewritten or skipped with a warning; one raised exception aborts the
remaining points (the `try` wraps the whole loop). -/
def restoreRendezvousGo (serial : String) (imap : List (Val × Val)) :
    RSt → List (Val × Val) → Nat → List Val → RSt × List (Val × Val) × Nat × Bool
  | st, pmap, count, [] => (st, pmap, count, true)
  | st, pmap, count, rp :: rest =>
    let oldRpId := rp.get "rendezvousPointId"
    let rd₀ := rp.excl ["rendezvousPointId"]
    if truthy (rd₀.get "interfaceId") then
      let newIid := mlookup imap (rd₀.get "interfaceId")
      if truthy newIid then
        match apiCall st (Ev.postRendezvousPoint serial (rd₀.set "interfaceId" newIid)) with
        | (ApiR.exn m, st₁) =>
          (logAdd st₁ (LogEntry.warn ("  ⚠ Failed to restore rendezvous points: " ++
             strTake m 100)), pmap, count, false)
        | (ApiR.val v, st₁) =>
          restoreRendezvousGo serial imap st₁
            (if truthy v && v.hasKey "rendezvousPointId" then
               vset pmap oldRpId (v.get "rendezvousPointId") else pmap)
            (count + 1) rest
        | (ApiR.nil, st₁) => restoreRendezvousGo serial imap st₁ pmap (count + 1) rest
      else
        restoreRendezvousGo serial imap
          (logAdd st (LogEntry.warn "    ⚠ Cannot map interface ID for rendezvous point"))
          pmap count rest
    else
      match apiCall st (Ev.postRendezvousPoint serial rd₀) with
      | (ApiR.exn m, st₁) =>
        (logAdd st₁ (LogEntry.warn ("  ⚠ Failed to restore rendezvous points: " ++
           strTake m 100)), pmap, count, false)
      | (ApiR.val v, st₁) =>
        restoreRendezvousGo serial imap st₁
          (if truthy v && v.hasKey "rendezvousPointId" then
             vset pmap oldRpId (v.get "rendezvousPointId") else pmap)
          (count + 1) rest
      | (ApiR.nil, st₁) => restoreRendezvousGo serial imap st₁ pmap (count + 1) rest

/-- Rendezvous-point restore step for one device. -/
def restoreRendezvous (st : RSt) (serial : String) (imap : List (Val × Val))
    (rps : List Val) : RSt × List (Val × Val) × Nat × Nat :=
  match restoreRendezvousGo serial imap st [] 0 rps with
  | (st₁, pmap, count, true) =>
    (logAdd st₁ (LogEntry.info ("  ✓ Restored " ++ toString count ++
       " multicast rendezvous points")), pmap, 1, 0)
  | (st₁, pmap, _, false) => (st₁, pmap, 0, 1)

/-- Warm-spare restore step: the serial pair is stripped, the configuration
is pushed, and the operator is told to reconfigure the spare serial manually. -/
def restoreWarmSpare (st : RSt) (serial : String) (ws : Val) : RSt × Nat × Nat :=
  match apiCall st (Ev.putWarmSpare serial (ws.excl ["primarySerial", "spareSerial"])) with
  | (ApiR.exn m, st₁) =>
    (logAdd st₁ (LogEntry.warn ("  ⚠ Failed to restore warm spare: " ++ strTake m 100)), 0, 1)
  | (_, st₁) =>
    (logAdds st₁ [LogEntry.info "  ✓ Restored warm spare settings",
       LogEntry.warn "  ⚠ Note: You will need to manually set the spare device serial in the dashboard"],
     1, 0)

/-- Read-only port fields stripped before a port update. -/
def portExcluded : List String :=
  ["portId", "warnings", "errors", "status", "speed", "duplex", "usageInKbps", "cdp",
   "lldp", "clientCount", "powerUsageInWh", "securePort", "spanningTree",
   "adaptivePolicyGroup", "peerSgtCapable", "macAllowList", "stickyMacAllowList",
   "stickyMacAllowListLimit", "stormControlEnabled"]

/-- The switch-ports loop: each port is updated individually inside its own
`try`, so one failure never blocks the rest; `i` is the running index. -/
def restorePortsGo (serial : String) (imap : List (Val × Val)) (total : Nat) :
    RSt → Nat → Nat → Nat → List Val → RSt × Nat × Nat
  | st, _, succ, failedP, [] => (st, succ, failedP)
  | st, i, succ, failedP, port :: rest =>
    let portId := port.get "portId"
    let pd₀ := port.excl portExcluded
    let pd :=
      if truthy (pd₀.get "routingInterfaceId") then
        let nid := mlookup imap (pd₀.get "routingInterfaceId")
        if truthy nid then pd₀.set "routingInterfaceId" nid else pd₀
      else pd₀
    match apiCall st (Ev.putPort serial portId pd) with
    | (ApiR.exn m, st₁) =>
      let st₂ :=
        if failedP + 1 ≤ 5 then
          logAdd st₁ (LogEntry.debug ("    Failed port " ++ portId.render ++ ": " ++
            strTake m 100))
        else if failedP + 1 == 6 then
          logAdd st₁ (LogEntry.debug "    (suppressing further port error details)")
        else st₁
      restorePortsGo serial imap total st₂ (i + 1) succ (failedP + 1) rest
    | (_, st₁) =>
      let st₂ :=
        if (i + 1) % 10 == 0 then
          logAdd st₁ (LogEntry.debug ("    Progress: " ++ toString (i + 1) ++ "/" ++ toString total ++ " ports processed"))
        else st₁
      restorePortsGo serial imap total st₂ (i + 1) (succ + 1) failedP rest

/-- Switch-port restore step for one device; returns the (successful, failed)
port counts. -/
def restorePorts (st : RSt) (serial : String) (imap : List (Val × Val))
    (ports : List Val) : RSt × Nat × Nat :=
  match restorePortsGo serial imap ports.length st 0 0 0 ports with
  | (st₁, succ, failedP) =>
    let st₂ := logAdd st₁ (LogEntry.info ("  ✓ Restored " ++ toString succ ++ "/" ++
      toString ports.length ++ " ports"))
    let st₃ :=
      if failedP > 0 then
        logAdd st₂ (LogEntry.warn ("  ⚠ Failed to restore " ++ toString failedP ++ " ports"))
      else st₂
    (st₃, succ, failedP)

/-- Accumulator of the per-device restore: run state, the (possibly mutated)
settings bundle, the interface translation table and the two counters. -/
structure DevAcc where
  st : RSt
  settings : Val
  imap : List (Val × Val)
  restored : Nat
  failed : Nat

/-- Device step 1: routing interfaces (restored FIRST, before static routes
or DHCP), guarded on a truthy `routing.interfaces`. -/
def devIfaces (serial : String) (a : DevAcc) : DevAcc :=
  let ifacesV := (a.settings.get "routing").get "interfaces"
  if truthy ifacesV then
    match restoreInterfaces a.st serial ifacesV.items with
    | (st₁, imap, succ, f) =>
      { a with
          st := st₁
          imap := imap
          restored := a.restored + succ
          failed := a.failed + f }
  else a

/-- DHCP-servers sub-step of the DHCP section. -/
def devDhcpServers (serial : String) (dhcpV : Val) (imap : List (Val × Val))
    (st : RSt) (restored failed : Nat) : RSt × Nat × Nat :=
  if truthy (dhcpV.get "servers") then
    match restoreDhcpServers st serial imap (dhcpV.get "servers").items with
    | (st₁, _, r, f) => (st₁, restored + r, failed + f)
  else (st, restored, failed)

/-- DHCP-relays sub-step; the in-place rewrite of the relay dict is stored
back, so the (possibly mutated) `dhcp` dict is returned. -/
def devDhcpRelays (serial : String) (dhcpV : Val) (imap : List (Val × Val))
    (st : RSt) (restored failed : Nat) : RSt × Val × Nat × Nat :=
  if truthy (dhcpV.get "relays") then
    match restoreDhcpRelays st serial imap (dhcpV.get "relays") with
    | (st₁, relays', r, f) => (st₁, dhcpV.set "relays" relays', restored + r, failed + f)
  else (st, dhcpV, restored, failed)

/-- Per-interface-DHCP sub-step. -/
def devDhcpIface (serial : String) (dhcpV : Val) (imap : List (Val × Val))
    (st : RSt) (restored : Nat) : RSt × Nat :=
  if truthy (dhcpV.get "interfaceDhcp") then
    match restoreInterfaceDhcp st serial imap (dhcpV.get "interfaceDhcp").items with
    | (st₁, r) => (st₁, restored + r)
  else (st, restored)

/-- Device step 2: DHCP servers, relays and per-interface DHCP.  The relay
rewrite mutates the snapshot dict in place, so the `dhcp` entry of the
settings bundle is replaced by the updated value. -/
def devDhcp (serial : String) (a : DevAcc) : DevAcc :=
  let dhcpV := a.settings.get "dhcp"
  if truthy dhcpV then
    match devDhcpServers serial dhcpV a.imap a.st a.restored a.failed with
    | (st₁, r₁, f₁) =>
      match devDhcpRelays serial dhcpV a.imap st₁ r₁ f₁ with
      | (st₂, dhcpV', r₂, f₂) =>
        match devDhcpIface serial dhcpV' a.imap st₂ r₂ with
        | (st₃, r₃) =>
          { a with
            st := st₃
            settings := a.settings.set "dhcp" dhcpV'
            restored := r₃
            failed := f₂ }
  else a

/-- Device step 3: static routes. -/
def devRoutes (serial : String) (a : DevAcc) : DevAcc :=
  let routesV := (a.settings.get "routing").get "staticRoutes"
  if truthy routesV then
    match restoreStaticRoutes a.st serial a.imap routesV.items with
    | (st₁, _, succ, f) =>
      { a with
          st := st₁
          restored := a.restored + succ
          failed := a.failed + f }
  else a

/-- Device step 4: OSPF; the area rewrite mutates the snapshot, so the
`routing.ospf` entry is replaced by the updated value. -/
def devOspf (serial : String) (a : DevAcc) : DevAcc :=
  let ospfV := (a.settings.get "routing").get "ospf"
  if truthy ospfV then
    match restoreOspf a.st serial a.imap ospfV with
    | (st₁, ospf', r, f) =>
      { a with
          st := st₁
          settings := a.settings.set "routing" ((a.settings.get "routing").set "ospf" ospf')
          restored := a.restored + r
          failed := a.failed + f }
  else a

/-- Device step 5: multicast; the IGMP-snooping rewrite mutates the snapshot,
so the `routing.multicast` entry is replaced by the updated value. -/
def devMulticast (serial : String) (a : DevAcc) : DevAcc :=
  let mcV := (a.settings.get "routing").get "multicast"
  if truthy mcV then
    match restoreMulticast a.st serial a.imap mcV with
    | (st₁, mc', r, f) =>
      { a with
          st := st₁
          settings := a.settings.set "routing" ((a.settings.get "routing").set "multicast" mc')
          restored := a.restored + r
          failed := a.failed + f }
  else a

/-- Device step 6: rendezvous points. -/
def devRendezvous (serial : String) (a : DevAcc) : DevAcc :=
  let rpsV := (a.settings.get "routing").get "rendezvousPoints"
  if truthy rpsV then
    match restoreRendezvous a.st serial a.imap rpsV.items with
    | (st₁, _, r, f) =>
      { a with
          st := st₁
          restored := a.restored + r
          failed := a.failed + f }
  else a

/-- Device step 7: warm spare. -/
def devWarmSpare (serial : String) (a : DevAcc) : DevAcc :=
  let wsV := a.settings.get "warmSpare"
  if truthy wsV then
    match restoreWarmSpare a.st serial wsV with
    | (st₁, r, f) =>
      { a with
          st := st₁
          restored := a.restored + r
          failed := a.failed + f }
  else a

/-- Device step 8: switch ports. -/
def devPorts (serial : String) (a : DevAcc) : DevAcc :=
  let portsV := a.settings.get "ports"
  if truthy portsV then
    match restorePorts a.st serial a.imap portsV.items with
    | (st₁, succ, failedP) =>
      { a with
          st := st₁
          restored := a.restored + succ
          failed := a.failed + failedP }
  else a

/-- Stack information note (informational only, log lines only). -/
def devStack (a : DevAcc) : DevAcc :=
  if truthy (a.settings.get "stackInfo") then
    { a with st := logAdds a.st [LogEntry.info ("  ℹ Device is part of stack: " ++
        ((a.settings.get "stackInfo").getDflt "name" (Val.str "Unknown")).render),
      LogEntry.warn "  ⚠ Note: Stack membership must be reconfigured manually"] }
  else a

/-- Per-device summary log lines. -/
def devSummary (newSerial : String) (a : DevAcc) : DevAcc :=
  let st := logAdds a.st [LogEntry.info ("\n  Summary for " ++ newSerial ++ ":"),
    LogEntry.info ("    - Restored: " ++ toString a.restored ++ " configuration items")]
  let st :=
    if a.failed > 0 then
      logAdd st (LogEntry.info ("    - Failed: " ++ toString a.failed ++
        " configuration items"))
    else st
  { a with st := logAdd st (LogEntry.info ("    - Total settings processed: " ++
      toString (a.restored + a.failed))) }

/-- Restore of all settings of one mapped device: the body of the
`for old_serial, new_serial in device_mapping.items()` loop of
`_restore_device_settings`, after the snapshot lookup succeeded.  The steps
run in the source order — routing interfaces first, then DHCP (servers,
relays, per-interface DHCP), static routes, OSPF, multicast, rendezvous
points, warm spare, switch ports — and the possibly mutated per-device
settings bundle is returned together with the (restored, failed) counters. -/
def restoreDeviceFor (st : RSt) (newSerial : String) (settings : Val) :
    RSt × Val × Nat × Nat :=
  let info0 := settings.get "info"
  let st := logAdd st (LogEntry.info ("\nRestoring settings for device " ++ newSerial ++
    " (" ++ (info0.getDflt "name" (Val.str "Unnamed")).render ++ ", " ++
    (info0.getDflt "model" (Val.str "Unknown")).render ++ ")"))
  let a : DevAcc := { st := st, settings := settings, imap := [], restored := 0, failed := 0 }
  let a := devSummary newSerial (devStack (devPorts newSerial (devWarmSpare newSerial
    (devRendezvous newSerial (devMulticast newSerial (devOspf newSerial
    (devRoutes newSerial (devDhcp newSerial (devIfaces newSerial a)))))))))
  (a.st, a.settings, a.restored, a.failed)

/-- The device loop of `_restore_device_settings`: a serial with no entry in
the snapshot device settings is skipped with a warning; otherwise the device
is restored and its (possibly mutated) settings bundle is written back. -/
def restoreDeviceSettingsGo : RSt → Val → List (String × String) → RSt × Val
  | st, deviceSettings, [] => (st, deviceSettings)
  | st, deviceSettings, (oldSerial, newSerial) :: rest =>
    if deviceSettings.hasKey oldSerial then
      match restoreDeviceFor st newSerial (deviceSettings.get oldSerial) with
      | (st₁, settings', _, _) =>
        restoreDeviceSettingsGo st₁ (deviceSettings.set oldSerial settings') rest
    else
      restoreDeviceSettingsGo
        (logAdd st (LogEntry.warn ("No settings found for device " ++ oldSerial)))
        deviceSettings rest

/-- `_restore_device_settings`: header log lines, then the device loop. -/
def restoreDeviceSettings (st : RSt) (deviceSettings : Val)
    (deviceMapping : List (String × String)) : RSt × Val :=
  let st := logAdds st [LogEntry.info ("Restoring device-specific settings for " ++
      toString deviceMapping.length ++ " devices..."),
    LogEntry.info "Note: Restoring all settings regardless of device status"]
  restoreDeviceSettingsGo st deviceSettings deviceMapping

/-- Read-only fields removed by `_clean_api_data` for every resource. -/
def defaultRemove : List String :=
  ["id", "serial", "mac", "warnings", "errors", "createdAt", "updatedAt",
   "lastUpdated", "status", "usage", "counts"]

/-- `_clean_api_data`: empty dict for falsy input, otherwise drop the default
read-only fields plus the extra ones, then drop `None`-valued keys. -/
def cleanApiData (data : Val) (extra : List String) : Val :=
  if !truthy data then Val.dict [] else
    match data.excl (defaultRemove ++ extra) with
    | Val.dict kvs => Val.dict (kvs.filter (fun p => !p.2.isNone))
    | v => v

/-- The port-schedules loop of `_restore_network_settings`: each schedule is
created without its `id`; a conflict (`already exists`) falls back to listing
the existing schedules and matching by name (all failures of that fallback
are swallowed); other failures are logged as errors. -/
def restoreSchedulesGo (nid : String) :
    RSt → List (Val × Val) → Nat → List Val → RSt × List (Val × Val) × Nat
  | st, smap, count, [] => (st, smap, count)
  | st, smap, count, schedule :: rest =>
    let oldId := schedule.get "id"
    let sd := schedule.excl ["id"]
    match apiCall st (Ev.postPortSchedule nid sd) with
    | (ApiR.val v, st₁) =>
      if truthy v && v.hasKey "id" then
        restoreSchedulesGo nid
          (logAdd st₁ (LogEntry.debug ("  ✓ Created port schedule: " ++
             (schedule.get "name").render)))
          (vset smap oldId (v.get "id")) (count + 1) rest
      else restoreSchedulesGo nid st₁ smap count rest
    | (ApiR.nil, st₁) => restoreSchedulesGo nid st₁ smap count rest
    | (ApiR.exn m, st₁) =>
      if strContains m "already exists" then
        match apiCall st₁ (Ev.getPortSchedules nid) with
        | (ApiR.val (Val.list xs), st₂) =>
          match xs.find? (fun x => Val.beq (x.get "name") (schedule.get "name")) with
          | Option.some x =>
            restoreSchedulesGo nid
              (logAdd st₂ (LogEntry.debug ("  ℹ Found existing port schedule: " ++
                 (schedule.get "name").render)))
              (vset smap oldId (x.get "id")) count rest
          | Option.none => restoreSchedulesGo nid st₂ smap count rest
        | (_, st₂) => restoreSchedulesGo nid st₂ smap count rest
      else
        restoreSchedulesGo nid
          (logAdd st₁ (LogEntry.error ("  ✗ Failed to restore port schedule " ++
             (schedule.get "name").render ++ ": " ++ m)))
          smap count rest

/-- Port-schedule restore step, with its trailing info line; returns the
schedule translation table and the restored-count delta (always 1: the outer
`try` of the Python code cannot fail). -/
def restoreSchedules (st : RSt) (nid : String) (schedules : List Val) :
    RSt × List (Val × Val) × Nat :=
  match restoreSchedulesGo nid st [] 0 schedules with
  | (st₁, smap, count) =>
    (logAdd st₁ (LogEntry.info ("Restored " ++ toString count ++ " port schedules")),
     smap, 1)

/-- The QoS-rules loop: each rule is created without its `id`; failures are
logged as errors and do not stop the loop. -/
def restoreQosGo (nid : String) :
    RSt → List (Val × Val) → Nat → List Val → RSt × List (Val × Val) × Nat
  | st, qmap, count, [] => (st, qmap, count)
  | st, qmap, count, rule :: rest =>
    match apiCall st (Ev.postQosRule nid (rule.excl ["id"])) with
    | (ApiR.val v, st₁) =>
      if truthy v && v.hasKey "id" then
        restoreQosGo nid st₁ (vset qmap (rule.get "id") (v.get "id")) (count + 1) rest
      else restoreQosGo nid st₁ qmap count rest
    | (ApiR.nil, st₁) => restoreQosGo nid st₁ qmap count rest
    | (ApiR.exn m, st₁) =>
      restoreQosGo nid
        (logAdd st₁ (LogEntry.error ("  ✗ Failed to restore QoS rule: " ++ m)))
        qmap count rest

/-- QoS-rule restore step with its trailing info line. -/
def restoreQosRules (st : RSt) (nid : String) (rules : List Val) :
    RSt × List (Val × Val) × Nat :=
  match restoreQosGo nid st [] 0 rules with
  | (st₁, qmap, count) =>
    (logAdd st₁ (LogEntry.info ("Restored " ++ toString count ++ " QoS rules")), qmap, 1)

/-- The link-aggregations loop, same shape as the QoS loop. -/
def restoreLinkAggGo (nid : String) :
    RSt → List (Val × Val) → Nat → List Val → RSt × List (Val × Val) × Nat
  | st, lmap, count, [] => (st, lmap, count)
  | st, lmap, count, agg :: rest =>
    match apiCall st (Ev.postLinkAggregation nid (agg.excl ["id"])) with
    | (ApiR.val v, st₁) =>
      if truthy v && v.hasKey "id" then
        restoreLinkAggGo nid st₁ (vset lmap (agg.get "id") (v.get "id")) (count + 1) rest
      else restoreLinkAggGo nid st₁ lmap count rest
    | (ApiR.nil, st₁) => restoreLinkAggGo nid st₁ lmap count rest
    | (ApiR.exn m, st₁) =>
      restoreLinkAggGo nid
        (logAdd st₁ (LogEntry.error ("  ✗ Failed to restore link aggregation: " ++ m)))
        lmap count rest

/-- Link-aggregation restore step with its trailing info line. -/
def restoreLinkAggs (st : RSt) (nid : String) (aggs : List Val) :
    RSt × List (Val × Val) × Nat :=
  match restoreLinkAggGo nid st [] 0 aggs with
  | (st₁, lmap, count) =>
    (logAdd st₁ (LogEntry.info ("Restored " ++ toString count ++ " link aggregations")),
     lmap, 1)

/-- Default `radius` block filled in when a captured policy lacks one. -/
def policyRadiusDefault : Val :=
  Val.dict [("criticalAuth", Val.dict [("dataVlanId", Val.vnone),
      ("voiceVlanId", Val.vnone), ("suspendPortBounce", Val.boolean false)]),
    ("failedAuthVlanId", Val.vnone), ("reAuthenticationInterval", Val.vnone),
    ("cache", Val.dict [("enabled", Val.boolean false), ("timeout", Val.nat 24)])]

/-- Transformation of the captured RADIUS servers into creation format: the
`serverId` is dropped and a placeholder secret is synthesized, because the
real secret is never retrievable from the source. -/
def cleanedRadiusServers (servers : List Val) : List Val :=
  servers.map (fun s => Val.dict [("host", s.get "host"),
    ("port", s.getDflt "port" (Val.nat 1812)),
    ("secret", Val.str "REPLACE_WITH_ACTUAL_SECRET")])

/-- Same transformation for RADIUS accounting servers (default port 1813). -/
def cleanedAccountingServers (servers : List Val) : List Val :=
  servers.map (fun s => Val.dict [("host", s.get "host"),
    ("port", s.getDflt "port" (Val.nat 1813)),
    ("secret", Val.str "REPLACE_WITH_ACTUAL_SECRET")])

/-- The operator warning emitted for the `i`-th (0-based) RADIUS server of a
created policy, naming its host:port and demanding a secret update. -/
def radiusServerWarn (i : Nat) (server : Val) : LogEntry :=
  LogEntry.warn ("       - Server " ++ toString (i + 1) ++ ": " ++
    (server.get "host").render ++ ":" ++ (server.get "port").render ++
    " - UPDATE SECRET REQUIRED")

/-- Same for an accounting server. -/
def accountingServerWarn (i : Nat) (server : Val) : LogEntry :=
  LogEntry.warn ("       - Accounting Server " ++ toString (i + 1) ++ ": " ++
    (server.get "host").render ++ ":" ++ (server.get "port").render ++
    " - UPDATE SECRET REQUIRED")

/-- Build of the `policy_config` dict submitted for one access policy, from
the cleaned policy data. -/
def buildPolicyConfig (pd : Val) : Val :=
  let base := Val.dict [
    ("name", pd.getDflt "name" (Val.str "Unnamed Policy")),
    ("radiusServers", pd.getDflt "radiusServers" (Val.list [])),
    ("radiusTestingEnabled", pd.getDflt "radiusTestingEnabled" (Val.boolean true)),
    ("guestPortBouncing", pd.getDflt "guestPortBouncing" (Val.boolean false)),
    ("radiusGroupAttribute", pd.getDflt "radiusGroupAttribute" (Val.str "")),
    ("radius", pd.getDflt "radius" policyRadiusDefault),
    ("radiusCoaSupportEnabled", pd.getDflt "radiusCoaSupportEnabled" (Val.boolean false)),
    ("radiusAccountingEnabled", pd.getDflt "radiusAccountingEnabled" (Val.boolean false)),
    ("radiusAccountingServers", pd.getDflt "radiusAccountingServers" (Val.list [])),
    ("hostMode", pd.getDflt "hostMode" (Val.str "Single-Host")),
    ("accessPolicyType", pd.getDflt "accessPolicyType" (Val.str "802.1x")),
    ("authenticationMethod", pd.getDflt "authenticationMethod" (Val.str "my RADIUS server")),
    ("guestVlanId", pd.get "guestVlanId"),
    ("voiceVlanClients", pd.getDflt "voiceVlanClients" (Val.boolean true)),
    ("urlRedirectWalledGardenEnabled", pd.getDflt "urlRedirectWalledGardenEnabled" (Val.boolean false))]
  let base := if truthy (pd.get "dot1x") then base.set "dot1x" (pd.get "dot1x") else base
  let base := if truthy (pd.get "portScheduleId") then
      base.set "portScheduleId" (pd.get "portScheduleId") else base
  let base := if truthy (pd.get "increaseAccessSpeed") then
      base.set "increaseAccessSpeed" (pd.get "increaseAccessSpeed") else base
  let base := if truthy (pd.get "guestVlanDenyLocalAccess") then
      base.set "guestVlanDenyLocalAccess" (pd.get "guestVlanDenyLocalAccess") else base
  if truthy (pd.get "urlRedirectWalledGardenRanges") then
    base.set "urlRedirectWalledGardenRanges" (pd.get "urlRedirectWalledGardenRanges") else base

/-- The cleaned policy data for one captured access policy, before the
`policy_config` build: read-only fields dropped, RADIUS servers replaced by
placeholder-secret versions, and the port-schedule reference rewritten
through the schedule table (or dropped with a warning).  Returns the log
lines emitted by the rewrite. -/
def cleanPolicyData (psMap : List (Val × Val)) (policy : Val) : Val × List LogEntry :=
  let pd := cleanApiData policy ["accessPolicyNumber", "counts", "enforceRadiusMonitoring"]
  let pd := if truthy (pd.get "radiusServers") then
      pd.set "radiusServers" (Val.list (cleanedRadiusServers (pd.get "radiusServers").items))
    else pd
  let (pd, ls) :=
    if truthy (pd.get "portScheduleId") then
      let oldId := pd.get "portScheduleId"
      let newId := mlookup psMap oldId
      if truthy newId then (pd.set "portScheduleId" newId, [])
      else (pd.excl ["portScheduleId"],
        [LogEntry.warn ("Could not map port schedule " ++ oldId.render ++
           " for policy " ++ (pd.get "name").render)])
    else (pd, [])
  let pd := if truthy (pd.get "radiusAccountingServers") then
      pd.set "radiusAccountingServers"
        (Val.list (cleanedAccountingServers (pd.get "radiusAccountingServers").items))
    else pd
  (pd, ls)

/-- Restore of one access policy (body of the loop in
`_restore_access_policies_with_mapping`): the policy is submitted with
placeholder-secret RADIUS servers; on success one operator warning per
RADIUS server (and per accounting server) is emitted naming its host:port. -/
def restoreOnePolicy (nid : String) (psMap : List (Val × Val)) (st : RSt)
    (apMap : List (Val × Val)) (count : Nat) (policy : Val) :
    RSt × List (Val × Val) × Nat :=
  let oldPolicyNumber := policy.get "accessPolicyNumber"
  match cleanPolicyData psMap policy with
  | (pd, ls) =>
    let st := logAdds st ls
    let pc := buildPolicyConfig pd
    let st := logAdd st (LogEntry.debug "Creating access policy with data: [dict]")
    match apiCall st (Ev.postAccessPolicy nid pc) with
    | (ApiR.exn m, st₁) =>
      let st₂ := logAdd st₁ (LogEntry.error ("  ✗ Failed to restore access policy " ++
        (pc.get "name").render ++ ": " ++ m))
      let st₃ :=
        if strContains (strLower m) "secret" || strContains (strLower m) "radius" then
          logAdds st₂ [LogEntry.error "     This may be due to invalid RADIUS server configuration",
            LogEntry.error "     The API requires a valid secret field for each RADIUS server"]
        else st₂
      (logAdd st₃ (LogEntry.debug "    Failed policy data: [dict]"), apMap, count)
    | (r, st₁) =>
      let apMap₁ :=
        match r with
        | ApiR.val v =>
          if truthy v && v.hasKey "accessPolicyNumber" then
            vset apMap oldPolicyNumber (v.get "accessPolicyNumber") else apMap
        | _ => apMap
      let st₂ := logAdd st₁ (LogEntry.info ("  ✓ Restored access policy: " ++
        (pc.get "name").render))
      let st₃ :=
        if truthy (pc.get "radiusServers") then
          logAdds st₂ ([LogEntry.warn "  ⚠️  CRITICAL: RADIUS server secrets MUST be updated!",
            LogEntry.warn ("     Policy " ++ (pc.get "name").render ++ " has " ++
              toString (pc.get "radiusServers").items.length ++ " RADIUS server(s):")] ++
            ((pc.get "radiusServers").items.enum.map (fun p => radiusServerWarn p.1 p.2)))
        else st₂
      let st₄ :=
        if truthy (pc.get "radiusAccountingServers") then
          logAdds st₃ ([LogEntry.warn ("     Policy " ++ (pc.get "name").render ++ " has " ++
              toString (pc.get "radiusAccountingServers").items.length ++
              " RADIUS accounting server(s):")] ++
            ((pc.get "radiusAccountingServers").items.enum.map
              (fun p => accountingServerWarn p.1 p.2)))
        else st₃
      (st₄, apMap₁, count + 1)

/-- The access-policies loop. -/
def restorePoliciesGo (nid : String) (psMap : List (Val × Val)) :
    RSt → List (Val × Val) → Nat → List Val → RSt × List (Val × Val) × Nat
  | st, apMap, count, [] => (st, apMap, count)
  | st, apMap, count, policy :: rest =>
    match restoreOnePolicy nid psMap st apMap count policy with
    | (st₁, a₁, c₁) => restorePoliciesGo nid psMap st₁ a₁ c₁ rest

/-- `_restore_access_policies_with_mapping`: the loop plus the trailing
security banner (emitted whenever at least one policy was restored). -/
def restoreAccessPoliciesWithMapping (st : RSt) (nid : String) (policies : List Val)
    (psMap : List (Val × Val)) : RSt × List (Val × Val) × Bool × Nat :=
  match restorePoliciesGo nid psMap st [] 0 policies with
  | (st₁, apMap, count) =>
    let st₂ :=
      if count > 0 then
        logAdds st₁ [LogEntry.warn ("\n" ++ String.mk (List.replicate 70 (Char.ofNat 61))),
          LogEntry.warn "IMPORTANT: RADIUS SERVER SECURITY",
          LogEntry.warn (String.mk (List.replicate 70 (Char.ofNat 61))),
          LogEntry.warn "All RADIUS server secrets have been set to REPLACE_WITH_ACTUAL_SECRET",
          LogEntry.warn "You MUST update these secrets in the Meraki dashboard before using these policies!",
          LogEntry.warn "Go to Network > Switch > Access policies to update the RADIUS secrets.",
          LogEntry.warn (String.mk (List.replicate 70 (Char.ofNat 61)) ++ "\n")]
      else st₁
    (st₂, apMap, true, count)

/-- A line of 50 equals signs, the log banner of the restore entry points. -/
def eqBanner : String := String.mk (List.replicate 50 (Char.ofNat 61))

/-- Accumulator of the network-level restore: run state, the supported
product types of the target, the four identifier translation tables and the
two counters. -/
structure NetAcc where
  st : RSt
  supported : Val
  psMap : List (Val × Val)
  qMap : List (Val × Val)
  lMap : List (Val × Val)
  apMap : List (Val × Val)
  restoredC : Nat
  failedC : Nat

/-- Product-type probe of the target network (`GET /networks/{id}`); any
failure leaves the supported list empty with a warning. -/
def netProbe (nid : String) (a : NetAcc) : NetAcc :=
  match apiCall a.st (Ev.getNetwork nid) with
  | (ApiR.val v, st₁) =>
    { a with
      st := logAdd st₁ (LogEntry.info ("Target network supports product types: " ++
        (v.getDflt "productTypes" (Val.list [])).render))
      supported := v.getDflt "productTypes" (Val.list []) }
  | (ApiR.nil, st₁) =>
    { a with
      st := logAdd st₁ (LogEntry.warn "Could not get network info: NoneType object has no attribute get")
      supported := Val.list [] }
  | (ApiR.exn m, st₁) =>
    { a with
      st := logAdd st₁ (LogEntry.warn ("Could not get network info: " ++ m))
      supported := Val.list [] }

/-- Network step 1: port schedules (restored first, before the access
policies that reference them). -/
def netSchedules (nid : String) (sw : Val) (a : NetAcc) : NetAcc :=
  if truthy (sw.get "portSchedules") then
    match restoreSchedules a.st nid (sw.get "portSchedules").items with
    | (st₁, smap, r) =>
      { a with
        st := st₁
        psMap := smap
        restoredC := a.restoredC + r }
  else a

/-- Network step 2: QoS rules. -/
def netQos (nid : String) (sw : Val) (a : NetAcc) : NetAcc :=
  if truthy (sw.get "qosRules") then
    match restoreQosRules a.st nid (sw.get "qosRules").items with
    | (st₁, qmap, r) =>
      { a with
        st := st₁
        qMap := qmap
        restoredC := a.restoredC + r }
  else a

/-- Network step 3: link aggregations. -/
def netLinkAggs (nid : String) (sw : Val) (a : NetAcc) : NetAcc :=
  if truthy (sw.get "linkAggregations") then
    match restoreLinkAggs a.st nid (sw.get "linkAggregations").items with
    | (st₁, lmap, r) =>
      { a with
        st := st₁
        lMap := lmap
        restoredC := a.restoredC + r }
  else a

/-- Network step 4: access policies (with inline RADIUS servers). -/
def netPolicies (nid : String) (sw : Val) (a : NetAcc) : NetAcc :=
  if truthy (sw.get "accessPolicies") then
    match restoreAccessPoliciesWithMapping a.st nid (sw.get "accessPolicies").items a.psMap with
    | (st₁, apMap, success, n) =>
      if success && n > 0 then
        { a with
          st := logAdd st₁ (LogEntry.info ("Restored " ++ toString n ++
            " access policies with RADIUS servers"))
          apMap := apMap
          restoredC := a.restoredC + 1 }
      else if !success then
        { a with
          st := logAdd st₁ (LogEntry.error "Failed to restore access policies")
          apMap := apMap
          failedC := a.failedC + 1 }
      else
        { a with
          st := logAdd st₁ (LogEntry.info "No access policies were restored")
          apMap := apMap }
  else a

/-- Network step 5: STP. -/
def netStp (nid : String) (sw : Val) (a : NetAcc) : NetAcc :=
  if truthy (sw.get "stp") then
    match apiCall a.st (Ev.putStp nid (cleanApiData (sw.get "stp") ["warnings", "errors"])) with
    | (ApiR.exn m, st₁) =>
      { a with
        st := logAdd st₁ (LogEntry.error ("Failed to restore STP: " ++ m))
        failedC := a.failedC + 1 }
    | (_, st₁) =>
      { a with
        st := logAdd st₁ (LogEntry.info "Restored STP settings")
        restoredC := a.restoredC + 1 }
  else a

/-- Network step 6: MTU, only when the target's product types include
`switch`; a 400 or `does not support` failure is "not applicable", not a
failure. -/
def netMtu (nid : String) (sw : Val) (a : NetAcc) : NetAcc :=
  if truthy (sw.get "mtu") && (a.supported.items.any (fun x => Val.beq x (Val.str "switch"))) then
    let mtuCleaned := (cleanApiData (sw.get "mtu") ["warnings", "errors"]).keepOnly
      ["defaultMtuSize", "overrides"]
    if truthy mtuCleaned then
      match apiCall a.st (Ev.putMtu nid mtuCleaned) with
      | (ApiR.exn m, st₁) =>
        if strContains m "400" || strContains m "does not support" then
          { a with st := logAdd st₁ (LogEntry.info "MTU settings not supported on this network") }
        else
          { a with
            st := logAdd st₁ (LogEntry.error ("Failed to restore MTU: " ++ m))
            failedC := a.failedC + 1 }
      | (_, st₁) =>
        { a with
          st := logAdd st₁ (LogEntry.info "Restored MTU settings")
          restoredC := a.restoredC + 1 }
    else { a with st := logAdd a.st (LogEntry.info "Skipped MTU - no valid settings to restore") }
  else a

/-- Closing log lines of the network-level restore. -/
def netWrapUp (a : NetAcc) : NetAcc :=
  let st := logAdd a.st (LogEntry.info ("Restored " ++ toString a.restoredC ++
    " network-level settings successfully"))
  if a.failedC > 0 then
    { a with st := logAdds st [LogEntry.warn ("Failed to restore " ++ toString a.failedC ++
        " network-level settings"),
      LogEntry.warn "Some settings may not be applicable to the new network or may need manual configuration"] }
  else { a with st := st }

/-- `_restore_network_settings`: product-type probe, then port schedules, QoS
rules, link aggregations, access policies, STP and MTU, in that fixed order.
No other network-level resource is touched (the Python code ends with a
comment in place of the remaining scalar settings).  Returns the four
identifier translation tables built for network resources. -/
def restoreNetworkSettings (st : RSt) (settings : Val) (nid : String) :
    RSt × List (Val × Val) × List (Val × Val) × List (Val × Val) × List (Val × Val) :=
  let a₀ : NetAcc :=
    { st := logAdd st (LogEntry.info "Restoring network-level settings...")
      supported := Val.list []
      psMap := []
      qMap := []
      lMap := []
      apMap := []
      restoredC := 0
      failedC := 0 }
  let sw := settings.get "switch"
  let a := netWrapUp (netMtu nid sw (netStp nid sw (netPolicies nid sw
    (netLinkAggs nid sw (netQos nid sw (netSchedules nid sw (netProbe nid a₀)))))))
  (a.st, a.apMap, a.psMap, a.qMap, a.lMap)

/-- `restore_all_settings`: network-level settings are always restored;
device-level settings only when a non-empty device mapping is given,
otherwise a single warning is emitted and they are skipped.  Returns the
final state and the backup document as left by the run (the device loop
mutates some nested dicts of it in place). -/
def restoreAllSettings (st : RSt) (backup : Val) (targetNid : String)
    (deviceMapping : Option (List (String × String))) : RSt × Val :=
  let st := logAdds st [LogEntry.info ("Starting comprehensive restore to network " ++ targetNid),
    LogEntry.info eqBanner,
    LogEntry.info "RESTORATION MODE: Force all settings regardless of device status",
    LogEntry.info eqBanner]
  let (st, _, _, _, _) := restoreNetworkSettings st (backup.get "network_settings") targetNid
  let (st, backup') :=
    match deviceMapping with
    | Option.some dm =>
      if dm.isEmpty then
        (logAdd st (LogEntry.warn "No device mapping provided, skipping device-specific settings"),
         backup)
      else
        match restoreDeviceSettings st (backup.get "device_settings") dm with
        | (st₁, ds') => (st₁, backup.set "device_settings" ds')
    | Option.none =>
      (logAdd st (LogEntry.warn "No device mapping provided, skipping device-specific settings"),
       backup)
  let st := logAdds st [LogEntry.info eqBanner, LogEntry.info "RESTORE COMPLETE",
    LogEntry.info eqBanner,
    LogEntry.info "Settings have been pushed to the Meraki cloud.",
    LogEntry.info "They will be applied to devices when they come online.",
    LogEntry.info "\nPlease verify the following in the Dashboard:",
    LogEntry.info "  1. All network settings are properly configured",
    LogEntry.info "  2. Device configurations are queued/applied",
    LogEntry.info "  3. Port configurations are set correctly",
    LogEntry.info "  4. Routing and DHCP settings are configured",
    LogEntry.info "  5. Check for any configuration errors in the dashboard",
    LogEntry.info eqBanner]
  (st, backup')

/-- The endpoint table of `_backup_switch_network_settings`. -/
def switchEndpoints (nid : String) : List (String × String) :=
  [("stp", "/networks/" ++ nid ++ "/switch/stp"),
   ("mtu", "/networks/" ++ nid ++ "/switch/mtu"),
   ("settings", "/networks/" ++ nid ++ "/switch/settings"),
   ("accessPolicies", "/networks/" ++ nid ++ "/switch/accessPolicies"),
   ("portSchedules", "/networks/" ++ nid ++ "/switch/portSchedules"),
   ("qosRules", "/networks/" ++ nid ++ "/switch/qosRules"),
   ("stormControl", "/networks/" ++ nid ++ "/switch/stormControl"),
   ("dhcpServerPolicy", "/networks/" ++ nid ++ "/switch/dhcpServerPolicy"),
   ("dscpToCosMappings", "/networks/" ++ nid ++ "/switch/dscp"),
   ("alternateManagementInterface", "/networks/" ++ nid ++ "/switch/alternateManagementInterface"),
   ("linkAggregations", "/networks/" ++ nid ++ "/switch/linkAggregations")]

/-- Features that commonly return 404 during switch-settings backup (listed
only to lower log verbosity; behaviour is otherwise identical). -/
def optionalFeatures : List String :=
  ["dscpToCosMappings", "linkAggregations", "alternateManagementInterface",
   "accessControlLists"]

/-- One iteration of the `_backup_switch_network_settings` loop: a value
stores the key, a `None` result (404) leaves the key absent (with a debug or
info note), and a raised exception leaves the key absent and logs a warning
unless its message mentions 404. -/
def backupStep (fetch : String → ApiR) (acc : Val × List LogEntry) (p : String × String) :
    Val × List LogEntry :=
  match fetch p.2 with
  | ApiR.val v =>
    (acc.1.set p.1 v, acc.2 ++ [LogEntry.info ("Backed up switch " ++ p.1)])
  | ApiR.nil =>
    if optionalFeatures.contains p.1 then
      (acc.1, acc.2 ++ [LogEntry.debug ("Switch " ++ p.1 ++ " not available on this network")])
    else
      (acc.1, acc.2 ++ [LogEntry.info ("Switch " ++ p.1 ++ " not configured")])
  | ApiR.exn m =>
    if strContains m "404" then acc
    else (acc.1, acc.2 ++ [LogEntry.warn ("Could not backup switch " ++ p.1 ++ ": " ++ m)])

/-- `_backup_switch_network_settings`: fold of `backupStep` over the endpoint
table, starting from the settings dict passed in; returns the filled dict
and the log lines emitted. -/
def backupSwitchNetworkSettings (fetch : String → ApiR) (nid : String) (settings : Val) :
    Val × List LogEntry :=
  (switchEndpoints nid).foldl (backupStep fetch) (settings, [])

/-- Python `s.startswith(p)`. -/
def strStartsWith (s p : String) : Bool := matchesAt s.data p.data

/-- Python `settings[k1][k2] = v` (nested dict assignment). -/
def setPath2 (settings : Val) (k1 k2 : String) (v : Val) : Val :=
  settings.set k1 ((settings.get k1).set k2 v)

/-- The settings bundle `_backup_device_settings` starts from: `ports`,
`management`, `routing`, `dhcp` and `warmSpare` are pre-initialized as empty
placeholders before any read happens. -/
def devInitSettings (deviceInfo : Val) : Val :=
  Val.dict [("info", deviceInfo), ("ports", Val.list []), ("management", Val.dict []),
    ("routing", Val.dict []), ("dhcp", Val.dict []), ("warmSpare", Val.dict [])]

/-- The management-interface read of `_backup_device_settings`: a value
replaces the placeholder, an absent result leaves it with a debug note, and a
raised failure is warned about unless its message mentions 404. -/
def devMgmtStep (fetch : String → ApiR) (serial : String) (settings : Val) :
    Val × List LogEntry :=
  match fetch ("/devices/" ++ serial ++ "/managementInterface") with
  | ApiR.val v => (settings.set "management" v, [])
  | ApiR.nil =>
    (settings, [LogEntry.debug ("No management interface configured for " ++ serial)])
  | ApiR.exn m =>
    if strContains m "404" then (settings, [])
    else (settings, [LogEntry.warn ("Could not backup management interface for " ++
      serial ++ ": " ++ m)])

/-- The switch-ports read: a value replaces the `[]` placeholder, an absent
result leaves it with an info note, a raised failure is warned about unless
its message mentions 404. -/
def devPortsStep (fetch : String → ApiR) (serial : String) (settings : Val) :
    Val × List LogEntry :=
  match fetch ("/devices/" ++ serial ++ "/switch/ports") with
  | ApiR.val v => (settings.set "ports" v,
      [LogEntry.info ("Backed up " ++ toString v.items.length ++ " ports for " ++ serial)])
  | ApiR.nil => (settings, [LogEntry.info ("No port configuration for " ++ serial)])
  | ApiR.exn m =>
    if strContains m "404" then (settings, [])
    else (settings, [LogEntry.warn ("Could not backup ports for " ++ serial ++ ": " ++ m)])

/-- A device read whose only failure handling is `except Exception: pass`:
a value is stored under `settings[k1][k2]` with an info line, everything
else — absent result or ANY raised failure — leaves the settings untouched
and logs nothing at all. -/
def devQuietSet (fetch : String → ApiR) (url : String) (settings : Val)
    (k1 k2 : String) (ok : Val → LogEntry) : Val × List LogEntry :=
  match fetch url with
  | ApiR.val v => (setPath2 settings k1 k2 v, [ok v])
  | _ => (settings, [])

/-- Same, for a read stored under a top-level key (`warmSpare`). -/
def devQuietSetTop (fetch : String → ApiR) (url : String) (settings : Val)
    (k : String) (ok : Val → LogEntry) : Val × List LogEntry :=
  match fetch url with
  | ApiR.val v => (settings.set k v, [ok v])
  | _ => (settings, [])

/-- The per-interface DHCP loop of the device backup: each interface with an
id is queried, a raised failure is silently swallowed (`except: pass`). -/
def devIfaceDhcpGo (fetch : String → ApiR) (serial : String) :
    List Val → List Val × List LogEntry
  | [] => ([], [])
  | iface :: rest =>
    let iid := iface.get "interfaceId"
    if truthy iid then
      match fetch ("/devices/" ++ serial ++ "/switch/routing/interfaces/" ++
          iid.render ++ "/dhcp") with
      | ApiR.val v =>
        match devIfaceDhcpGo fetch serial rest with
        | (items, logs) =>
          (Val.dict [("interfaceId", iid), ("dhcpSettings", v)] :: items,
           LogEntry.debug ("Backed up DHCP for interface " ++ iid.render) :: logs)
      | _ => devIfaceDhcpGo fetch serial rest
    else devIfaceDhcpGo fetch serial rest

/-- The interface-DHCP block: runs only when routing interfaces were captured;
a nonempty result is stored with an info line. -/
def devIfaceDhcpStep (fetch : String → ApiR) (serial : String) (settings : Val) :
    Val × List LogEntry :=
  if truthy ((settings.get "routing").get "interfaces") then
    match devIfaceDhcpGo fetch serial ((settings.get "routing").get "interfaces").items with
    | (items, logs) =>
      if !items.isEmpty then
        (setPath2 settings "dhcp" "interfaceDhcp" (Val.list items),
         logs ++ [LogEntry.info ("Backed up DHCP settings for " ++
           toString items.length ++ " interfaces")])
      else (settings, logs)
  else (settings, [])

/-- First stack of the listing that contains the serial. -/
def findStack (serial : String) : List Val → Option Val
  | [] => Option.none
  | stack :: rest =>
    if (stack.getDflt "serials" (Val.list [])).items.any
        (fun x => Val.beq x (Val.str serial)) then Option.some stack
    else findStack serial rest

/-- The stack-information read (failure silently swallowed). -/
def devStackStep (fetch : String → ApiR) (serial : String) (deviceInfo : Val)
    (settings : Val) : Val × List LogEntry :=
  match fetch ("/networks/" ++ (deviceInfo.get "networkId").render ++ "/switch/stacks") with
  | ApiR.val v =>
    if truthy v then
      match findStack serial v.items with
      | Option.some stack =>
        (settings.set "stackInfo" stack,
         [LogEntry.info ("Backed up stack information for " ++ serial)])
      | Option.none => (settings, [])
    else (settings, [])
  | _ => (settings, [])

/-- `_backup_device_settings`: the pre-initialized bundle, the management
read, and — for MS/C9 models — ports, the routing/DHCP/multicast reads
(each with `except: pass`), the per-interface DHCP loop, warm spare and
stack information. -/
def backupDeviceSettings (fetch : String → ApiR) (serial : String) (deviceInfo : Val) :
    Val × List LogEntry :=
  let deviceName := (deviceInfo.getDflt "name" (Val.str "Unnamed")).render
  let log0 := [LogEntry.info ("Backing up device " ++ serial ++ " (" ++ deviceName ++ ")")]
  let settings := devInitSettings deviceInfo
  let (settings, l1) := devMgmtStep fetch serial settings
  let model := (deviceInfo.getDflt "model" (Val.str "")).render
  if strStartsWith model "MS" || strStartsWith model "C9" then
    let (settings, l2) := devPortsStep fetch serial settings
    let (settings, l3) := devQuietSet fetch
      ("/devices/" ++ serial ++ "/switch/routing/interfaces") settings
      "routing" "interfaces" (fun v => LogEntry.info ("Backed up " ++
        toString v.items.length ++ " routing interfaces for " ++ serial))
    let (settings, l4) := devQuietSet fetch
      ("/devices/" ++ serial ++ "/switch/routing/staticRoutes") settings
      "routing" "staticRoutes" (fun v => LogEntry.info ("Backed up " ++
        toString v.items.length ++ " static routes for " ++ serial))
    let (settings, l5) := devQuietSet fetch
      ("/devices/" ++ serial ++ "/switch/routing/ospf") settings
      "routing" "ospf" (fun _ => LogEntry.info ("Backed up OSPF settings for " ++ serial))
    let (settings, l6) := devQuietSet fetch
      ("/devices/" ++ serial ++ "/switch/routing/multicast") settings
      "routing" "multicast"
      (fun _ => LogEntry.info ("Backed up multicast settings for " ++ serial))
    let (settings, l7) := devQuietSet fetch
      ("/devices/" ++ serial ++ "/switch/routing/multicast/rendezvousPoints") settings
      "routing" "rendezvousPoints"
      (fun _ => LogEntry.info ("Backed up multicast rendezvous points for " ++ serial))
    let (settings, l8) := devQuietSet fetch
      ("/devices/" ++ serial ++ "/switch/dhcp/v4/servers") settings
      "dhcp" "servers"
      (fun _ => LogEntry.info ("Backed up DHCP server settings for " ++ serial))
    let (settings, l9) := devQuietSet fetch
      ("/devices/" ++ serial ++ "/switch/dhcp/v4/relays") settings
      "dhcp" "relays"
      (fun _ => LogEntry.info ("Backed up DHCP relay settings for " ++ serial))
    let (settings, l10) := devIfaceDhcpStep fetch serial settings
    let (settings, l11) := devQuietSetTop fetch
      ("/devices/" ++ serial ++ "/switch/warmSpare") settings "warmSpare"
      (fun _ => LogEntry.info ("Backed up warm spare settings for " ++ serial))
    let (settings, l12) := devStackStep fetch serial deviceInfo settings
    (settings, log0 ++ l1 ++ l2 ++ l3 ++ l4 ++ l5 ++ l6 ++ l7 ++ l8 ++ l9 ++
      l10 ++ l11 ++ l12)
  else
    (settings, log0 ++ l1)

/-- Create/update calls on a routing interface of a device. -/
def Ev.isInterfaceWrite : Ev → Bool
  | Ev.putInterface _ _ _ => true
  | Ev.postInterface _ _ => true
  | _ => false

/-- The operations that depend on routing interfaces: static-route creation,
OSPF update, multicast update, rendezvous-point creation, per-interface DHCP
update. -/
def Ev.isDependentOp : Ev → Bool
  | Ev.postStaticRoute _ _ => true
  | Ev.putOspf _ _ => true
  | Ev.putMulticast _ _ => true
  | Ev.postRendezvousPoint _ _ => true
  | Ev.putInterfaceDhcp _ _ _ => true
  | _ => false

/-- Management-interface writes and device-status reads. -/
def Ev.isMgmtOp : Ev → Bool
  | Ev.putManagement _ _ => true
  | Ev.getDeviceStatus _ => true
  | _ => false

/-- Events the routing-interfaces restore step may emit. -/
def ifaceEvOk : Ev → Bool
  | Ev.getInterfaces _ => true
  | Ev.putInterface _ _ _ => true
  | Ev.postInterface _ _ => true
  | _ => false

/-- Events the device-level steps after the routing-interfaces step may emit. -/
def afterIfaceEvOk : Ev → Bool
  | Ev.postDhcpServer _ _ => true
  | Ev.putDhcpRelays _ _ => true
  | Ev.putInterfaceDhcp _ _ _ => true
  | Ev.postStaticRoute _ _ => true
  | Ev.putOspf _ _ => true
  | Ev.putMulticast _ _ => true
  | Ev.postRendezvousPoint _ _ => true
  | Ev.putWarmSpare _ _ => true
  | Ev.putPort _ _ _ => true
  | _ => false

/-- Events the network-level restore may emit. -/
def netEvOk : Ev → Bool
  | Ev.getNetwork _ => true
  | Ev.postPortSchedule _ _ => true
  | Ev.getPortSchedules _ => true
  | Ev.postQosRule _ _ => true
  | Ev.postLinkAggregation _ _ => true
  | Ev.postAccessPolicy _ _ => true
  | Ev.putStp _ _ => true
  | Ev.putMtu _ _ => true
  | _ => false

theorem ifaceEvOk_not_dependent (e : Ev) (h : ifaceEvOk e = true) :
    e.isDependentOp = false := by
  cases e <;> simp_all [ifaceEvOk, Ev.isDependentOp]

theorem afterIfaceEvOk_not_interfaceWrite (e : Ev) (h : afterIfaceEvOk e = true) :
    e.isInterfaceWrite = false := by
  cases e <;> simp_all [afterIfaceEvOk, Ev.isInterfaceWrite]

theorem ifaceEvOk_not_mgmt (e : Ev) (h : ifaceEvOk e = true) : e.isMgmtOp = false := by
  cases e <;> simp_all [ifaceEvOk, Ev.isMgmtOp]

theorem afterIfaceEvOk_not_mgmt (e : Ev) (h : afterIfaceEvOk e = true) :
    e.isMgmtOp = false := by
  cases e <;> simp_all [afterIfaceEvOk, Ev.isMgmtOp]

theorem netEvOk_not_mgmt (e : Ev) (h : netEvOk e = true) : e.isMgmtOp = false := by
  cases e <;> simp_all [netEvOk, Ev.isMgmtOp]

theorem trace_logAdd (st : RSt) (l : LogEntry) : (logAdd st l).trace = st.trace := rfl

theorem trace_logAdds (st : RSt) (ls : List LogEntry) : (logAdds st ls).trace = st.trace := rfl

theorem restoreWarmSpare_trace (st : RSt) (serial : String) (ws : Val) :
    ∃ d, (restoreWarmSpare st serial ws).1.trace = st.trace ++ d ∧
      ∀ e ∈ d, afterIfaceEvOk e = true := by
  unfold restoreWarmSpare
  cases h0 : st.resp st.idx <;>
    · simp only [apiCall, h0, logAdd, logAdds]
      exact ⟨[Ev.putWarmSpare serial (ws.excl ["primarySerial", "spareSerial"])],
        rfl, by simp [afterIfaceEvOk]⟩

theorem restoreMulticast_trace (st : RSt) (serial : String) (imap : List (Val × Val))
    (mc : Val) :
    ∃ d, (restoreMulticast st serial imap mc).1.trace = st.trace ++ d ∧
      ∀ e ∈ d, afterIfaceEvOk e = true := by
  unfold restoreMulticast
  cases h0 : st.resp st.idx <;>
    · simp only [apiCall, h0, logAdd, logAdds]
      exact ⟨[_], rfl, by simp [afterIfaceEvOk]⟩

theorem restoreDhcpRelays_trace (st : RSt) (serial : String) (imap : List (Val × Val))
    (relays : Val) :
    ∃ d, (restoreDhcpRelays st serial imap relays).1.trace = st.trace ++ d ∧
      ∀ e ∈ d, afterIfaceEvOk e = true := by
  unfold restoreDhcpRelays
  cases h0 : st.resp st.idx <;>
    · simp only [apiCall, h0, logAdd, logAdds]
      exact ⟨[_], rfl, by simp [afterIfaceEvOk]⟩

theorem traceExt_trans {P : Ev → Bool} {st₁ st₂ st₃ : RSt}
    (h₁ : ∃ d, st₂.trace = st₁.trace ++ d ∧ ∀ e ∈ d, P e = true)
    (h₂ : ∃ d, st₃.trace = st₂.trace ++ d ∧ ∀ e ∈ d, P e = true) :
    ∃ d, st₃.trace = st₁.trace ++ d ∧ ∀ e ∈ d, P e = true := by
  obtain ⟨d₁, hd₁, hP₁⟩ := h₁
  obtain ⟨d₂, hd₂, hP₂⟩ := h₂
  refine ⟨d₁ ++ d₂, by simp [hd₂, hd₁], ?_⟩
  intro e he
  rcases List.mem_append.mp he with h | h
  · exact hP₁ e h
  · exact hP₂ e h

theorem traceExt_zero {P : Ev → Bool} {st st' : RSt} (h : st'.trace = st.trace) :
    ∃ d, st'.trace = st.trace ++ d ∧ ∀ x ∈ d, P x = true := ⟨[], by simp [h], by simp⟩

theorem traceExt_one {P : Ev → Bool} {st st' : RSt} {e : Ev}
    (h : st'.trace = st.trace ++ [e]) (hP : P e = true) :
    ∃ d, st'.trace = st.trace ++ d ∧ ∀ x ∈ d, P x = true := ⟨[e], h, by simp [hP]⟩

theorem restoreInterfaceDhcpGo_trace (serial : String) (imap : List (Val × Val))
    (items : List Val) :
    ∀ (st : RSt) (succ : Nat),
      ∃ d, (restoreInterfaceDhcpGo serial imap st succ items).1.trace = st.trace ++ d ∧
        ∀ e ∈ d, afterIfaceEvOk e = true := by
  induction items with
  | nil => intro st succ; exact traceExt_zero rfl
  | cons x rest ih =>
    intro st succ
    rw [restoreInterfaceDhcpGo]
    by_cases ht : truthy (mlookup imap (x.get "interfaceId")) <;> simp only [ht, if_true, if_false]
    · cases h0 : st.resp st.idx <;>
        · simp only [apiCall, h0]
          exact traceExt_trans (traceExt_one rfl (by simp [afterIfaceEvOk])) (ih _ _)
    · exact traceExt_trans (traceExt_zero rfl) (ih _ _)

theorem restoreDhcpServersGo_trace (serial : String) (imap : List (Val × Val))
    (servers : List Val) :
    ∀ (st : RSt) (smap : List (Val × Val)) (count : Nat),
      ∃ d, (restoreDhcpServersGo serial imap st smap count servers).1.trace =
        st.trace ++ d ∧ ∀ e ∈ d, afterIfaceEvOk e = true := by
  induction servers with
  | nil => intro st smap count; exact traceExt_zero rfl
  | cons x rest ih =>
    intro st smap count
    rw [restoreDhcpServersGo]
    by_cases h1 : truthy ((x.excl ["id"]).get "interfaceId") <;>
      simp only [h1, if_true, if_false]
    · by_cases h2 : truthy (mlookup imap ((x.excl ["id"]).get "interfaceId")) <;>
        simp only [h2, if_true, if_false]
      · cases h0 : st.resp st.idx
        · simp only [apiCall, h0]
          exact traceExt_trans (traceExt_one rfl (by simp [afterIfaceEvOk])) (ih _ _ _)
        · simp only [apiCall, h0]
          exact traceExt_trans (traceExt_one rfl (by simp [afterIfaceEvOk])) (ih _ _ _)
        · simp only [apiCall, h0]
          exact traceExt_one rfl (by simp [afterIfaceEvOk])
      · exact traceExt_trans (traceExt_zero rfl) (ih _ _ _)
    · cases h0 : st.resp st.idx
      · simp only [apiCall, h0]
        exact traceExt_trans (traceExt_one rfl (by simp [afterIfaceEvOk])) (ih _ _ _)
      · simp only [apiCall, h0]
        exact traceExt_trans (traceExt_one rfl (by simp [afterIfaceEvOk])) (ih _ _ _)
      · simp only [apiCall, h0]
        exact traceExt_one rfl (by simp [afterIfaceEvOk])

theorem restoreRendezvousGo_trace (serial : String) (imap : List (Val × Val))
    (rps : List Val) :
    ∀ (st : RSt) (pmap : List (Val × Val)) (count : Nat),
      ∃ d, (restoreRendezvousGo serial imap st pmap count rps).1.trace =
        st.trace ++ d ∧ ∀ e ∈ d, afterIfaceEvOk e = true := by
  induction rps with
  | nil => intro st pmap count; exact traceExt_zero rfl
  | cons x rest ih =>
    intro st pmap count
    rw [restoreRendezvousGo]
    by_cases h1 : truthy ((x.excl ["rendezvousPointId"]).get "interfaceId") <;>
      simp only [h1, if_true, if_false]
    · by_cases h2 : truthy (mlookup imap ((x.excl ["rendezvousPointId"]).get "interfaceId")) <;>
        simp only [h2, if_true, if_false]
      · cases h0 : st.resp st.idx
        · simp only [apiCall, h0]
          exact traceExt_trans (traceExt_one rfl (by simp [afterIfaceEvOk])) (ih _ _ _)
        · simp only [apiCall, h0]
          exact traceExt_trans (traceExt_one rfl (by simp [afterIfaceEvOk])) (ih _ _ _)
        · simp only [apiCall, h0]
          exact traceExt_one rfl (by simp [afterIfaceEvOk])
      · exact traceExt_trans (traceExt_zero rfl) (ih _ _ _)
    · cases h0 : st.resp st.idx
      · simp only [apiCall, h0]
        exact traceExt_trans (traceExt_one rfl (by simp [afterIfaceEvOk])) (ih _ _ _)
      · simp only [apiCall, h0]
        exact traceExt_trans (traceExt_one rfl (by simp [afterIfaceEvOk])) (ih _ _ _)
      · simp only [apiCall, h0]
        exact traceExt_one rfl (by simp [afterIfaceEvOk])

theorem restoreOneRoute_trace (serial : String) (imap : List (Val × Val)) (st : RSt)
    (rmap : List (Val × Val)) (succ failed : Nat) (route : Val) :
    ∃ d, (restoreOneRoute serial imap st rmap succ failed route).1.trace =
      st.trace ++ d ∧ ∀ e ∈ d, afterIfaceEvOk e = true := by
  rw [restoreOneRoute]
  by_cases h1 : truthy ((route.excl ["staticRouteId"]).get "interfaceId") <;>
    simp only [h1, if_true, if_false]
  · by_cases h2 : truthy (mlookup imap ((route.excl ["staticRouteId"]).get "interfaceId")) <;>
      simp only [h2, if_true, if_false]
    · cases h0 : st.resp st.idx <;>
        · simp only [apiCall, h0]
          exact traceExt_one rfl (by simp [afterIfaceEvOk])
    · exact traceExt_zero rfl
  · cases h0 : st.resp st.idx <;>
      · simp only [apiCall, h0]
        exact traceExt_one rfl (by simp [afterIfaceEvOk])

theorem restoreRoutesGo_trace (serial : String) (imap : List (Val × Val))
    (routes : List Val) :
    ∀ (st : RSt) (rmap : List (Val × Val)) (succ failed : Nat),
      ∃ d, (restoreRoutesGo serial imap st rmap succ failed routes).1.trace =
        st.trace ++ d ∧ ∀ e ∈ d, afterIfaceEvOk e = true := by
  induction routes with
  | nil => intro st rmap succ failed; exact traceExt_zero rfl
  | cons x rest ih =>
    intro st rmap succ failed
    rw [restoreRoutesGo]
    have h₁ := restoreOneRoute_trace serial imap st rmap succ failed x
    rcases h : restoreOneRoute serial imap st rmap succ failed x with ⟨st₁, r₁, s₁, f₁⟩
    rw [h] at h₁
    exact traceExt_trans h₁ (ih st₁ r₁ s₁ f₁)

theorem restoreOneInterface_trace (serial : String) (st : RSt) (mapping : List (Val × Val))
    (succ failed : Nat) (iface : Val) :
    ∃ e d, (restoreOneInterface serial st mapping succ failed iface).1.trace =
      st.trace ++ e :: d ∧ e.isInterfaceWrite = true ∧ ∀ x ∈ d, ifaceEvOk x = true := by
  rw [restoreOneInterface]
  by_cases hv : Val.beq (iface.get "vlanId") (Val.nat 1) = true
  · rw [if_pos hv]
    cases h0 : st.resp st.idx with
    | val v =>
      simp only [apiCall]
      simp only [h0]
      exact ⟨Ev.putInterface serial (Val.str "1") (iface.excl ["interfaceId", "serial"]),
        [], rfl, rfl, by simp⟩
    | nil =>
      simp only [apiCall]
      simp only [h0]
      exact ⟨Ev.putInterface serial (Val.str "1") (iface.excl ["interfaceId", "serial"]),
        [], rfl, rfl, by simp⟩
    | exn m =>
      simp only [apiCall]
      simp only [h0]
      exact ⟨Ev.putInterface serial (Val.str "1") (iface.excl ["interfaceId", "serial"]),
        [], rfl, rfl, by simp⟩
  · rw [if_neg hv]
    cases h0 : st.resp st.idx with
    | val v =>
      simp only [apiCall]
      simp only [h0]
      by_cases hk : (truthy v && v.hasKey "interfaceId") = true
      · rw [if_pos hk]
        exact ⟨Ev.postInterface serial (iface.excl ["interfaceId", "serial"]), [],
          rfl, rfl, by simp⟩
      · rw [if_neg hk]
        exact ⟨Ev.postInterface serial (iface.excl ["interfaceId", "serial"]), [],
          rfl, rfl, by simp⟩
    | nil =>
      simp only [apiCall]
      simp only [h0]
      exact ⟨Ev.postInterface serial (iface.excl ["interfaceId", "serial"]), [],
        rfl, rfl, by simp⟩
    | exn m =>
      simp only [apiCall]
      simp only [h0]
      by_cases hc : (strContains m "already exists" || strContains (strLower m) "duplicate") = true
      · rw [if_pos hc]
        by_cases ht : truthy (iface.get "vlanId") = true
        · rw [if_pos ht]
          cases h1 : st.resp (st.idx + 1) with
          | val v =>
            cases v with
            | list xs =>
              simp only [h1]
              cases hf : xs.find? (fun x => Val.beq (x.get "vlanId") (iface.get "vlanId")) with
              | some x =>
                simp only [hf]
                cases h2 : st.resp (st.idx + 1 + 1) with
                | val v₂ =>
                  simp only [h2]
                  exact ⟨Ev.postInterface serial (iface.excl ["interfaceId", "serial"]),
                    [Ev.getInterfaces serial,
                     Ev.putInterface serial (x.get "interfaceId")
                       (iface.excl ["interfaceId", "serial"])],
                    by simp [logAdd], rfl, by simp [ifaceEvOk]⟩
                | nil =>
                  simp only [h2]
                  exact ⟨Ev.postInterface serial (iface.excl ["interfaceId", "serial"]),
                    [Ev.getInterfaces serial,
                     Ev.putInterface serial (x.get "interfaceId")
                       (iface.excl ["interfaceId", "serial"])],
                    by simp [logAdd], rfl, by simp [ifaceEvOk]⟩
                | exn m₂ =>
                  simp only [h2]
                  exact ⟨Ev.postInterface serial (iface.excl ["interfaceId", "serial"]),
                    [Ev.getInterfaces serial,
                     Ev.putInterface serial (x.get "interfaceId")
                       (iface.excl ["interfaceId", "serial"])],
                    by simp [logAdd], rfl, by simp [ifaceEvOk]⟩
              | none =>
                simp only [hf]
                exact ⟨Ev.postInterface serial (iface.excl ["interfaceId", "serial"]),
                  [Ev.getInterfaces serial], by simp [logAdd], rfl, by simp [ifaceEvOk]⟩
            | dict kvs =>
              cases kvs with
              | nil =>
                simp only [h1]
                exact ⟨Ev.postInterface serial (iface.excl ["interfaceId", "serial"]),
                  [Ev.getInterfaces serial], by simp [logAdd], rfl, by simp [ifaceEvOk]⟩
              | cons p ps =>
                simp only [h1]
                exact ⟨Ev.postInterface serial (iface.excl ["interfaceId", "serial"]),
                  [Ev.getInterfaces serial], by simp [logAdd], rfl, by simp [ifaceEvOk]⟩
            | str a =>
              simp only [h1]
              exact ⟨Ev.postInterface serial (iface.excl ["interfaceId", "serial"]),
                [Ev.getInterfaces serial], by simp [logAdd], rfl, by simp [ifaceEvOk]⟩
            | nat n =>
              simp only [h1]
              exact ⟨Ev.postInterface serial (iface.excl ["interfaceId", "serial"]),
                [Ev.getInterfaces serial], by simp [logAdd], rfl, by simp [ifaceEvOk]⟩
            | boolean b =>
              simp only [h1]
              exact ⟨Ev.postInterface serial (iface.excl ["interfaceId", "serial"]),
                [Ev.getInterfaces serial], by simp [logAdd], rfl, by simp [ifaceEvOk]⟩
            | vnone =>
              simp only [h1]
              exact ⟨Ev.postInterface serial (iface.excl ["interfaceId", "serial"]),
                [Ev.getInterfaces serial], by simp [logAdd], rfl, by simp [ifaceEvOk]⟩
          | nil =>
            simp only [h1]
            exact ⟨Ev.postInterface serial (iface.excl ["interfaceId", "serial"]),
              [Ev.getInterfaces serial], by simp [logAdd], rfl, by simp [ifaceEvOk]⟩
          | exn m₂ =>
            simp only [h1]
            exact ⟨Ev.postInterface serial (iface.excl ["interfaceId", "serial"]),
              [Ev.getInterfaces serial], by simp [logAdd], rfl, by simp [ifaceEvOk]⟩
        · rw [if_neg ht]
          exact ⟨Ev.postInterface serial (iface.excl ["interfaceId", "serial"]), [],
            rfl, rfl, by simp⟩
      · rw [if_neg hc]
        exact ⟨Ev.postInterface serial (iface.excl ["interfaceId", "serial"]), [],
          rfl, rfl, by simp⟩
theorem isInterfaceWrite_ifaceEvOk (e : Ev) (h : e.isInterfaceWrite = true) :
    ifaceEvOk e = true := by
  cases e <;> simp_all [Ev.isInterfaceWrite, ifaceEvOk]

theorem restoreInterfacesGo_trace (serial : String) (ifaces : List Val) :
    ∀ (st : RSt) (mapping : List (Val × Val)) (succ failed : Nat),
      ∃ d, (restoreInterfacesGo serial st mapping succ failed ifaces).1.trace =
        st.trace ++ d ∧ ∀ e ∈ d, ifaceEvOk e = true := by
  induction ifaces with
  | nil => intro st mapping succ failed; exact traceExt_zero rfl
  | cons x rest ih =>
    intro st mapping succ failed
    rw [restoreInterfacesGo]
    have h₁ := restoreOneInterface_trace serial st mapping succ failed x
    rcases h : restoreOneInterface serial st mapping succ failed x with ⟨st₁, m₁, s₁, f₁⟩
    rw [h] at h₁
    obtain ⟨e, d, hd, hw, hP⟩ := h₁
    refine traceExt_trans ⟨e :: d, hd, ?_⟩ (ih st₁ m₁ s₁ f₁)
    intro y hy
    rcases List.mem_cons.mp hy with rfl | hy
    · exact isInterfaceWrite_ifaceEvOk y hw
    · exact hP y hy

theorem restoreInterfacesGo_head (serial : String) (x : Val) (rest : List Val)
    (st : RSt) (mapping : List (Val × Val)) (succ failed : Nat) :
    ∃ e d, (restoreInterfacesGo serial st mapping succ failed (x :: rest)).1.trace =
      st.trace ++ e :: d ∧ e.isInterfaceWrite = true ∧ ∀ y ∈ d, ifaceEvOk y = true := by
  rw [restoreInterfacesGo]
  have h₁ := restoreOneInterface_trace serial st mapping succ failed x
  rcases h : restoreOneInterface serial st mapping succ failed x with ⟨st₁, m₁, s₁, f₁⟩
  rw [h] at h₁
  obtain ⟨e, d, hd, hw, hP⟩ := h₁
  obtain ⟨d₂, hd₂, hP₂⟩ := restoreInterfacesGo_trace serial rest st₁ m₁ s₁ f₁
  refine ⟨e, d ++ d₂, ?_, hw, ?_⟩
  · rw [hd₂, hd]; simp
  · intro y hy
    rcases List.mem_append.mp hy with hy | hy
    · exact hP y hy
    · exact hP₂ y hy

theorem restoreInterfaces_trace (st : RSt) (serial : String) (ifaces : List Val) :
    ∃ d, (restoreInterfaces st serial ifaces).1.trace = st.trace ++ d ∧
      ∀ e ∈ d, ifaceEvOk e = true := by
  rw [restoreInterfaces]
  have h₁ := restoreInterfacesGo_trace serial ifaces
    (logAdd st (LogEntry.info ("  → Restoring " ++ toString ifaces.length ++
      " routing interfaces..."))) [] 0 0
  rcases h : restoreInterfacesGo serial
      (logAdd st (LogEntry.info ("  → Restoring " ++ toString ifaces.length ++
        " routing interfaces..."))) [] 0 0 ifaces with ⟨st₁, m₁, s₁, f₁⟩
  rw [h] at h₁
  by_cases hs : s₁ > 0 <;> simp only [hs, if_true, if_false] <;> exact h₁

theorem restorePortsGo_trace (serial : String) (imap : List (Val × Val)) (total : Nat)
    (ports : List Val) :
    ∀ (st : RSt) (i succ failedP : Nat),
      ∃ d, (restorePortsGo serial imap total st i succ failedP ports).1.trace =
        st.trace ++ d ∧ ∀ e ∈ d, afterIfaceEvOk e = true := by
  induction ports with
  | nil => intro st i succ failedP; exact traceExt_zero rfl
  | cons x rest ih =>
    intro st i succ failedP
    rw [restorePortsGo]
    cases h0 : st.resp st.idx with
    | val v =>
      simp only [apiCall]
      simp only [h0]
      by_cases hp : ((i + 1) % 10 == 0) = true <;>
        simp only [hp, if_true, if_false] <;>
        exact traceExt_trans (traceExt_one rfl (by simp [afterIfaceEvOk])) (ih _ _ _ _)
    | nil =>
      simp only [apiCall]
      simp only [h0]
      by_cases hp : ((i + 1) % 10 == 0) = true <;>
        simp only [hp, if_true, if_false] <;>
        exact traceExt_trans (traceExt_one rfl (by simp [afterIfaceEvOk])) (ih _ _ _ _)
    | exn m =>
      simp only [apiCall]
      simp only [h0]
      by_cases h5 : failedP + 1 ≤ 5
      · rw [if_pos h5]
        exact traceExt_trans (traceExt_one rfl (by simp [afterIfaceEvOk])) (ih _ _ _ _)
      · rw [if_neg h5]
        by_cases h6 : (failedP + 1 == 6) = true <;>
          simp only [h6, if_true, if_false] <;>
          exact traceExt_trans (traceExt_one rfl (by simp [afterIfaceEvOk])) (ih _ _ _ _)

theorem restorePorts_trace (st : RSt) (serial : String) (imap : List (Val × Val))
    (ports : List Val) :
    ∃ d, (restorePorts st serial imap ports).1.trace = st.trace ++ d ∧
      ∀ e ∈ d, afterIfaceEvOk e = true := by
  rw [restorePorts]
  have h₁ := restorePortsGo_trace serial imap ports.length ports st 0 0 0
  rcases h : restorePortsGo serial imap ports.length st 0 0 0 ports with ⟨st₁, succ, failedP⟩
  rw [h] at h₁
  by_cases hf : failedP > 0 <;> simp only [hf, if_true, if_false] <;> exact h₁

theorem restoreDhcpServers_trace (st : RSt) (serial : String) (imap : List (Val × Val))
    (servers : List Val) :
    ∃ d, (restoreDhcpServers st serial imap servers).1.trace = st.trace ++ d ∧
      ∀ e ∈ d, afterIfaceEvOk e = true := by
  rw [restoreDhcpServers]
  have h₁ := restoreDhcpServersGo_trace serial imap servers st [] 0
  rcases h : restoreDhcpServersGo serial imap st [] 0 servers with ⟨st₁, smap, count, ok⟩
  rw [h] at h₁
  cases ok <;> exact h₁

theorem restoreRendezvous_trace (st : RSt) (serial : String) (imap : List (Val × Val))
    (rps : List Val) :
    ∃ d, (restoreRendezvous st serial imap rps).1.trace = st.trace ++ d ∧
      ∀ e ∈ d, afterIfaceEvOk e = true := by
  rw [restoreRendezvous]
  have h₁ := restoreRendezvousGo_trace serial imap rps st [] 0
  rcases h : restoreRendezvousGo serial imap st [] 0 rps with ⟨st₁, pmap, count, ok⟩
  rw [h] at h₁
  cases ok <;> exact h₁

theorem restoreStaticRoutes_trace (st : RSt) (serial : String) (imap : List (Val × Val))
    (routes : List Val) :
    ∃ d, (restoreStaticRoutes st serial imap routes).1.trace = st.trace ++ d ∧
      ∀ e ∈ d, afterIfaceEvOk e = true := by
  rw [restoreStaticRoutes]
  have h₁ := restoreRoutesGo_trace serial imap routes
    (logAdd st (LogEntry.info ("  → Restoring " ++ toString routes.length ++
      " static routes..."))) [] 0 0
  rcases h : restoreRoutesGo serial imap
      (logAdd st (LogEntry.info ("  → Restoring " ++ toString routes.length ++
        " static routes..."))) [] 0 0 routes with ⟨st₁, rmap, succ, failed⟩
  rw [h] at h₁
  by_cases hs : succ > 0 <;> simp only [hs, if_true, if_false] <;> exact h₁

theorem restoreInterfaceDhcp_trace (st : RSt) (serial : String) (imap : List (Val × Val))
    (items : List Val) :
    ∃ d, (restoreInterfaceDhcp st serial imap items).1.trace = st.trace ++ d ∧
      ∀ e ∈ d, afterIfaceEvOk e = true := by
  rw [restoreInterfaceDhcp]
  have h₁ := restoreInterfaceDhcpGo_trace serial imap items st 0
  rcases h : restoreInterfaceDhcpGo serial imap st 0 items with ⟨st₁, succ⟩
  rw [h] at h₁
  by_cases hs : succ > 0 <;> simp only [hs, if_true, if_false] <;> exact h₁

theorem devIfaces_trace (serial : String) (a : DevAcc) :
    ∃ d, (devIfaces serial a).st.trace = a.st.trace ++ d ∧ ∀ e ∈ d, ifaceEvOk e = true := by
  rw [devIfaces]
  by_cases h : truthy ((a.settings.get "routing").get "interfaces") = true <;>
    simp only [h, if_true, if_false]
  · have h₁ := restoreInterfaces_trace a.st serial
      ((a.settings.get "routing").get "interfaces").items
    rcases hr : restoreInterfaces a.st serial
        ((a.settings.get "routing").get "interfaces").items with ⟨st₁, m₁, s₁, f₁⟩
    rw [hr] at h₁
    exact h₁
  · exact traceExt_zero rfl

theorem devDhcpServers_trace (serial : String) (dhcpV : Val) (imap : List (Val × Val))
    (st : RSt) (restored failed : Nat) :
    ∃ d, (devDhcpServers serial dhcpV imap st restored failed).1.trace = st.trace ++ d ∧
      ∀ e ∈ d, afterIfaceEvOk e = true := by
  rw [devDhcpServers]
  by_cases h : truthy (dhcpV.get "servers") = true
  · rw [if_pos h]
    have t := restoreDhcpServers_trace st serial imap (dhcpV.get "servers").items
    rcases hr : restoreDhcpServers st serial imap (dhcpV.get "servers").items
      with ⟨st₁, smap, r, f⟩
    rw [hr] at t
    exact t
  · rw [if_neg h]; exact traceExt_zero rfl

theorem devDhcpRelays_trace (serial : String) (dhcpV : Val) (imap : List (Val × Val))
    (st : RSt) (restored failed : Nat) :
    ∃ d, (devDhcpRelays serial dhcpV imap st restored failed).1.trace = st.trace ++ d ∧
      ∀ e ∈ d, afterIfaceEvOk e = true := by
  rw [devDhcpRelays]
  by_cases h : truthy (dhcpV.get "relays") = true
  · rw [if_pos h]
    have t := restoreDhcpRelays_trace st serial imap (dhcpV.get "relays")
    rcases hr : restoreDhcpRelays st serial imap (dhcpV.get "relays")
      with ⟨st₁, relays', r, f⟩
    rw [hr] at t
    exact t
  · rw [if_neg h]; exact traceExt_zero rfl

theorem devDhcpIface_trace (serial : String) (dhcpV : Val) (imap : List (Val × Val))
    (st : RSt) (restored : Nat) :
    ∃ d, (devDhcpIface serial dhcpV imap st restored).1.trace = st.trace ++ d ∧
      ∀ e ∈ d, afterIfaceEvOk e = true := by
  rw [devDhcpIface]
  by_cases h : truthy (dhcpV.get "interfaceDhcp") = true
  · rw [if_pos h]
    have t := restoreInterfaceDhcp_trace st serial imap (dhcpV.get "interfaceDhcp").items
    rcases hr : restoreInterfaceDhcp st serial imap (dhcpV.get "interfaceDhcp").items
      with ⟨st₁, r⟩
    rw [hr] at t
    exact t
  · rw [if_neg h]; exact traceExt_zero rfl

theorem devDhcp_trace (serial : String) (a : DevAcc) :
    ∃ d, (devDhcp serial a).st.trace = a.st.trace ++ d ∧
      ∀ e ∈ d, afterIfaceEvOk e = true := by
  rw [devDhcp]
  by_cases h : truthy (a.settings.get "dhcp") = true
  case neg => rw [if_neg h]; exact traceExt_zero rfl
  case pos =>
  rw [if_pos h]
  have t₁ := devDhcpServers_trace serial (a.settings.get "dhcp") a.imap a.st a.restored a.failed
  rcases h₁ : devDhcpServers serial (a.settings.get "dhcp") a.imap a.st a.restored a.failed
    with ⟨st₁, r₁, f₁⟩
  rw [h₁] at t₁
  dsimp only
  have t₂ := devDhcpRelays_trace serial (a.settings.get "dhcp") a.imap st₁ r₁ f₁
  rcases h₂ : devDhcpRelays serial (a.settings.get "dhcp") a.imap st₁ r₁ f₁
    with ⟨st₂, dhcpV', r₂, f₂⟩
  rw [h₂] at t₂
  dsimp only
  have t₃ := devDhcpIface_trace serial dhcpV' a.imap st₂ r₂
  rcases h₃ : devDhcpIface serial dhcpV' a.imap st₂ r₂ with ⟨st₃, r₃⟩
  rw [h₃] at t₃
  dsimp only
  exact traceExt_trans t₁ (traceExt_trans t₂ t₃)

theorem devRoutes_trace (serial : String) (a : DevAcc) :
    ∃ d, (devRoutes serial a).st.trace = a.st.trace ++ d ∧
      ∀ e ∈ d, afterIfaceEvOk e = true := by
  rw [devRoutes]
  by_cases h : truthy ((a.settings.get "routing").get "staticRoutes") = true <;>
    simp only [h, if_true, if_false]
  · have h₁ := restoreStaticRoutes_trace a.st serial a.imap
      ((a.settings.get "routing").get "staticRoutes").items
    rcases hr : restoreStaticRoutes a.st serial a.imap
        ((a.settings.get "routing").get "staticRoutes").items with ⟨st₁, m₁, s₁, f₁⟩
    rw [hr] at h₁
    exact h₁
  · exact traceExt_zero rfl

theorem rewriteOspfIds_st (imap : List (Val × Val)) (ids : List Val) :
    ∀ st : RSt, ∃ dl newIds,
      rewriteOspfIds imap st ids = ({ st with log := st.log ++ dl }, newIds) := by
  induction ids with
  | nil =>
    intro st
    exact ⟨[], [], by simp [rewriteOspfIds]⟩
  | cons oldId rest ih =>
    intro st
    rw [rewriteOspfIds]
    by_cases h : truthy (mlookup imap oldId) = true
    · rw [if_pos h]
      obtain ⟨dl, newIds, hr⟩ := ih st
      rw [hr]
      exact ⟨dl, mlookup imap oldId :: newIds, rfl⟩
    · rw [if_neg h]
      obtain ⟨dl, newIds, hr⟩ := ih (logAdd st (LogEntry.warn ("    ⚠ Cannot map interface ID " ++
        oldId.render ++ " for OSPF area")))
      rw [hr]
      refine ⟨LogEntry.warn ("    ⚠ Cannot map interface ID " ++ oldId.render ++
        " for OSPF area") :: dl, newIds, ?_⟩
      simp [logAdd]

theorem rewriteOspfArea_st (imap : List (Val × Val)) (st : RSt) (area : Val) :
    ∃ dl area₁, rewriteOspfArea imap st area = ({ st with log := st.log ++ dl }, area₁) := by
  rw [rewriteOspfArea]
  by_cases h : truthy (area.get "interfaceIds") = true
  · rw [if_pos h]
    obtain ⟨dl, newIds, hr⟩ := rewriteOspfIds_st imap (area.get "interfaceIds").items st
    rw [hr]
    exact ⟨dl, area.set "interfaceIds" (Val.list newIds), rfl⟩
  · rw [if_neg h]
    exact ⟨[], area, by simp⟩

theorem rewriteOspfAreas_st (imap : List (Val × Val)) (areas : List Val) :
    ∀ st : RSt, ∃ dl newAreas,
      rewriteOspfAreas imap st areas = ({ st with log := st.log ++ dl }, newAreas) := by
  induction areas with
  | nil => intro st; exact ⟨[], [], by simp [rewriteOspfAreas]⟩
  | cons area rest ih =>
    intro st
    rw [rewriteOspfAreas]
    obtain ⟨dl₁, area₁, h₁⟩ := rewriteOspfArea_st imap st area
    rw [h₁]
    dsimp only
    obtain ⟨dl₂, rest₁, h₂⟩ := ih { st with log := st.log ++ dl₁ }
    rw [h₂]
    dsimp only
    exact ⟨dl₁ ++ dl₂, area₁ :: rest₁, by simp⟩

theorem restoreOspf_trace (st : RSt) (serial : String) (imap : List (Val × Val))
    (ospf : Val) :
    ∃ d, (restoreOspf st serial imap ospf).1.trace = st.trace ++ d ∧
      ∀ e ∈ d, afterIfaceEvOk e = true := by
  rw [restoreOspf]
  cases hA : ospf.get "areas" with
  | list xs =>
    cases xs with
    | nil =>
      dsimp only
      cases h0 : st.resp st.idx with
      | val v =>
        simp only [apiCall]
        simp only [h0]
        exact traceExt_one rfl (by simp [afterIfaceEvOk])
      | nil =>
        simp only [apiCall]
        simp only [h0]
        exact traceExt_one rfl (by simp [afterIfaceEvOk])
      | exn m =>
        simp only [apiCall]
        simp only [h0]
        exact traceExt_one rfl (by simp [afterIfaceEvOk])
    | cons a as =>
      dsimp only
      obtain ⟨dl, newAreas, hR⟩ := rewriteOspfAreas_st imap (a :: as) st
      rw [hR]
      dsimp only
      cases h0 : st.resp st.idx with
      | val v =>
        simp only [apiCall]
        simp only [h0]
        exact traceExt_one rfl (by simp [afterIfaceEvOk])
      | nil =>
        simp only [apiCall]
        simp only [h0]
        exact traceExt_one rfl (by simp [afterIfaceEvOk])
      | exn m =>
        simp only [apiCall]
        simp only [h0]
        exact traceExt_one rfl (by simp [afterIfaceEvOk])
  | str sv =>
    dsimp only
    by_cases h : (truthy (Val.str sv) && !((Val.str sv) matches Val.list _)) = true
    · rw [if_pos h]; exact traceExt_zero rfl
    · rw [if_neg h]
      cases h0 : st.resp st.idx <;>
        first
        | (simp only [apiCall]; simp only [h0]; exact traceExt_one rfl (by simp [afterIfaceEvOk]))
  | nat n =>
    dsimp only
    by_cases h : (truthy (Val.nat n) && !((Val.nat n) matches Val.list _)) = true
    · rw [if_pos h]; exact traceExt_zero rfl
    · rw [if_neg h]
      cases h0 : st.resp st.idx <;>
        first
        | (simp only [apiCall]; simp only [h0]; exact traceExt_one rfl (by simp [afterIfaceEvOk]))
  | boolean b =>
    dsimp only
    by_cases h : (truthy (Val.boolean b) && !((Val.boolean b) matches Val.list _)) = true
    · rw [if_pos h]; exact traceExt_zero rfl
    · rw [if_neg h]
      cases h0 : st.resp st.idx <;>
        first
        | (simp only [apiCall]; simp only [h0]; exact traceExt_one rfl (by simp [afterIfaceEvOk]))
  | vnone =>
    dsimp only
    by_cases h : (truthy Val.vnone && !(Val.vnone matches Val.list _)) = true
    · rw [if_pos h]; exact traceExt_zero rfl
    · rw [if_neg h]
      cases h0 : st.resp st.idx <;>
        first
        | (simp only [apiCall]; simp only [h0]; exact traceExt_one rfl (by simp [afterIfaceEvOk]))
  | dict kvs =>
    dsimp only
    by_cases h : (truthy (Val.dict kvs) && !((Val.dict kvs) matches Val.list _)) = true
    · rw [if_pos h]; exact traceExt_zero rfl
    · rw [if_neg h]
      cases h0 : st.resp st.idx <;>
        first
        | (simp only [apiCall]; simp only [h0]; exact traceExt_one rfl (by simp [afterIfaceEvOk]))

theorem devOspf_trace (serial : String) (a : DevAcc) :
    ∃ d, (devOspf serial a).st.trace = a.st.trace ++ d ∧
      ∀ e ∈ d, afterIfaceEvOk e = true := by
  rw [devOspf]
  by_cases h : truthy ((a.settings.get "routing").get "ospf") = true <;>
    simp only [h, if_true, if_false]
  · have h₁ := restoreOspf_trace a.st serial a.imap ((a.settings.get "routing").get "ospf")
    rcases hr : restoreOspf a.st serial a.imap ((a.settings.get "routing").get "ospf")
      with ⟨st₁, o₁, r₁, f₁⟩
    rw [hr] at h₁
    exact h₁
  · exact traceExt_zero rfl

theorem devMulticast_trace (serial : String) (a : DevAcc) :
    ∃ d, (devMulticast serial a).st.trace = a.st.trace ++ d ∧
      ∀ e ∈ d, afterIfaceEvOk e = true := by
  rw [devMulticast]
  by_cases h : truthy ((a.settings.get "routing").get "multicast") = true <;>
    simp only [h, if_true, if_false]
  · have h₁ := restoreMulticast_trace a.st serial a.imap
      ((a.settings.get "routing").get "multicast")
    rcases hr : restoreMulticast a.st serial a.imap ((a.settings.get "routing").get "multicast")
      with ⟨st₁, m₁, r₁, f₁⟩
    rw [hr] at h₁
    exact h₁
  · exact traceExt_zero rfl

theorem devRendezvous_trace (serial : String) (a : DevAcc) :
    ∃ d, (devRendezvous serial a).st.trace = a.st.trace ++ d ∧
      ∀ e ∈ d, afterIfaceEvOk e = true := by
  rw [devRendezvous]
  by_cases h : truthy ((a.settings.get "routing").get "rendezvousPoints") = true <;>
    simp only [h, if_true, if_false]
  · have h₁ := restoreRendezvous_trace a.st serial a.imap
      ((a.settings.get "routing").get "rendezvousPoints").items
    rcases hr : restoreRendezvous a.st serial a.imap
        ((a.settings.get "routing").get "rendezvousPoints").items with ⟨st₁, m₁, r₁, f₁⟩
    rw [hr] at h₁
    exact h₁
  · exact traceExt_zero rfl

theorem devWarmSpare_trace (serial : String) (a : DevAcc) :
    ∃ d, (devWarmSpare serial a).st.trace = a.st.trace ++ d ∧
      ∀ e ∈ d, afterIfaceEvOk e = true := by
  rw [devWarmSpare]
  by_cases h : truthy (a.settings.get "warmSpare") = true <;>
    simp only [h, if_true, if_false]
  · have h₁ := restoreWarmSpare_trace a.st serial (a.settings.get "warmSpare")
    rcases hr : restoreWarmSpare a.st serial (a.settings.get "warmSpare") with ⟨st₁, r₁, f₁⟩
    rw [hr] at h₁
    exact h₁
  · exact traceExt_zero rfl

theorem devPorts_trace (serial : String) (a : DevAcc) :
    ∃ d, (devPorts serial a).st.trace = a.st.trace ++ d ∧
      ∀ e ∈ d, afterIfaceEvOk e = true := by
  rw [devPorts]
  by_cases h : truthy (a.settings.get "ports") = true <;>
    simp only [h, if_true, if_false]
  · have h₁ := restorePorts_trace a.st serial a.imap (a.settings.get "ports").items
    rcases hr : restorePorts a.st serial a.imap (a.settings.get "ports").items
      with ⟨st₁, s₁, f₁⟩
    rw [hr] at h₁
    exact h₁
  · exact traceExt_zero rfl

theorem devStack_trace (a : DevAcc) : (devStack a).st.trace = a.st.trace := by
  rw [devStack]
  by_cases h : truthy (a.settings.get "stackInfo") = true <;>
    simp only [h, if_true, if_false] <;> rfl

theorem devSummary_trace (serial : String) (a : DevAcc) :
    (devSummary serial a).st.trace = a.st.trace := by
  rw [devSummary]
  by_cases h : a.failed > 0 <;> simp only [h, if_true, if_false] <;> rfl

theorem devAfter_trace (serial : String) (a : DevAcc) :
    ∃ d, (devSummary serial (devStack (devPorts serial (devWarmSpare serial
      (devRendezvous serial (devMulticast serial (devOspf serial (devRoutes serial
      (devDhcp serial a))))))))).st.trace = a.st.trace ++ d ∧
      ∀ e ∈ d, afterIfaceEvOk e = true := by
  refine traceExt_trans (devDhcp_trace serial a) ?_
  refine traceExt_trans (devRoutes_trace serial _) ?_
  refine traceExt_trans (devOspf_trace serial _) ?_
  refine traceExt_trans (devMulticast_trace serial _) ?_
  refine traceExt_trans (devRendezvous_trace serial _) ?_
  refine traceExt_trans (devWarmSpare_trace serial _) ?_
  refine traceExt_trans (devPorts_trace serial _) ?_
  refine traceExt_trans (traceExt_zero (devStack_trace _)) ?_
  exact traceExt_zero (devSummary_trace serial _)

theorem restoreDeviceFor_trace (st : RSt) (serial : String) (settings : Val) :
    ∃ d₁ d₂, (restoreDeviceFor st serial settings).1.trace = st.trace ++ d₁ ++ d₂ ∧
      (∀ e ∈ d₁, ifaceEvOk e = true) ∧ (∀ e ∈ d₂, afterIfaceEvOk e = true) := by
  rw [restoreDeviceFor]
  obtain ⟨d₁, hd₁, hP₁⟩ := devIfaces_trace serial
    { st := logAdd st (LogEntry.info ("\nRestoring settings for device " ++ serial ++
        " (" ++ ((settings.get "info").getDflt "name" (Val.str "Unnamed")).render ++ ", " ++
        ((settings.get "info").getDflt "model" (Val.str "Unknown")).render ++ ")"))
      settings := settings
      imap := []
      restored := 0
      failed := 0 }
  obtain ⟨d₂, hd₂, hP₂⟩ := devAfter_trace serial (devIfaces serial
    { st := logAdd st (LogEntry.info ("\nRestoring settings for device " ++ serial ++
        " (" ++ ((settings.get "info").getDflt "name" (Val.str "Unnamed")).render ++ ", " ++
        ((settings.get "info").getDflt "model" (Val.str "Unknown")).render ++ ")"))
      settings := settings
      imap := []
      restored := 0
      failed := 0 })
  refine ⟨d₁, d₂, ?_, hP₁, hP₂⟩
  rw [hd₂, hd₁]
  simp [logAdd]

theorem segment_order (d₁ d₂ : List Ev)
    (h₁ : ∀ e ∈ d₁, e.isDependentOp = false)
    (h₂ : ∀ e ∈ d₂, e.isInterfaceWrite = false)
    (i j : Nat) (hi : i < (d₁ ++ d₂).length) (hj : j < (d₁ ++ d₂).length)
    (hw : ((d₁ ++ d₂).get ⟨i, hi⟩).isInterfaceWrite = true)
    (hd : ((d₁ ++ d₂).get ⟨j, hj⟩).isDependentOp = true) : i < j := by
  have hil : i < d₁.length := by
    by_contra hcon
    push_neg at hcon
    have hmem : (d₁ ++ d₂).get ⟨i, hi⟩ ∈ d₂ := by
      rw [List.get_eq_getElem, List.getElem_append_right hcon]
      exact List.getElem_mem _
    have := h₂ _ hmem
    rw [List.get_eq_getElem] at this
    simp [this] at hw
  have hjl : d₁.length ≤ j := by
    by_contra hcon
    push_neg at hcon
    have hmem : (d₁ ++ d₂).get ⟨j, hj⟩ ∈ d₁ := by
      rw [List.get_eq_getElem, List.getElem_append_left hcon]
      exact List.getElem_mem _
    have := h₁ _ hmem
    rw [List.get_eq_getElem] at this
    simp [this] at hd
  omega

/-- C1: for every device restored by `_restore_device_settings`, every create
or update call for that device's routing interfaces is issued before any
static-route creation, OSPF update, multicast update, rendezvous-point
creation, or per-interface-DHCP update for that same device: in the trace
segment the per-device restore appends, every interface write precedes every
dependent operation. -/
theorem restore_device_interface_order (st : RSt) (serial : String) (settings : Val) :
    ∃ tr, (restoreDeviceFor st serial settings).1.trace = st.trace ++ tr ∧
      ∀ (i j : Nat) (hi : i < tr.length) (hj : j < tr.length),
        (tr.get ⟨i, hi⟩).isInterfaceWrite = true →
        (tr.get ⟨j, hj⟩).isDependentOp = true → i < j := by
  obtain ⟨d₁, d₂, hd, hP₁, hP₂⟩ := restoreDeviceFor_trace st serial settings
  refine ⟨d₁ ++ d₂, by rw [hd, List.append_assoc], ?_⟩
  intro i j hi hj hw hdep
  exact segment_order d₁ d₂ (fun e he => ifaceEvOk_not_dependent e (hP₁ e he))
    (fun e he => afterIfaceEvOk_not_interfaceWrite e (hP₂ e he)) i j hi hj hw hdep

/-- Concrete run state for the ordering witness: the create of the VLAN-2
interface returns the new id "7"; every other call returns `None`. -/
def c1Oracle : Nat → ApiR
  | 0 => ApiR.val (Val.dict [("interfaceId", Val.str "7")])
  | _ => ApiR.nil

/-- Initial run state of the ordering witness. -/
def c1St : RSt := { resp := c1Oracle, idx := 0, trace := [], log := [] }

/-- Device settings of the ordering witness: one VLAN-2 routing interface and
one static route referencing it. -/
def c1Settings : Val := Val.dict [
  ("routing", Val.dict [
    ("interfaces", Val.list [Val.dict [("interfaceId", Val.str "5"),
      ("vlanId", Val.nat 2)]]),
    ("staticRoutes", Val.list [Val.dict [("staticRouteId", Val.str "r1"),
      ("subnet", Val.str "10.0.0.0/24"), ("interfaceId", Val.str "5")]])])]

theorem restore_device_interface_order_witness :
    (restoreDeviceFor c1St "NEW1" c1Settings).1.trace =
      [Ev.postInterface "NEW1" (Val.dict [("vlanId", Val.nat 2)]),
       Ev.postStaticRoute "NEW1" (Val.dict [("subnet", Val.str "10.0.0.0/24"),
         ("interfaceId", Val.str "7")])] ∧ 0 < 1 := by
  constructor
  · rfl
  · obtain ⟨tr, htr, hord⟩ := restore_device_interface_order c1St "NEW1" c1Settings
    have htr' : tr = [Ev.postInterface "NEW1" (Val.dict [("vlanId", Val.nat 2)]),
        Ev.postStaticRoute "NEW1" (Val.dict [("subnet", Val.str "10.0.0.0/24"),
          ("interfaceId", Val.str "7")])] := by
      have hc : (restoreDeviceFor c1St "NEW1" c1Settings).1.trace =
          [Ev.postInterface "NEW1" (Val.dict [("vlanId", Val.nat 2)]),
           Ev.postStaticRoute "NEW1" (Val.dict [("subnet", Val.str "10.0.0.0/24"),
             ("interfaceId", Val.str "7")])] := rfl
      rw [hc] at htr
      simpa using htr.symm
    subst htr'
    exact hord 0 1 (by decide) (by decide) rfl rfl

theorem restoreSchedulesGo_trace (nid : String) (schedules : List Val) :
    ∀ (st : RSt) (smap : List (Val × Val)) (count : Nat),
      ∃ d, (restoreSchedulesGo nid st smap count schedules).1.trace = st.trace ++ d ∧
        ∀ e ∈ d, netEvOk e = true := by
  induction schedules with
  | nil => intro st smap count; exact traceExt_zero rfl
  | cons x rest ih =>
    intro st smap count
    rw [restoreSchedulesGo]
    cases h0 : st.resp st.idx with
    | val v =>
      simp only [apiCall]
      simp only [h0]
      by_cases hk : (truthy v && v.hasKey "id") = true
      · rw [if_pos hk]
        exact traceExt_trans (traceExt_one rfl (by simp [netEvOk])) (ih _ _ _)
      · rw [if_neg hk]
        exact traceExt_trans (traceExt_one rfl (by simp [netEvOk])) (ih _ _ _)
    | nil =>
      simp only [apiCall]
      simp only [h0]
      exact traceExt_trans (traceExt_one rfl (by simp [netEvOk])) (ih _ _ _)
    | exn m =>
      simp only [apiCall]
      simp only [h0]
      by_cases hc : strContains m "already exists" = true
      · rw [if_pos hc]
        cases h1 : st.resp (st.idx + 1) with
        | val v =>
          cases v with
          | list xs =>
            simp only [h1]
            cases hf : xs.find? (fun y => Val.beq (y.get "name") (x.get "name")) with
            | some y =>
              simp only [hf]
              refine traceExt_trans ?_ (ih _ _ _)
              exact ⟨[Ev.postPortSchedule nid (x.excl ["id"]), Ev.getPortSchedules nid],
                by simp [logAdd], by simp [netEvOk]⟩
            | none =>
              simp only [hf]
              refine traceExt_trans ?_ (ih _ _ _)
              exact ⟨[Ev.postPortSchedule nid (x.excl ["id"]), Ev.getPortSchedules nid],
                by simp [logAdd], by simp [netEvOk]⟩
          | str sv =>
            simp only [h1]
            refine traceExt_trans ?_ (ih _ _ _)
            exact ⟨[Ev.postPortSchedule nid (x.excl ["id"]), Ev.getPortSchedules nid],
              by simp [logAdd], by simp [netEvOk]⟩
          | nat n =>
            simp only [h1]
            refine traceExt_trans ?_ (ih _ _ _)
            exact ⟨[Ev.postPortSchedule nid (x.excl ["id"]), Ev.getPortSchedules nid],
              by simp [logAdd], by simp [netEvOk]⟩
          | boolean b =>
            simp only [h1]
            refine traceExt_trans ?_ (ih _ _ _)
            exact ⟨[Ev.postPortSchedule nid (x.excl ["id"]), Ev.getPortSchedules nid],
              by simp [logAdd], by simp [netEvOk]⟩
          | vnone =>
            simp only [h1]
            refine traceExt_trans ?_ (ih _ _ _)
            exact ⟨[Ev.postPortSchedule nid (x.excl ["id"]), Ev.getPortSchedules nid],
              by simp [logAdd], by simp [netEvOk]⟩
          | dict kvs =>
            simp only [h1]
            refine traceExt_trans ?_ (ih _ _ _)
            exact ⟨[Ev.postPortSchedule nid (x.excl ["id"]), Ev.getPortSchedules nid],
              by simp [logAdd], by simp [netEvOk]⟩
        | nil =>
          simp only [h1]
          refine traceExt_trans ?_ (ih _ _ _)
          exact ⟨[Ev.postPortSchedule nid (x.excl ["id"]), Ev.getPortSchedules nid],
            by simp [logAdd], by simp [netEvOk]⟩
        | exn m₂ =>
          simp only [h1]
          refine traceExt_trans ?_ (ih _ _ _)
          exact ⟨[Ev.postPortSchedule nid (x.excl ["id"]), Ev.getPortSchedules nid],
            by simp [logAdd], by simp [netEvOk]⟩
      · rw [if_neg hc]
        exact traceExt_trans (traceExt_one rfl (by simp [netEvOk])) (ih _ _ _)

theorem restoreSchedules_trace (st : RSt) (nid : String) (schedules : List Val) :
    ∃ d, (restoreSchedules st nid schedules).1.trace = st.trace ++ d ∧
      ∀ e ∈ d, netEvOk e = true := by
  rw [restoreSchedules]
  have h₁ := restoreSchedulesGo_trace nid schedules st [] 0
  rcases h : restoreSchedulesGo nid st [] 0 schedules with ⟨st₁, smap, count⟩
  rw [h] at h₁
  exact h₁

theorem restoreQosGo_trace (nid : String) (rules : List Val) :
    ∀ (st : RSt) (qmap : List (Val × Val)) (count : Nat),
      ∃ d, (restoreQosGo nid st qmap count rules).1.trace = st.trace ++ d ∧
        ∀ e ∈ d, netEvOk e = true := by
  induction rules with
  | nil => intro st qmap count; exact traceExt_zero rfl
  | cons x rest ih =>
    intro st qmap count
    rw [restoreQosGo]
    cases h0 : st.resp st.idx with
    | val v =>
      simp only [apiCall]
      simp only [h0]
      by_cases hk : (truthy v && v.hasKey "id") = true
      · rw [if_pos hk]
        exact traceExt_trans (traceExt_one rfl (by simp [netEvOk])) (ih _ _ _)
      · rw [if_neg hk]
        exact traceExt_trans (traceExt_one rfl (by simp [netEvOk])) (ih _ _ _)
    | nil =>
      simp only [apiCall]
      simp only [h0]
      exact traceExt_trans (traceExt_one rfl (by simp [netEvOk])) (ih _ _ _)
    | exn m =>
      simp only [apiCall]
      simp only [h0]
      exact traceExt_trans (traceExt_one rfl (by simp [netEvOk])) (ih _ _ _)

theorem restoreQosRules_trace (st : RSt) (nid : String) (rules : List Val) :
    ∃ d, (restoreQosRules st nid rules).1.trace = st.trace ++ d ∧
      ∀ e ∈ d, netEvOk e = true := by
  rw [restoreQosRules]
  have h₁ := restoreQosGo_trace nid rules st [] 0
  rcases h : restoreQosGo nid st [] 0 rules with ⟨st₁, qmap, count⟩
  rw [h] at h₁
  exact h₁

theorem restoreLinkAggGo_trace (nid : String) (aggs : List Val) :
    ∀ (st : RSt) (lmap : List (Val × Val)) (count : Nat),
      ∃ d, (restoreLinkAggGo nid st lmap count aggs).1.trace = st.trace ++ d ∧
        ∀ e ∈ d, netEvOk e = true := by
  induction aggs with
  | nil => intro st lmap count; exact traceExt_zero rfl
  | cons x rest ih =>
    intro st lmap count
    rw [restoreLinkAggGo]
    cases h0 : st.resp st.idx with
    | val v =>
      simp only [apiCall]
      simp only [h0]
      by_cases hk : (truthy v && v.hasKey "id") = true
      · rw [if_pos hk]
        exact traceExt_trans (traceExt_one rfl (by simp [netEvOk])) (ih _ _ _)
      · rw [if_neg hk]
        exact traceExt_trans (traceExt_one rfl (by simp [netEvOk])) (ih _ _ _)
    | nil =>
      simp only [apiCall]
      simp only [h0]
      exact traceExt_trans (traceExt_one rfl (by simp [netEvOk])) (ih _ _ _)
    | exn m =>
      simp only [apiCall]
      simp only [h0]
      exact traceExt_trans (traceExt_one rfl (by simp [netEvOk])) (ih _ _ _)

theorem restoreLinkAggs_trace (st : RSt) (nid : String) (aggs : List Val) :
    ∃ d, (restoreLinkAggs st nid aggs).1.trace = st.trace ++ d ∧
      ∀ e ∈ d, netEvOk e = true := by
  rw [restoreLinkAggs]
  have h₁ := restoreLinkAggGo_trace nid aggs st [] 0
  rcases h : restoreLinkAggGo nid st [] 0 aggs with ⟨st₁, lmap, count⟩
  rw [h] at h₁
  exact h₁

theorem restoreOnePolicy_trace (nid : String) (psMap : List (Val × Val)) (st : RSt)
    (apMap : List (Val × Val)) (count : Nat) (policy : Val) :
    ∃ d, (restoreOnePolicy nid psMap st apMap count policy).1.trace = st.trace ++ d ∧
      ∀ e ∈ d, netEvOk e = true := by
  rw [restoreOnePolicy]
  rcases hc : cleanPolicyData psMap policy with ⟨pd, ls⟩
  dsimp only
  cases h0 : st.resp st.idx with
  | val v =>
    simp only [apiCall, logAdd, logAdds]
    simp only [h0]
    by_cases h1 : truthy ((buildPolicyConfig pd).get "radiusServers") = true <;>
      [rw [if_pos h1]; rw [if_neg h1]] <;>
      · by_cases h2 : truthy ((buildPolicyConfig pd).get "radiusAccountingServers") = true <;>
          [rw [if_pos h2]; rw [if_neg h2]] <;>
          exact traceExt_one rfl (by simp [netEvOk])
  | nil =>
    simp only [apiCall, logAdd, logAdds]
    simp only [h0]
    by_cases h1 : truthy ((buildPolicyConfig pd).get "radiusServers") = true <;>
      [rw [if_pos h1]; rw [if_neg h1]] <;>
      · by_cases h2 : truthy ((buildPolicyConfig pd).get "radiusAccountingServers") = true <;>
          [rw [if_pos h2]; rw [if_neg h2]] <;>
          exact traceExt_one rfl (by simp [netEvOk])
  | exn m =>
    simp only [apiCall, logAdd, logAdds]
    simp only [h0]
    by_cases h1 : (strContains (strLower m) "secret" || strContains (strLower m) "radius") = true <;>
      [rw [if_pos h1]; rw [if_neg h1]] <;>
      exact traceExt_one rfl (by simp [netEvOk])

theorem restorePoliciesGo_trace (nid : String) (psMap : List (Val × Val))
    (policies : List Val) :
    ∀ (st : RSt) (apMap : List (Val × Val)) (count : Nat),
      ∃ d, (restorePoliciesGo nid psMap st apMap count policies).1.trace = st.trace ++ d ∧
        ∀ e ∈ d, netEvOk e = true := by
  induction policies with
  | nil => intro st apMap count; exact traceExt_zero rfl
  | cons x rest ih =>
    intro st apMap count
    rw [restorePoliciesGo]
    have h₁ := restoreOnePolicy_trace nid psMap st apMap count x
    rcases h : restoreOnePolicy nid psMap st apMap count x with ⟨st₁, a₁, c₁⟩
    rw [h] at h₁
    exact traceExt_trans h₁ (ih st₁ a₁ c₁)

theorem restoreAccessPoliciesWithMapping_trace (st : RSt) (nid : String)
    (policies : List Val) (psMap : List (Val × Val)) :
    ∃ d, (restoreAccessPoliciesWithMapping st nid policies psMap).1.trace =
      st.trace ++ d ∧ ∀ e ∈ d, netEvOk e = true := by
  rw [restoreAccessPoliciesWithMapping]
  have h₁ := restorePoliciesGo_trace nid psMap policies st [] 0
  rcases h : restorePoliciesGo nid psMap st [] 0 policies with ⟨st₁, apMap, count⟩
  rw [h] at h₁
  dsimp only
  by_cases hc : count > 0 <;> [rw [if_pos hc]; rw [if_neg hc]] <;> exact h₁

theorem netProbe_trace (nid : String) (a : NetAcc) :
    ∃ d, (netProbe nid a).st.trace = a.st.trace ++ d ∧ ∀ e ∈ d, netEvOk e = true := by
  rw [netProbe]
  cases h0 : a.st.resp a.st.idx with
  | val v =>
    simp only [apiCall]
    simp only [h0]
    exact traceExt_one rfl (by simp [netEvOk])
  | nil =>
    simp only [apiCall]
    simp only [h0]
    exact traceExt_one rfl (by simp [netEvOk])
  | exn m =>
    simp only [apiCall]
    simp only [h0]
    exact traceExt_one rfl (by simp [netEvOk])

theorem netSchedules_trace (nid : String) (sw : Val) (a : NetAcc) :
    ∃ d, (netSchedules nid sw a).st.trace = a.st.trace ++ d ∧
      ∀ e ∈ d, netEvOk e = true := by
  rw [netSchedules]
  by_cases h : truthy (sw.get "portSchedules") = true
  · rw [if_pos h]
    have t := restoreSchedules_trace a.st nid (sw.get "portSchedules").items
    rcases hr : restoreSchedules a.st nid (sw.get "portSchedules").items with ⟨st₁, m₁, r₁⟩
    rw [hr] at t
    exact t
  · rw [if_neg h]; exact traceExt_zero rfl

theorem netQos_trace (nid : String) (sw : Val) (a : NetAcc) :
    ∃ d, (netQos nid sw a).st.trace = a.st.trace ++ d ∧ ∀ e ∈ d, netEvOk e = true := by
  rw [netQos]
  by_cases h : truthy (sw.get "qosRules") = true
  · rw [if_pos h]
    have t := restoreQosRules_trace a.st nid (sw.get "qosRules").items
    rcases hr : restoreQosRules a.st nid (sw.get "qosRules").items with ⟨st₁, m₁, r₁⟩
    rw [hr] at t
    exact t
  · rw [if_neg h]; exact traceExt_zero rfl

theorem netLinkAggs_trace (nid : String) (sw : Val) (a : NetAcc) :
    ∃ d, (netLinkAggs nid sw a).st.trace = a.st.trace ++ d ∧
      ∀ e ∈ d, netEvOk e = true := by
  rw [netLinkAggs]
  by_cases h : truthy (sw.get "linkAggregations") = true
  · rw [if_pos h]
    have t := restoreLinkAggs_trace a.st nid (sw.get "linkAggregations").items
    rcases hr : restoreLinkAggs a.st nid (sw.get "linkAggregations").items with ⟨st₁, m₁, r₁⟩
    rw [hr] at t
    exact t
  · rw [if_neg h]; exact traceExt_zero rfl

theorem netPolicies_trace (nid : String) (sw : Val) (a : NetAcc) :
    ∃ d, (netPolicies nid sw a).st.trace = a.st.trace ++ d ∧
      ∀ e ∈ d, netEvOk e = true := by
  rw [netPolicies]
  by_cases h : truthy (sw.get "accessPolicies") = true
  · rw [if_pos h]
    have t := restoreAccessPoliciesWithMapping_trace a.st nid
      (sw.get "accessPolicies").items a.psMap
    rcases hr : restoreAccessPoliciesWithMapping a.st nid
        (sw.get "accessPolicies").items a.psMap with ⟨st₁, apMap, success, n⟩
    rw [hr] at t
    dsimp only
    by_cases h1 : (success && n > 0) = true
    · rw [if_pos h1]; exact t
    · rw [if_neg h1]
      by_cases h2 : (!success) = true
      · rw [if_pos h2]; exact t
      · rw [if_neg h2]; exact t
  · rw [if_neg h]; exact traceExt_zero rfl

theorem netStp_trace (nid : String) (sw : Val) (a : NetAcc) :
    ∃ d, (netStp nid sw a).st.trace = a.st.trace ++ d ∧ ∀ e ∈ d, netEvOk e = true := by
  rw [netStp]
  by_cases h : truthy (sw.get "stp") = true
  · rw [if_pos h]
    cases h0 : a.st.resp a.st.idx with
    | val v =>
      simp only [apiCall]
      simp only [h0]
      exact traceExt_one rfl (by simp [netEvOk])
    | nil =>
      simp only [apiCall]
      simp only [h0]
      exact traceExt_one rfl (by simp [netEvOk])
    | exn m =>
      simp only [apiCall]
      simp only [h0]
      exact traceExt_one rfl (by simp [netEvOk])
  · rw [if_neg h]; exact traceExt_zero rfl

theorem netMtu_trace (nid : String) (sw : Val) (a : NetAcc) :
    ∃ d, (netMtu nid sw a).st.trace = a.st.trace ++ d ∧ ∀ e ∈ d, netEvOk e = true := by
  rw [netMtu]
  by_cases h : (truthy (sw.get "mtu") &&
      (a.supported.items.any (fun x => Val.beq x (Val.str "switch")))) = true
  · rw [if_pos h]
    by_cases h1 : truthy ((cleanApiData (sw.get "mtu") ["warnings", "errors"]).keepOnly
        ["defaultMtuSize", "overrides"]) = true
    · rw [if_pos h1]
      cases h0 : a.st.resp a.st.idx with
      | val v =>
        simp only [apiCall]
        simp only [h0]
        exact traceExt_one rfl (by simp [netEvOk])
      | nil =>
        simp only [apiCall]
        simp only [h0]
        exact traceExt_one rfl (by simp [netEvOk])
      | exn m =>
        simp only [apiCall]
        simp only [h0]
        by_cases h2 : (strContains m "400" || strContains m "does not support") = true
        · rw [if_pos h2]
          exact traceExt_one rfl (by simp [netEvOk])
        · rw [if_neg h2]
          exact traceExt_one rfl (by simp [netEvOk])
    · rw [if_neg h1]
      exact traceExt_zero rfl
  · rw [if_neg h]; exact traceExt_zero rfl

theorem netWrapUp_trace (a : NetAcc) : (netWrapUp a).st.trace = a.st.trace := by
  rw [netWrapUp]
  by_cases h : a.failedC > 0 <;> [rw [if_pos h]; rw [if_neg h]] <;> rfl

theorem restoreNetworkSettings_trace (st : RSt) (settings : Val) (nid : String) :
    ∃ d, (restoreNetworkSettings st settings nid).1.trace = st.trace ++ d ∧
      ∀ e ∈ d, netEvOk e = true := by
  rw [restoreNetworkSettings]
  have h₁ := netProbe_trace nid
    { st := logAdd st (LogEntry.info "Restoring network-level settings...")
      supported := Val.list []
      psMap := []
      qMap := []
      lMap := []
      apMap := []
      restoredC := 0
      failedC := 0 }
  refine traceExt_trans h₁ ?_
  · refine traceExt_trans (netSchedules_trace nid (settings.get "switch") _) ?_
    refine traceExt_trans (netQos_trace nid (settings.get "switch") _) ?_
    refine traceExt_trans (netLinkAggs_trace nid (settings.get "switch") _) ?_
    refine traceExt_trans (netPolicies_trace nid (settings.get "switch") _) ?_
    refine traceExt_trans (netStp_trace nid (settings.get "switch") _) ?_
    refine traceExt_trans (netMtu_trace nid (settings.get "switch") _) ?_
    exact traceExt_zero (netWrapUp_trace _)

/-- Writes of the remaining scalar network settings named by the spec: DHCP
server policy, storm control, SNMP, syslog, alerts. -/
def Ev.isScalarNetWrite : Ev → Bool
  | Ev.putStormControl _ _ => true
  | Ev.putDhcpServerPolicy _ _ => true
  | Ev.putSnmp _ _ => true
  | Ev.putSyslog _ _ => true
  | Ev.putAlerts _ _ => true
  | _ => false

theorem netEvOk_not_scalar (e : Ev) (h : netEvOk e = true) :
    e.isScalarNetWrite = false := by
  cases e <;> simp_all [netEvOk, Ev.isScalarNetWrite]

/-- Network settings of the C6 run: STP, MTU, storm control and DHCP server
policy are configured at network level, and SNMP, syslog and alerts under
monitoring. -/
def c6Settings : Val := Val.dict [
  ("switch", Val.dict [
    ("stp", Val.dict [("rstpEnabled", Val.boolean true)]),
    ("mtu", Val.dict [("defaultMtuSize", Val.nat 9578)]),
    ("stormControl", Val.dict [("broadcastThreshold", Val.nat 42)]),
    ("dhcpServerPolicy", Val.dict [("defaultPolicy", Val.str "allow")])]),
  ("monitoring", Val.dict [
    ("snmp", Val.dict [("access", Val.str "community")]),
    ("syslog", Val.list [Val.dict [("host", Val.str "1.2.3.4")]]),
    ("alerts", Val.dict [("alertsEnabled", Val.boolean true)])])]

/-- Oracle of the C6 run: the network probe reports a switch network, every
other call returns `None`. -/
def c6Oracle : Nat → ApiR
  | 0 => ApiR.val (Val.dict [("productTypes", Val.list [Val.str "switch"])])
  | _ => ApiR.nil

/-- Initial state of the C6 run. -/
def c6St : RSt := { resp := c6Oracle, idx := 0, trace := [], log := [] }

/-- C6 counterexample: on a snapshot that has DHCP server policy, storm
control, SNMP, syslog and alerts configured, the network-level restore issues
only the probe, the STP write and the MTU write — none of the five remaining
scalar settings is ever written after the MTU step (or at all). -/
theorem network_restore_ends_after_mtu :
    (restoreNetworkSettings c6St c6Settings "NT").1.trace =
      [Ev.getNetwork "NT",
       Ev.putStp "NT" (Val.dict [("rstpEnabled", Val.boolean true)]),
       Ev.putMtu "NT" (Val.dict [("defaultMtuSize", Val.nat 9578)])] ∧
    ∀ e ∈ (restoreNetworkSettings c6St c6Settings "NT").1.trace,
      e.isScalarNetWrite = false := by
  constructor
  · rfl
  · intro e he
    have h : (restoreNetworkSettings c6St c6Settings "NT").1.trace =
        [Ev.getNetwork "NT",
         Ev.putStp "NT" (Val.dict [("rstpEnabled", Val.boolean true)]),
         Ev.putMtu "NT" (Val.dict [("defaultMtuSize", Val.nat 9578)])] := rfl
    rw [h] at he
    rcases List.mem_cons.mp he with rfl | he
    · rfl
    rcases List.mem_cons.mp he with rfl | he
    · rfl
    rcases List.mem_cons.mp he with rfl | he
    · rfl
    cases he

/-- C6 amended: after the MTU step the network-level restore performs no
further API call; DHCP server policy, storm control, SNMP, syslog and alerts
are never replayed, on any snapshot and any server behaviour. -/
theorem network_restore_no_scalar_settings (st : RSt) (settings : Val) (nid : String) :
    ∃ d, (restoreNetworkSettings st settings nid).1.trace = st.trace ++ d ∧
      ∀ e ∈ d, netEvOk e = true ∧ e.isScalarNetWrite = false := by
  obtain ⟨d, hd, hP⟩ := restoreNetworkSettings_trace st settings nid
  exact ⟨d, hd, fun e he => ⟨hP e he, netEvOk_not_scalar e (hP e he)⟩⟩

theorem network_restore_no_scalar_settings_witness :
    netEvOk (Ev.getNetwork "NT") = true ∧
    (Ev.getNetwork "NT").isScalarNetWrite = false := by
  obtain ⟨d, hd, hP⟩ := network_restore_no_scalar_settings c6St c6Settings "NT"
  have hc : (restoreNetworkSettings c6St c6Settings "NT").1.trace =
      [Ev.getNetwork "NT",
       Ev.putStp "NT" (Val.dict [("rstpEnabled", Val.boolean true)]),
       Ev.putMtu "NT" (Val.dict [("defaultMtuSize", Val.nat 9578)])] := rfl
  rw [hc] at hd
  have hd' : d = [Ev.getNetwork "NT",
      Ev.putStp "NT" (Val.dict [("rstpEnabled", Val.boolean true)]),
      Ev.putMtu "NT" (Val.dict [("defaultMtuSize", Val.nat 9578)])] := by
    simpa using hd.symm
  exact hP (Ev.getNetwork "NT") (by rw [hd']; exact List.mem_cons_self _ _)

theorem restoreInterfaces_head (st : RSt) (serial : String) (x : Val) (rest : List Val) :
    ∃ e d, (restoreInterfaces st serial (x :: rest)).1.trace = st.trace ++ e :: d ∧
      e.isInterfaceWrite = true := by
  rw [restoreInterfaces]
  obtain ⟨e, d, hd, hw, hP⟩ := restoreInterfacesGo_head serial x rest
    (logAdd st (LogEntry.info ("  → Restoring " ++ toString (x :: rest).length ++
      " routing interfaces..."))) [] 0 0
  rcases hr : restoreInterfacesGo serial
      (logAdd st (LogEntry.info ("  → Restoring " ++ toString (x :: rest).length ++
        " routing interfaces..."))) [] 0 0 (x :: rest) with ⟨st₁, m₁, s₁, f₁⟩
  rw [hr] at hd
  dsimp only
  by_cases hs : s₁ > 0 <;> [rw [if_pos hs]; rw [if_neg hs]] <;> exact ⟨e, d, hd, hw⟩

theorem devIfaces_head (serial : String) (a : DevAcc) (x : Val) (rest : List Val)
    (hg : (a.settings.get "routing").get "interfaces" = Val.list (x :: rest)) :
    ∃ e d, (devIfaces serial a).st.trace = a.st.trace ++ e :: d ∧
      e.isInterfaceWrite = true := by
  rw [devIfaces, hg]
  have ht : truthy (Val.list (x :: rest)) = true := rfl
  rw [if_pos ht]
  dsimp only [Val.items]
  obtain ⟨e, d, hd, hw⟩ := restoreInterfaces_head a.st serial x rest
  rcases hr : restoreInterfaces a.st serial (x :: rest) with ⟨st₁, m₁, s₁, f₁⟩
  rw [hr] at hd
  dsimp only
  exact ⟨e, d, hd, hw⟩

/-- Concrete settings for the C7 counterexample: the device HAS a non-empty
management-interface section in the snapshot, and one VLAN-1 routing
interface. -/
def c7Settings : Val := Val.dict [
  ("management", Val.dict [("wan1", Val.dict [("usingStaticIp", Val.boolean false)])]),
  ("routing", Val.dict [("interfaces", Val.list [Val.dict [
    ("interfaceId", Val.str "1"), ("vlanId", Val.nat 1)]])])]

/-- Oracle of the C7 run: every call returns `None`. -/
def c7Oracle : Nat → ApiR := fun _ => ApiR.nil

/-- Initial state of the C7 run. -/
def c7St : RSt := { resp := c7Oracle, idx := 0, trace := [], log := [] }

/-- C7 counterexample: for a device whose snapshot carries management
settings, the device-level restore issues no management-interface call and no
device-status query at all — its first and only call is the VLAN-1 routing
interface update.  There is no management step to skip and no reachability
check. -/
theorem device_restore_has_no_management_step :
    (restoreDeviceFor c7St "NEW1" c7Settings).1.trace =
      [Ev.putInterface "NEW1" (Val.str "1") (Val.dict [("vlanId", Val.nat 1)])] ∧
    ∀ e ∈ (restoreDeviceFor c7St "NEW1" c7Settings).1.trace, e.isMgmtOp = false := by
  constructor
  · rfl
  · intro e he
    have h : (restoreDeviceFor c7St "NEW1" c7Settings).1.trace =
        [Ev.putInterface "NEW1" (Val.str "1") (Val.dict [("vlanId", Val.nat 1)])] := rfl
    rw [h] at he
    rcases List.mem_cons.mp he with rfl | he
    · rfl
    cases he

/-- C7 amended: device-level restore performs no management-interface restore
and no device-status query for any device and any server behaviour; when the
snapshot carries routing interfaces, restoration begins with a routing
interface create/update, unconditionally. -/
theorem device_restore_no_management (st : RSt) (serial : String) (settings : Val) :
    ∃ tr, (restoreDeviceFor st serial settings).1.trace = st.trace ++ tr ∧
      (∀ e ∈ tr, e.isMgmtOp = false) ∧
      (∀ (x : Val) (rest : List Val),
        (settings.get "routing").get "interfaces" = Val.list (x :: rest) →
        ∃ e tr₂, tr = e :: tr₂ ∧ e.isInterfaceWrite = true) := by
  obtain ⟨d₁, d₂, hd, hP₁, hP₂⟩ := restoreDeviceFor_trace st serial settings
  refine ⟨d₁ ++ d₂, by rw [hd, List.append_assoc], ?_, ?_⟩
  · intro e he
    rcases List.mem_append.mp he with h | h
    · exact ifaceEvOk_not_mgmt e (hP₁ e h)
    · exact afterIfaceEvOk_not_mgmt e (hP₂ e h)
  · intro x rest hg
    rw [restoreDeviceFor] at hd
    obtain ⟨e, dh, hdh, hw⟩ := devIfaces_head serial
      { st := logAdd st (LogEntry.info ("\nRestoring settings for device " ++ serial ++
          " (" ++ ((settings.get "info").getDflt "name" (Val.str "Unnamed")).render ++ ", " ++
          ((settings.get "info").getDflt "model" (Val.str "Unknown")).render ++ ")"))
        settings := settings
        imap := []
        restored := 0
        failed := 0 } x rest hg
    obtain ⟨dr, hdr, _⟩ := devAfter_trace serial (devIfaces serial
      { st := logAdd st (LogEntry.info ("\nRestoring settings for device " ++ serial ++
          " (" ++ ((settings.get "info").getDflt "name" (Val.str "Unnamed")).render ++ ", " ++
          ((settings.get "info").getDflt "model" (Val.str "Unknown")).render ++ ")"))
        settings := settings
        imap := []
        restored := 0
        failed := 0 })
    rw [hdr, hdh] at hd
    have hlog : (logAdd st (LogEntry.info ("\nRestoring settings for device " ++ serial ++
        " (" ++ ((settings.get "info").getDflt "name" (Val.str "Unnamed")).render ++ ", " ++
        ((settings.get "info").getDflt "model" (Val.str "Unknown")).render ++ ")"))).trace
        = st.trace := rfl
    rw [hlog] at hd
    rw [List.append_assoc st.trace d₁ d₂, List.append_assoc st.trace (e :: dh) dr] at hd
    have := List.append_cancel_left hd
    exact ⟨e, dh ++ dr, this.symm, hw⟩

theorem device_restore_no_management_witness :
    ∃ tr, (restoreDeviceFor c7St "NEW1" c7Settings).1.trace = c7St.trace ++ tr ∧
      ∃ e tr₂, tr = e :: tr₂ ∧ e.isInterfaceWrite = true := by
  obtain ⟨tr, htr, _, hhead⟩ := device_restore_no_management c7St "NEW1" c7Settings
  exact ⟨tr, htr, hhead (Val.dict [("interfaceId", Val.str "1"), ("vlanId", Val.nat 1)])
    [] rfl⟩

/-- The create event a captured static route gives rise to: its
`staticRouteId` stripped, and a truthy next-hop `interfaceId` rewritten
through the interface table (`Option.none` when the id does not resolve: the
route is skipped). -/
def routeSubmission (serial : String) (imap : List (Val × Val)) (route : Val) : Option Ev :=
  let rd := route.excl ["staticRouteId"]
  if truthy (rd.get "interfaceId") then
    if truthy (mlookup imap (rd.get "interfaceId")) then
      Option.some (Ev.postStaticRoute serial
        (rd.set "interfaceId" (mlookup imap (rd.get "interfaceId"))))
    else Option.none
  else Option.some (Ev.postStaticRoute serial rd)

theorem restoreOneRoute_spec (serial : String) (imap : List (Val × Val)) (st : RSt)
    (rmap : List (Val × Val)) (succ failed : Nat) (route : Val) :
    ∃ l, (restoreOneRoute serial imap st rmap succ failed route).1.trace =
        st.trace ++ (routeSubmission serial imap route).toList ∧
      (restoreOneRoute serial imap st rmap succ failed route).1.log = st.log ++ l ∧
      (truthy ((route.excl ["staticRouteId"]).get "interfaceId") = true →
       truthy (mlookup imap ((route.excl ["staticRouteId"]).get "interfaceId")) = false →
       l = [LogEntry.warn ("    ⚠ Cannot map interface ID for route to " ++
         (route.get "subnet").render)]) := by
  rw [restoreOneRoute, routeSubmission]
  by_cases h1 : truthy ((route.excl ["staticRouteId"]).get "interfaceId") = true
  · rw [if_pos h1, if_pos h1]
    by_cases h2 : truthy (mlookup imap ((route.excl ["staticRouteId"]).get "interfaceId")) = true
    · rw [if_pos h2, if_pos h2]
      cases h0 : st.resp st.idx with
      | val v =>
        simp only [apiCall]
        simp only [h0]
        exact ⟨[LogEntry.debug ("    ✓ Restored route to " ++
          (route.getDflt "subnet" (Val.str "unknown")).render)], rfl, rfl,
          fun _ hc => absurd h2 (by simp [hc])⟩
      | nil =>
        simp only [apiCall]
        simp only [h0]
        exact ⟨[LogEntry.debug ("    ✓ Restored route to " ++
          (route.getDflt "subnet" (Val.str "unknown")).render)], rfl, rfl,
          fun _ hc => absurd h2 (by simp [hc])⟩
      | exn m =>
        simp only [apiCall]
        simp only [h0]
        exact ⟨[LogEntry.warn ("    ⚠ Failed to restore static route: " ++ strTake m 100)],
          rfl, rfl, fun _ hc => absurd h2 (by simp [hc])⟩
    · rw [if_neg h2, if_neg h2]
      refine ⟨[LogEntry.warn ("    ⚠ Cannot map interface ID for route to " ++
        (route.get "subnet").render)], by simp [logAdd], rfl, fun _ _ => rfl⟩
  · rw [if_neg h1, if_neg h1]
    cases h0 : st.resp st.idx with
    | val v =>
      simp only [apiCall]
      simp only [h0]
      exact ⟨[LogEntry.debug ("    ✓ Restored route to " ++
        (route.getDflt "subnet" (Val.str "unknown")).render)], rfl, rfl,
        fun hc _ => absurd hc h1⟩
    | nil =>
      simp only [apiCall]
      simp only [h0]
      exact ⟨[LogEntry.debug ("    ✓ Restored route to " ++
        (route.getDflt "subnet" (Val.str "unknown")).render)], rfl, rfl,
        fun hc _ => absurd hc h1⟩
    | exn m =>
      simp only [apiCall]
      simp only [h0]
      exact ⟨[LogEntry.warn ("    ⚠ Failed to restore static route: " ++ strTake m 100)],
        rfl, rfl, fun hc _ => absurd hc h1⟩

theorem restoreRoutesGo_spec (serial : String) (imap : List (Val × Val))
    (routes : List Val) :
    ∀ (st : RSt) (rmap : List (Val × Val)) (succ failed : Nat),
      ∃ dl, (restoreRoutesGo serial imap st rmap succ failed routes).1.trace =
          st.trace ++ routes.filterMap (routeSubmission serial imap) ∧
        (restoreRoutesGo serial imap st rmap succ failed routes).1.log = st.log ++ dl ∧
        ∀ route ∈ routes,
          truthy ((route.excl ["staticRouteId"]).get "interfaceId") = true →
          truthy (mlookup imap ((route.excl ["staticRouteId"]).get "interfaceId")) = false →
          LogEntry.warn ("    ⚠ Cannot map interface ID for route to " ++
            (route.get "subnet").render) ∈ dl := by
  induction routes with
  | nil =>
    intro st rmap succ failed
    exact ⟨[], by simp [restoreRoutesGo], by simp [restoreRoutesGo], by simp⟩
  | cons x rest ih =>
    intro st rmap succ failed
    rw [restoreRoutesGo]
    obtain ⟨l₁, htr₁, hlog₁, hB₁⟩ := restoreOneRoute_spec serial imap st rmap succ failed x
    rcases h : restoreOneRoute serial imap st rmap succ failed x with ⟨st₁, r₁, s₁, f₁⟩
    rw [h] at htr₁ hlog₁
    obtain ⟨dl₂, htr₂, hlog₂, hB₂⟩ := ih st₁ r₁ s₁ f₁
    refine ⟨l₁ ++ dl₂, ?_, ?_, ?_⟩
    · rw [htr₂]
      dsimp only at htr₁
      rw [htr₁, List.append_assoc]
      congr 1
      rw [List.filterMap_cons]
      cases hopt : routeSubmission serial imap x <;> simp [hopt, Option.toList]
    · rw [hlog₂]
      dsimp only at hlog₁
      rw [hlog₁, List.append_assoc]
    · intro route hr hA hB
      rcases List.mem_cons.mp hr with rfl | hr
      · rw [hB₁ hA hB]
        simp
      · exact List.mem_append_right _ (hB₂ route hr hA hB)

/-- C2: for every captured static route of a device, a route whose
`interfaceId` resolves through the interface translation table is submitted
carrying exactly the mapped new identifier; a route whose `interfaceId` is
absent from the table is skipped with a warning naming its subnet; the
remaining routes are all still attempted, one per route, independently of
any other route's failure or skip — the submitted-route trace is exactly the
`filterMap` of the per-route submission over the captured list. -/
theorem static_route_reference_rewrite (st : RSt) (serial : String)
    (imap : List (Val × Val)) (routes : List Val) :
    ∃ dl, (restoreStaticRoutes st serial imap routes).1.trace =
        st.trace ++ routes.filterMap (routeSubmission serial imap) ∧
      (restoreStaticRoutes st serial imap routes).1.log = st.log ++ dl ∧
      ∀ route ∈ routes,
        truthy ((route.excl ["staticRouteId"]).get "interfaceId") = true →
        truthy (mlookup imap ((route.excl ["staticRouteId"]).get "interfaceId")) = false →
        LogEntry.warn ("    ⚠ Cannot map interface ID for route to " ++
          (route.get "subnet").render) ∈ dl := by
  rw [restoreStaticRoutes]
  obtain ⟨dl, htr, hlog, hB⟩ := restoreRoutesGo_spec serial imap routes
    (logAdd st (LogEntry.info ("  → Restoring " ++ toString routes.length ++
      " static routes..."))) [] 0 0
  rcases h : restoreRoutesGo serial imap
      (logAdd st (LogEntry.info ("  → Restoring " ++ toString routes.length ++
        " static routes..."))) [] 0 0 routes with ⟨st₁, rmap, s₁, f₁⟩
  rw [h] at htr hlog
  dsimp only at htr hlog ⊢
  by_cases hs : s₁ > 0
  · rw [if_pos hs]
    refine ⟨(LogEntry.info ("  → Restoring " ++ toString routes.length ++
        " static routes...") :: dl) ++ [LogEntry.info ("  ✓ Restored " ++ toString s₁ ++
        "/" ++ toString routes.length ++ " static routes")], htr, ?_, ?_⟩
    · show st₁.log ++ _ = _
      rw [hlog]
      simp [logAdd]
    · intro route hr hA hB₀
      exact List.mem_append_left _ (List.mem_cons_of_mem _ (hB route hr hA hB₀))
  · rw [if_neg hs]
    refine ⟨LogEntry.info ("  → Restoring " ++ toString routes.length ++
        " static routes...") :: dl, htr, ?_, ?_⟩
    · rw [hlog]
      simp [logAdd]
    · intro route hr hA hB₀
      exact List.mem_cons_of_mem _ (hB route hr hA hB₀)

/-- Interface table of the C2 witness: old id "5" maps to new id "7". -/
def c2Imap : List (Val × Val) := [(Val.str "5", Val.str "7")]

/-- Routes of the C2 witness: one mapped, one unmappable, one without an
interface reference. -/
def c2Routes : List Val := [
  Val.dict [("staticRouteId", Val.str "r1"), ("subnet", Val.str "10.1.0.0/24"),
    ("interfaceId", Val.str "5")],
  Val.dict [("staticRouteId", Val.str "r2"), ("subnet", Val.str "10.2.0.0/24"),
    ("interfaceId", Val.str "9")],
  Val.dict [("staticRouteId", Val.str "r3"), ("subnet", Val.str "10.3.0.0/24")]]

/-- Initial state of the C2 witness (every call returns `None`). -/
def c2St : RSt := { resp := fun _ => ApiR.nil, idx := 0, trace := [], log := [] }

theorem static_route_reference_rewrite_witness :
    ∃ dl, (restoreStaticRoutes c2St "NEW1" c2Imap c2Routes).1.trace =
        c2St.trace ++ c2Routes.filterMap (routeSubmission "NEW1" c2Imap) ∧
      (restoreStaticRoutes c2St "NEW1" c2Imap c2Routes).1.log = c2St.log ++ dl ∧
      LogEntry.warn "    ⚠ Cannot map interface ID for route to 10.2.0.0/24" ∈ dl := by
  obtain ⟨dl, htr, hlog, hB⟩ := static_route_reference_rewrite c2St "NEW1" c2Imap c2Routes
  refine ⟨dl, htr, hlog, ?_⟩
  have := hB (Val.dict [("staticRouteId", Val.str "r2"), ("subnet", Val.str "10.2.0.0/24"),
    ("interfaceId", Val.str "9")]) (by simp [c2Routes]) rfl rfl
  simpa using this

/-- Did the call succeed (the client did not raise)? -/
def ApiR.notExn : ApiR → Bool
  | ApiR.exn _ => false
  | _ => true

/-- Does an exception message report a create conflict (the condition the
interface-restore fallback checks)? -/
def isConflictMsg (m : String) : Bool :=
  strContains m "already exists" || strContains (strLower m) "duplicate"

/-- C3: restore of one captured routing interface.  (1) An interface with
vlanId 1 is updated in place at interface id "1", and on success the entry
old-id → "1" is recorded.  (2) Any other interface is created fresh, and a
successful create records old-id → returned new id.  (3) When the create
reports a conflict, the engine lists the target's existing interfaces,
matches one by vlanId and updates that match, recording old-id →
existing-id.  Each success adds exactly the one entry written by `vset`. -/
theorem routing_interface_restore_cases (serial : String) (st : RSt)
    (mapping : List (Val × Val)) (succ failed : Nat) (iface : Val) :
    (Val.beq (iface.get "vlanId") (Val.nat 1) = true →
      (restoreOneInterface serial st mapping succ failed iface).1.trace =
        st.trace ++ [Ev.putInterface serial (Val.str "1")
          (iface.excl ["interfaceId", "serial"])] ∧
      ((st.resp st.idx).notExn = true →
        (restoreOneInterface serial st mapping succ failed iface).2.1 =
          vset mapping (iface.get "interfaceId") (Val.str "1") ∧
        (restoreOneInterface serial st mapping succ failed iface).2.2.1 = succ + 1)) ∧
    (Val.beq (iface.get "vlanId") (Val.nat 1) = false →
      ∀ v : Val, st.resp st.idx = ApiR.val v → (truthy v && v.hasKey "interfaceId") = true →
        (restoreOneInterface serial st mapping succ failed iface).1.trace =
          st.trace ++ [Ev.postInterface serial (iface.excl ["interfaceId", "serial"])] ∧
        (restoreOneInterface serial st mapping succ failed iface).2.1 =
          vset mapping (iface.get "interfaceId") (v.get "interfaceId") ∧
        (restoreOneInterface serial st mapping succ failed iface).2.2.1 = succ + 1) ∧
    (Val.beq (iface.get "vlanId") (Val.nat 1) = false →
      ∀ (m : String) (xs : List Val) (x : Val),
        st.resp st.idx = ApiR.exn m → isConflictMsg m = true →
        truthy (iface.get "vlanId") = true →
        st.resp (st.idx + 1) = ApiR.val (Val.list xs) →
        xs.find? (fun y => Val.beq (y.get "vlanId") (iface.get "vlanId")) = Option.some x →
        (st.resp (st.idx + 2)).notExn = true →
        (restoreOneInterface serial st mapping succ failed iface).1.trace =
          st.trace ++ [Ev.postInterface serial (iface.excl ["interfaceId", "serial"]),
            Ev.getInterfaces serial,
            Ev.putInterface serial (x.get "interfaceId")
              (iface.excl ["interfaceId", "serial"])] ∧
        (restoreOneInterface serial st mapping succ failed iface).2.1 =
          vset mapping (iface.get "interfaceId") (x.get "interfaceId") ∧
        (restoreOneInterface serial st mapping succ failed iface).2.2.1 = succ + 1) := by
  refine ⟨?_, ?_, ?_⟩
  · intro hv
    rw [restoreOneInterface, if_pos hv]
    cases h0 : st.resp st.idx with
    | val v =>
      simp only [apiCall]
      simp only [h0]
      simp [ApiR.notExn, logAdd]
    | nil =>
      simp only [apiCall]
      simp only [h0]
      simp [ApiR.notExn, logAdd]
    | exn m =>
      simp only [apiCall]
      simp only [h0]
      simp [ApiR.notExn, logAdd]
  · intro hv v h0 hk
    rw [restoreOneInterface, if_neg (by simp [hv])]
    simp only [apiCall]
    simp only [h0]
    rw [if_pos hk]
    simp [ApiR.notExn, logAdd]
  · intro hv m xs x h0 hc ht h1 hf h2
    rw [restoreOneInterface, if_neg (by simp [hv])]
    simp only [apiCall]
    simp only [h0]
    rw [if_pos (by rw [isConflictMsg] at hc; exact hc), if_pos ht]
    simp only [h1]
    simp only [hf]
    cases h2' : st.resp (st.idx + 1 + 1) with
    | val v₂ =>
      simp only [h2']
      simp [ApiR.notExn, logAdd]
    | nil =>
      simp only [h2']
      simp [ApiR.notExn, logAdd]
    | exn m₂ =>
      rw [show st.idx + 1 + 1 = st.idx + 2 from rfl] at h2'
      rw [h2'] at h2
      simp [ApiR.notExn] at h2

/-- State for the C3 witness: the interface create returns new id "7". -/
def c3St : RSt :=
  { resp := fun n => if n = 0 then ApiR.val (Val.dict [("interfaceId", Val.str "7")])
      else ApiR.nil
    idx := 0
    trace := []
    log := [] }

theorem routing_interface_restore_cases_witness :
    (restoreOneInterface "NEW1" c3St [] 0 0 (Val.dict [("interfaceId", Val.str "5"),
        ("vlanId", Val.nat 2)])).2.1 = [(Val.str "5", Val.str "7")] ∧
    (restoreOneInterface "NEW1" c3St [] 0 0 (Val.dict [("interfaceId", Val.str "5"),
        ("vlanId", Val.nat 2)])).2.2.1 = 1 := by
  obtain ⟨-, h2, -⟩ := routing_interface_restore_cases "NEW1" c3St [] 0 0
    (Val.dict [("interfaceId", Val.str "5"), ("vlanId", Val.nat 2)])
  obtain ⟨-, hm, hs⟩ := h2 rfl (Val.dict [("interfaceId", Val.str "7")]) rfl rfl
  exact ⟨by rw [hm]; rfl, hs⟩

theorem lookup_setPair_ne (kvs : List (String × Val)) (k k' : String) (x : Val)
    (h : k' ≠ k) : lookupStr (setPair kvs k x) k' = lookupStr kvs k' := by
  induction kvs with
  | nil => simp [setPair, lookupStr, beq_iff_eq, Ne.symm h]
  | cons p rest ih =>
    rcases p with ⟨k₀, v₀⟩
    rw [setPair]
    by_cases hk : (k₀ == k) = true
    · rw [if_pos hk]
      have hkk : k₀ = k := by simpa using hk
      subst hkk
      simp [lookupStr, beq_iff_eq, Ne.symm h]
    · rw [if_neg hk]
      by_cases hk' : (k₀ == k') = true
      · simp [lookupStr, hk', ih]
      · simp [lookupStr, hk', ih]

theorem lookup_setPair_self (kvs : List (String × Val)) (k : String) (x : Val) :
    lookupStr (setPair kvs k x) k = Option.some x := by
  induction kvs with
  | nil => simp [setPair, lookupStr]
  | cons p rest ih =>
    rcases p with ⟨k₀, v₀⟩
    rw [setPair]
    by_cases hk : (k₀ == k) = true
    · rw [if_pos hk]
      simp [lookupStr]
    · rw [if_neg hk]
      simp [lookupStr, hk, ih]

theorem get_set_ne (v : Val) (k k' : String) (x : Val) (h : k' ≠ k) :
    (v.set k x).get k' = v.get k' := by
  cases v with
  | dict kvs =>
    simp only [Val.set, Val.get, Val.getKey?]
    rw [lookup_setPair_ne kvs k k' x h]
  | str s => rfl
  | nat n => rfl
  | boolean b => rfl
  | vnone => rfl
  | list xs => rfl

theorem get_set_self (kvs : List (String × Val)) (k : String) (x : Val) :
    ((Val.dict kvs).set k x).get k = x := by
  simp [Val.set, Val.get, Val.getKey?, lookup_setPair_self]

theorem lookup_filter_ne (kvs : List (String × Val)) (ks : List String) (k : String)
    (h : ks.contains k = false) :
    lookupStr (kvs.filter (fun p => !ks.contains p.1)) k = lookupStr kvs k := by
  induction kvs with
  | nil => simp
  | cons p rest ih =>
    rcases p with ⟨k₀, v₀⟩
    rw [List.filter_cons]
    by_cases hf : (!ks.contains k₀) = true
    · rw [if_pos hf]
      simp only [lookupStr]
      by_cases hk : (k₀ == k) = true
      · rw [if_pos hk, if_pos hk]
      · rw [if_neg hk, if_neg hk, ih]
    · rw [if_neg hf]
      have hmem : ks.contains k₀ = true := by
        cases hcc : ks.contains k₀
        · exact absurd (by rw [hcc]; rfl) hf
        · rfl
      have hne : ¬((k₀ == k) = true) := by
        intro hbe
        have hkk : k₀ = k := by simpa using hbe
        subst hkk
        rw [hmem] at h
        cases h
      rw [ih]
      simp only [lookupStr]
      rw [if_neg hne]

theorem get_excl_ne (v : Val) (ks : List String) (k : String)
    (h : ks.contains k = false) : (v.excl ks).get k = v.get k := by
  cases v with
  | dict kvs =>
    simp only [Val.excl, Val.get, Val.getKey?]
    rw [lookup_filter_ne kvs ks k h]
  | str s => rfl
  | nat n => rfl
  | boolean b => rfl
  | vnone => rfl
  | list xs => rfl

theorem get_condSet_ne (c : Prop) [Decidable c] (w : Val) (k k' : String) (x : Val)
    (h : k' ≠ k) : (if c then w.set k x else w).get k' = w.get k' := by
  by_cases hc : c
  · rw [if_pos hc]; exact get_set_ne w k k' x h
  · rw [if_neg hc]

theorem get_dict_of_eq_list (v : Val) (k : String) (rs : List Val)
    (h : v.get k = Val.list rs) : ∃ kvs, v = Val.dict kvs := by
  cases v <;> simp_all [Val.get, Val.getKey?]

theorem getDflt_of_get_list (v : Val) (k : String) (rs : List Val) (d : Val)
    (h : v.get k = Val.list rs) : v.getDflt k d = Val.list rs := by
  rw [Val.get] at h
  rw [Val.getDflt]
  cases hk : v.getKey? k with
  | none => rw [hk] at h; simp at h
  | some w => rw [hk] at h; simpa using h

theorem cleanPolicyData_radius (psMap : List (Val × Val)) (policy : Val) (rs : List Val)
    (h : (cleanApiData policy ["accessPolicyNumber", "counts",
      "enforceRadiusMonitoring"]).get "radiusServers" = Val.list rs)
    (hne : rs.isEmpty = false) :
    (cleanPolicyData psMap policy).1.get "radiusServers" =
      Val.list (cleanedRadiusServers rs) := by
  obtain ⟨kvs, hkvs⟩ := get_dict_of_eq_list _ _ _ h
  have h2 : truthy ((cleanApiData policy ["accessPolicyNumber", "counts",
      "enforceRadiusMonitoring"]).get "radiusServers") = true := by
    rw [h]; simp [truthy, hne]
  have hset : ((cleanApiData policy ["accessPolicyNumber", "counts",
      "enforceRadiusMonitoring"]).set "radiusServers"
        (Val.list (cleanedRadiusServers ((cleanApiData policy ["accessPolicyNumber",
          "counts", "enforceRadiusMonitoring"]).get "radiusServers").items))).get
      "radiusServers" = Val.list (cleanedRadiusServers rs) := by
    rw [h, hkvs, get_set_self]
    rfl
  simp only [cleanPolicyData]
  rw [if_pos h2]
  by_cases h3 : truthy (((cleanApiData policy ["accessPolicyNumber", "counts",
      "enforceRadiusMonitoring"]).set "radiusServers"
        (Val.list (cleanedRadiusServers ((cleanApiData policy ["accessPolicyNumber",
          "counts", "enforceRadiusMonitoring"]).get "radiusServers").items))).get
      "portScheduleId") = true
  · rw [if_pos h3]
    by_cases h4 : truthy (mlookup psMap (((cleanApiData policy ["accessPolicyNumber",
        "counts", "enforceRadiusMonitoring"]).set "radiusServers"
          (Val.list (cleanedRadiusServers ((cleanApiData policy ["accessPolicyNumber",
            "counts", "enforceRadiusMonitoring"]).get "radiusServers").items))).get
        "portScheduleId")) = true
    · rw [if_pos h4]
      dsimp only
      by_cases h5 : truthy ((((cleanApiData policy ["accessPolicyNumber", "counts",
          "enforceRadiusMonitoring"]).set "radiusServers"
            (Val.list (cleanedRadiusServers ((cleanApiData policy ["accessPolicyNumber",
              "counts", "enforceRadiusMonitoring"]).get "radiusServers").items))).set
          "portScheduleId" (mlookup psMap (((cleanApiData policy ["accessPolicyNumber",
            "counts", "enforceRadiusMonitoring"]).set "radiusServers"
              (Val.list (cleanedRadiusServers ((cleanApiData policy ["accessPolicyNumber",
                "counts", "enforceRadiusMonitoring"]).get "radiusServers").items))).get
            "portScheduleId"))).get "radiusAccountingServers") = true
      · rw [if_pos h5]
        rw [get_set_ne _ _ _ _ (by decide), get_set_ne _ _ _ _ (by decide)]
        exact hset
      · rw [if_neg h5]
        rw [get_set_ne _ _ _ _ (by decide)]
        exact hset
    · rw [if_neg h4]
      dsimp only
      by_cases h5 : truthy ((((cleanApiData policy ["accessPolicyNumber", "counts",
          "enforceRadiusMonitoring"]).set "radiusServers"
            (Val.list (cleanedRadiusServers ((cleanApiData policy ["accessPolicyNumber",
              "counts", "enforceRadiusMonitoring"]).get "radiusServers").items))).excl
          ["portScheduleId"]).get "radiusAccountingServers") = true
      · rw [if_pos h5]
        rw [get_set_ne _ _ _ _ (by decide), get_excl_ne _ _ _ (by decide)]
        exact hset
      · rw [if_neg h5]
        rw [get_excl_ne _ _ _ (by decide)]
        exact hset
  · rw [if_neg h3]
    dsimp only
    by_cases h5 : truthy (((cleanApiData policy ["accessPolicyNumber", "counts",
        "enforceRadiusMonitoring"]).set "radiusServers"
          (Val.list (cleanedRadiusServers ((cleanApiData policy ["accessPolicyNumber",
            "counts", "enforceRadiusMonitoring"]).get "radiusServers").items))).get
        "radiusAccountingServers") = true
    · rw [if_pos h5]
      rw [get_set_ne _ _ _ _ (by decide)]
      exact hset
    · rw [if_neg h5]
      exact hset

theorem buildPolicyConfig_radius (pd : Val) (rs : List Val)
    (h : pd.get "radiusServers" = Val.list rs) :
    (buildPolicyConfig pd).get "radiusServers" = Val.list rs := by
  simp only [buildPolicyConfig]
  rw [get_condSet_ne _ _ _ _ _ (by decide), get_condSet_ne _ _ _ _ _ (by decide),
    get_condSet_ne _ _ _ _ _ (by decide), get_condSet_ne _ _ _ _ _ (by decide),
    get_condSet_ne _ _ _ _ _ (by decide)]
  exact getDflt_of_get_list pd "radiusServers" rs (Val.list []) h

/-- Concrete access policy used to witness the RADIUS-secret-warning claim. -/
def c5Server : Val :=
  Val.dict [("host", Val.str "10.0.0.5"), ("port", Val.nat 1812), ("secret", Val.vnone)]

def c5Policy : Val :=
  Val.dict [("name", Val.str "Corp Policy"), ("accessPolicyNumber", Val.nat 2),
    ("radiusServers", Val.list [c5Server])]

def c5St : RSt :=
  { resp := fun _ => ApiR.val (Val.dict [("accessPolicyNumber", Val.nat 4)])
    idx := 0
    trace := []
    log := [] }

/-- C5: for an access policy whose captured data carries the (nonempty) RADIUS
server list `rs`, a successful restore submits exactly one creation call whose
`radiusServers` payload is the placeholder-secret rewrite of `rs` (every
submitted server carries the literal secret `REPLACE_WITH_ACTUAL_SECRET`),
counts the policy as restored, and the log contains, as one contiguous block,
exactly one `- Server i+1: host:port - UPDATE SECRET REQUIRED` warning per
RADIUS server — `rs.length` of them. -/
theorem access_policy_radius_secret_warnings (nid : String) (psMap : List (Val × Val))
    (st : RSt) (apMap : List (Val × Val)) (count : Nat) (policy : Val) (rs : List Val)
    (h : (cleanApiData policy ["accessPolicyNumber", "counts",
      "enforceRadiusMonitoring"]).get "radiusServers" = Val.list rs)
    (hne : rs.isEmpty = false)
    (hok : (st.resp st.idx).notExn = true) :
    (restoreOnePolicy nid psMap st apMap count policy).1.trace =
      st.trace ++ [Ev.postAccessPolicy nid
        (buildPolicyConfig (cleanPolicyData psMap policy).1)] ∧
    (buildPolicyConfig (cleanPolicyData psMap policy).1).get "radiusServers" =
      Val.list (cleanedRadiusServers rs) ∧
    (∀ s ∈ cleanedRadiusServers rs,
      s.get "secret" = Val.str "REPLACE_WITH_ACTUAL_SECRET") ∧
    (restoreOnePolicy nid psMap st apMap count policy).2.2 = count + 1 ∧
    (∃ pre post, (restoreOnePolicy nid psMap st apMap count policy).1.log =
        pre ++ ((cleanedRadiusServers rs).enum.map (fun p => radiusServerWarn p.1 p.2))
          ++ post) ∧
    ((cleanedRadiusServers rs).enum.map (fun p => radiusServerWarn p.1 p.2)).length
      = rs.length := by
  rcases hcp : cleanPolicyData psMap policy with ⟨pd, ls⟩
  have hrad : pd.get "radiusServers" = Val.list (cleanedRadiusServers rs) := by
    have hx := cleanPolicyData_radius psMap policy rs h hne
    rw [hcp] at hx
    exact hx
  have hpc : (buildPolicyConfig pd).get "radiusServers" =
      Val.list (cleanedRadiusServers rs) := buildPolicyConfig_radius pd _ hrad
  have htr : truthy (Val.list (cleanedRadiusServers rs)) = true := by
    cases rs with
    | nil => simp at hne
    | cons a l => rfl
  have htr2 : truthy ((buildPolicyConfig pd).get "radiusServers") = true := by
    rw [hpc]; exact htr
  have hsec : ∀ s ∈ cleanedRadiusServers rs,
      s.get "secret" = Val.str "REPLACE_WITH_ACTUAL_SECRET" := by
    intro s hs
    simp only [cleanedRadiusServers] at hs
    obtain ⟨r, hr, hr2⟩ := List.mem_map.mp hs
    rw [← hr2]
    rfl
  have hlen : ((cleanedRadiusServers rs).enum.map
      (fun p => radiusServerWarn p.1 p.2)).length = rs.length := by
    simp [cleanedRadiusServers]
  simp only [restoreOnePolicy, hcp]
  cases h0 : st.resp st.idx with
  | exn m =>
    rw [h0] at hok
    simp [ApiR.notExn] at hok
  | val v =>
    simp only [apiCall, logAdd, logAdds]
    simp only [h0]
    rw [if_pos htr2]
    by_cases hacc : truthy ((buildPolicyConfig pd).get "radiusAccountingServers") = true
    · rw [if_pos hacc]
      refine ⟨by simp, hpc, hsec, trivial, ?_, hlen⟩
      refine ⟨st.log ++ ls ++
        [LogEntry.debug "Creating access policy with data: [dict]",
         LogEntry.info ("  ✓ Restored access policy: " ++
           ((buildPolicyConfig pd).get "name").render),
         LogEntry.warn "  ⚠️  CRITICAL: RADIUS server secrets MUST be updated!",
         LogEntry.warn ("     Policy " ++ ((buildPolicyConfig pd).get "name").render ++
           " has " ++ toString (cleanedRadiusServers rs).length ++
           " RADIUS server(s):")],
        [LogEntry.warn ("     Policy " ++ ((buildPolicyConfig pd).get "name").render ++
           " has " ++ toString ((buildPolicyConfig pd).get
             "radiusAccountingServers").items.length ++
           " RADIUS accounting server(s):")] ++
          (((buildPolicyConfig pd).get "radiusAccountingServers").items.enum.map
            (fun p => accountingServerWarn p.1 p.2)), ?_⟩
      simp [hpc, Val.items]
    · rw [if_neg hacc]
      refine ⟨by simp, hpc, hsec, trivial, ?_, hlen⟩
      refine ⟨st.log ++ ls ++
        [LogEntry.debug "Creating access policy with data: [dict]",
         LogEntry.info ("  ✓ Restored access policy: " ++
           ((buildPolicyConfig pd).get "name").render),
         LogEntry.warn "  ⚠️  CRITICAL: RADIUS server secrets MUST be updated!",
         LogEntry.warn ("     Policy " ++ ((buildPolicyConfig pd).get "name").render ++
           " has " ++ toString (cleanedRadiusServers rs).length ++
           " RADIUS server(s):")], [], ?_⟩
      simp [hpc, Val.items]
  | nil =>
    simp only [apiCall, logAdd, logAdds]
    simp only [h0]
    rw [if_pos htr2]
    by_cases hacc : truthy ((buildPolicyConfig pd).get "radiusAccountingServers") = true
    · rw [if_pos hacc]
      refine ⟨by simp, hpc, hsec, trivial, ?_, hlen⟩
      refine ⟨st.log ++ ls ++
        [LogEntry.debug "Creating access policy with data: [dict]",
         LogEntry.info ("  ✓ Restored access policy: " ++
           ((buildPolicyConfig pd).get "name").render),
         LogEntry.warn "  ⚠️  CRITICAL: RADIUS server secrets MUST be updated!",
         LogEntry.warn ("     Policy " ++ ((buildPolicyConfig pd).get "name").render ++
           " has " ++ toString (cleanedRadiusServers rs).length ++
           " RADIUS server(s):")],
        [LogEntry.warn ("     Policy " ++ ((buildPolicyConfig pd).get "name").render ++
           " has " ++ toString ((buildPolicyConfig pd).get
             "radiusAccountingServers").items.length ++
           " RADIUS accounting server(s):")] ++
          (((buildPolicyConfig pd).get "radiusAccountingServers").items.enum.map
            (fun p => accountingServerWarn p.1 p.2)), ?_⟩
      simp [hpc, Val.items]
    · rw [if_neg hacc]
      refine ⟨by simp, hpc, hsec, trivial, ?_, hlen⟩
      refine ⟨st.log ++ ls ++
        [LogEntry.debug "Creating access policy with data: [dict]",
         LogEntry.info ("  ✓ Restored access policy: " ++
           ((buildPolicyConfig pd).get "name").render),
         LogEntry.warn "  ⚠️  CRITICAL: RADIUS server secrets MUST be updated!",
         LogEntry.warn ("     Policy " ++ ((buildPolicyConfig pd).get "name").render ++
           " has " ++ toString (cleanedRadiusServers rs).length ++
           " RADIUS server(s):")], [], ?_⟩
      simp [hpc, Val.items]

/-- Witness: the RADIUS-warning theorem applied at a concrete one-server policy. -/
theorem access_policy_radius_secret_warnings_witness :
    ((cleanApiData c5Policy ["accessPolicyNumber", "counts",
        "enforceRadiusMonitoring"]).get "radiusServers" = Val.list [c5Server]) ∧
    ([c5Server].isEmpty = false) ∧
    ((c5St.resp c5St.idx).notExn = true) ∧
    ((restoreOnePolicy "N1" [] c5St [] 0 c5Policy).2.2 = 0 + 1) :=
  ⟨rfl, rfl, rfl,
    (access_policy_radius_secret_warnings "N1" [] c5St [] 0 c5Policy [c5Server]
      rfl rfl rfl).2.2.2.1⟩

/-- Did the call return a value (as opposed to `None` or an exception)? -/
def ApiR.isVal : ApiR → Bool
  | ApiR.val _ => true
  | _ => false

theorem hasKey_set_ne (v : Val) (k k' : String) (x : Val) (h : k' ≠ k) :
    (v.set k x).hasKey k' = v.hasKey k' := by
  cases v with
  | dict kvs =>
    simp only [Val.set, Val.hasKey, Val.getKey?]
    rw [lookup_setPair_ne kvs k k' x h]
  | str s => rfl
  | nat n => rfl
  | boolean b => rfl
  | vnone => rfl
  | list xs => rfl

theorem backupStep_fst (fetch : String → ApiR) (acc : Val × List LogEntry)
    (p : String × String) :
    (backupStep fetch acc p).1 = acc.1 ∨
    ∃ v, fetch p.2 = ApiR.val v ∧ (backupStep fetch acc p).1 = acc.1.set p.1 v := by
  rcases hf : fetch p.2 with v | _ | m
  · exact Or.inr ⟨v, rfl, by simp [backupStep, hf]⟩
  · by_cases hc : p.1 ∈ optionalFeatures
    · exact Or.inl (by simp [backupStep, hf, hc])
    · exact Or.inl (by simp [backupStep, hf, hc])
  · by_cases h4 : strContains m "404" = true
    · exact Or.inl (by simp [backupStep, hf, h4])
    · exact Or.inl (by simp [backupStep, hf, h4])

theorem backupStep_log (fetch : String → ApiR) (acc : Val × List LogEntry)
    (p : String × String) : ∃ e, (backupStep fetch acc p).2 = acc.2 ++ e := by
  rcases hf : fetch p.2 with v | _ | m
  · exact ⟨[LogEntry.info ("Backed up switch " ++ p.1)], by simp [backupStep, hf]⟩
  · by_cases hc : p.1 ∈ optionalFeatures
    · exact ⟨[LogEntry.debug ("Switch " ++ p.1 ++ " not available on this network")],
        by simp [backupStep, hf, hc]⟩
    · exact ⟨[LogEntry.info ("Switch " ++ p.1 ++ " not configured")],
        by simp [backupStep, hf, hc]⟩
  · by_cases h4 : strContains m "404" = true
    · exact ⟨[], by simp [backupStep, hf, h4]⟩
    · exact ⟨[LogEntry.warn ("Could not backup switch " ++ p.1 ++ ": " ++ m)],
        by simp [backupStep, hf, h4]⟩

theorem backupStep_dict (fetch : String → ApiR) (acc : Val × List LogEntry)
    (p : String × String) (kvs : List (String × Val)) (h : acc.1 = Val.dict kvs) :
    ∃ kvs₂, (backupStep fetch acc p).1 = Val.dict kvs₂ := by
  rcases backupStep_fst fetch acc p with h1 | ⟨v, hv, h1⟩
  · exact ⟨kvs, by rw [h1, h]⟩
  · exact ⟨setPair kvs p.1 v, by rw [h1, h]; rfl⟩

theorem backupFold_log_mono (fetch : String → ApiR) :
    ∀ (eps : List (String × String)) (acc : Val × List LogEntry),
    ∃ d, (eps.foldl (backupStep fetch) acc).2 = acc.2 ++ d := by
  intro eps
  induction eps with
  | nil => intro acc; exact ⟨[], by simp⟩
  | cons p rest ih =>
    intro acc
    obtain ⟨e, he⟩ := backupStep_log fetch acc p
    obtain ⟨d, hd⟩ := ih (backupStep fetch acc p)
    exact ⟨e ++ d, by simp only [List.foldl_cons]; rw [hd, he, List.append_assoc]⟩

theorem backupFold_absent (fetch : String → ApiR) (name : String) :
    ∀ (eps : List (String × String)) (acc : Val × List LogEntry),
    (∀ p ∈ eps, p.1 = name → (fetch p.2).isVal = false) →
    acc.1.hasKey name = false →
    (eps.foldl (backupStep fetch) acc).1.hasKey name = false := by
  intro eps
  induction eps with
  | nil => intro acc _ h; simpa using h
  | cons p rest ih =>
    intro acc hall hk
    simp only [List.foldl_cons]
    apply ih
    · intro q hq hq1
      exact hall q (List.mem_cons_of_mem p hq) hq1
    · rcases backupStep_fst fetch acc p with h1 | ⟨v, hv, h1⟩
      · rw [h1]; exact hk
      · rw [h1]
        by_cases hpn : p.1 = name
        · have hh := hall p (List.mem_cons_self p rest) hpn
          rw [hv] at hh
          simp [ApiR.isVal] at hh
        · rw [hasKey_set_ne _ _ _ _ (Ne.symm hpn)]
          exact hk

theorem backupFold_warn (fetch : String → ApiR) (name url m : String) :
    ∀ (eps : List (String × String)) (acc : Val × List LogEntry),
    (name, url) ∈ eps → fetch url = ApiR.exn m → strContains m "404" = false →
    LogEntry.warn ("Could not backup switch " ++ name ++ ": " ++ m) ∈
      (eps.foldl (backupStep fetch) acc).2 := by
  intro eps
  induction eps with
  | nil => intro acc h; simp at h
  | cons p rest ih =>
    intro acc hmem hf h4
    simp only [List.foldl_cons]
    rcases List.mem_cons.mp hmem with he | hr
    · obtain ⟨d, hd⟩ := backupFold_log_mono fetch rest (backupStep fetch acc p)
      rw [hd]
      subst he
      have hstep : (backupStep fetch acc (name, url)).2 = acc.2 ++
          [LogEntry.warn ("Could not backup switch " ++ name ++ ": " ++ m)] := by
        simp [backupStep, hf, h4]
      rw [hstep]
      simp
    · exact ih (backupStep fetch acc p) hr hf h4

theorem backupFold_val (fetch : String → ApiR) (name url : String) (v : Val) :
    ∀ (eps : List (String × String)) (acc : Val × List LogEntry)
      (kvs : List (String × Val)), acc.1 = Val.dict kvs →
    (∀ p ∈ eps, p.1 = name → p.2 = url) →
    fetch url = ApiR.val v →
    ((name, url) ∈ eps ∨ acc.1.get name = v) →
    (eps.foldl (backupStep fetch) acc).1.get name = v := by
  intro eps
  induction eps with
  | nil =>
    intro acc kvs _ _ _ hdisj
    rcases hdisj with h | h
    · simp at h
    · simpa using h
  | cons p rest ih =>
    intro acc kvs hdict hall hv hdisj
    simp only [List.foldl_cons]
    obtain ⟨kvs₂, hdict₂⟩ := backupStep_dict fetch acc p kvs hdict
    apply ih (backupStep fetch acc p) kvs₂ hdict₂
    · intro q hq hq1
      exact hall q (List.mem_cons_of_mem p hq) hq1
    · exact hv
    · rcases hdisj with hmem | hval
      · rcases List.mem_cons.mp hmem with he | hr
        · subst he
          refine Or.inr ?_
          have hfp : fetch (name, url).2 = ApiR.val v := hv
          have h1 : (backupStep fetch acc (name, url)).1 = acc.1.set name v := by
            simp [backupStep, hfp]
          rw [h1, hdict]
          exact get_set_self kvs name v
        · exact Or.inl hr
      · refine Or.inr ?_
        rcases backupStep_fst fetch acc p with h1 | ⟨w, hw, h1⟩
        · rw [h1]; exact hval
        · rw [h1]
          by_cases hpn : p.1 = name
          · have hup : p.2 = url := hall p (List.mem_cons_self p rest) hpn
            rw [hup, hv] at hw
            cases hw
            rw [hpn, hdict]
            rw [hdict] at hval
            rw [get_set_self kvs name v]
          · rw [get_set_ne _ _ _ _ (Ne.symm hpn)]
            exact hval

/-- Fetch oracle for the capture-isolation witness: the storm-control read
raises a non-404 error, every other switch endpoint returns a value. -/
def c4Fetch (u : String) : ApiR :=
  if u = "/networks/N/switch/stormControl" then ApiR.exn "500 internal server error"
  else ApiR.val (Val.dict [("x", Val.nat 1)])

/-- Error isolation of the `_backup_switch_network_settings` loop: for an
endpoint whose read does not return a value, the snapshot key stays absent
(no empty placeholder); when the read raised a non-404 exception, a warning
naming the resource is logged; and every other endpoint whose read returns a
value is still captured into the snapshot. -/
theorem backup_capture_error_isolation (fetch : String → ApiR) (nid : String)
    (kvs : List (String × Val)) (name url : String)
    (hmem : (name, url) ∈ switchEndpoints nid)
    (hnk : (Val.dict kvs).hasKey name = false)
    (hfail : (fetch url).isVal = false)
    (huniq : ∀ p ∈ switchEndpoints nid, p.1 = name → p.2 = url) :
    (backupSwitchNetworkSettings fetch nid (Val.dict kvs)).1.hasKey name = false ∧
    (∀ m, fetch url = ApiR.exn m → strContains m "404" = false →
      LogEntry.warn ("Could not backup switch " ++ name ++ ": " ++ m) ∈
        (backupSwitchNetworkSettings fetch nid (Val.dict kvs)).2) ∧
    (∀ name₂ url₂ v, (name₂, url₂) ∈ switchEndpoints nid →
      (∀ p ∈ switchEndpoints nid, p.1 = name₂ → p.2 = url₂) →
      fetch url₂ = ApiR.val v →
      (backupSwitchNetworkSettings fetch nid (Val.dict kvs)).1.get name₂ = v) := by
  refine ⟨?_, ?_, ?_⟩
  · apply backupFold_absent fetch name (switchEndpoints nid) (Val.dict kvs, [])
    · intro p hp hp1
      rw [huniq p hp hp1]
      exact hfail
    · exact hnk
  · intro m hm h4
    exact backupFold_warn fetch name url m (switchEndpoints nid) (Val.dict kvs, [])
      hmem hm h4
  · intro name₂ url₂ v hmem₂ huniq₂ hv
    exact backupFold_val fetch name₂ url₂ v (switchEndpoints nid) (Val.dict kvs, [])
      kvs rfl huniq₂ hv (Or.inl hmem₂)

/-- The switch-loop lemma at a fetch oracle raising a 500 on storm control:
the snapshot leaves `stormControl` absent, logs the warning, and still
captures `stp`. -/
theorem backup_capture_error_isolation_witness :
    ((("stormControl", "/networks/N/switch/stormControl") ∈ switchEndpoints "N") ∧
      ((Val.dict []).hasKey "stormControl" = false) ∧
      ((c4Fetch "/networks/N/switch/stormControl").isVal = false) ∧
      (c4Fetch "/networks/N/switch/stormControl" =
        ApiR.exn "500 internal server error") ∧
      (strContains "500 internal server error" "404" = false) ∧
      (("stp", "/networks/N/switch/stp") ∈ switchEndpoints "N") ∧
      (c4Fetch "/networks/N/switch/stp" = ApiR.val (Val.dict [("x", Val.nat 1)]))) ∧
    ((backupSwitchNetworkSettings c4Fetch "N" (Val.dict [])).1.hasKey "stormControl"
        = false ∧
      LogEntry.warn ("Could not backup switch " ++ "stormControl" ++ ": " ++
        "500 internal server error") ∈
        (backupSwitchNetworkSettings c4Fetch "N" (Val.dict [])).2 ∧
      (backupSwitchNetworkSettings c4Fetch "N" (Val.dict [])).1.get "stp" =
        Val.dict [("x", Val.nat 1)]) := by
  have hmain := backup_capture_error_isolation c4Fetch "N" [] "stormControl"
    "/networks/N/switch/stormControl" (by decide) rfl (by decide) (by decide)
  refine ⟨⟨by decide, rfl, by decide, rfl, by decide, by decide, rfl⟩,
    hmain.1, hmain.2.1 "500 internal server error" rfl (by decide),
    hmain.2.2 "stp" "/networks/N/switch/stp" (Val.dict [("x", Val.nat 1)])
      (by decide) (by decide) rfl⟩

/-- Snapshot used to exhibit the relay mutation: one device with a routed
interface `"10"` and DHCP relay settings referencing that interface. -/
def c8Iface : Val := Val.dict [("interfaceId", Val.str "10"), ("vlanId", Val.nat 2),
  ("name", Val.str "v2")]

def c8Settings : Val := Val.dict [
  ("routing", Val.dict [("interfaces", Val.list [c8Iface])]),
  ("dhcp", Val.dict [("relays", Val.dict [("interfaceId", Val.str "10")])])]

def c8Backup : Val := Val.dict [
  ("network_settings", Val.dict []),
  ("device_settings", Val.dict [("OLD1", c8Settings)])]

/-- Response oracle: the interface-create call returns the new interface with
id `"20"`; everything else reports nothing. -/
def c8Oracle : Nat → ApiR
  | 1 => ApiR.val (Val.dict [("interfaceId", Val.str "20")])
  | _ => ApiR.nil

def c8St : RSt := { resp := c8Oracle, idx := 0, trace := [], log := [] }

/-- C8: the snapshot handed to `restore_all_settings` is NOT left unchanged.
The captured DHCP relay settings enter the run referencing interface `"10"`,
and the run rewrites that field in place (through the `relay_data` alias into
the snapshot) to the target-side id `"20"` returned by the interface-create
call, so the same snapshot field reads differently after the run. -/
theorem restore_mutates_snapshot_relays :
    ((((c8Backup.get "device_settings").get "OLD1").get "dhcp").get "relays").get
        "interfaceId" = Val.str "10" ∧
    (((((restoreAllSettings c8St c8Backup "NT" (Option.some [("OLD1", "NEW1")])).2.get
        "device_settings").get "OLD1").get "dhcp").get "relays").get "interfaceId" =
      Val.str "20" :=
  ⟨rfl, rfl⟩

theorem rewriteOspfIds_warn (imap : List (Val × Val)) (oldId : Val) :
    ∀ (ids : List Val) (st : RSt), oldId ∈ ids → truthy (mlookup imap oldId) = false →
    ∃ d, (rewriteOspfIds imap st ids).1.log = st.log ++ d ∧
      LogEntry.warn ("    ⚠ Cannot map interface ID " ++ oldId.render ++ " for OSPF area")
        ∈ d := by
  intro ids
  induction ids with
  | nil => intro st h; simp at h
  | cons o rest ih =>
    intro st hmem hf
    rw [rewriteOspfIds]
    rcases List.mem_cons.mp hmem with he | hr
    · subst he
      rw [if_neg (by simp [hf])]
      obtain ⟨dl, newIds, hrw⟩ := rewriteOspfIds_st imap rest
        (logAdd st (LogEntry.warn ("    ⚠ Cannot map interface ID " ++ oldId.render ++
          " for OSPF area")))
      rw [hrw]
      refine ⟨LogEntry.warn ("    ⚠ Cannot map interface ID " ++ oldId.render ++
        " for OSPF area") :: dl, ?_, List.mem_cons_self _ _⟩
      simp [logAdd]
    · by_cases ht : truthy (mlookup imap o) = true
      · rw [if_pos ht]
        rcases hrw : rewriteOspfIds imap st rest with ⟨st₁, others⟩
        obtain ⟨d, hd, hw⟩ := ih st hr hf
        rw [hrw] at hd
        exact ⟨d, hd, hw⟩
      · rw [if_neg ht]
        obtain ⟨d, hd, hw⟩ := ih (logAdd st (LogEntry.warn ("    ⚠ Cannot map interface ID "
            ++ o.render ++ " for OSPF area"))) hr hf
        refine ⟨LogEntry.warn ("    ⚠ Cannot map interface ID " ++ o.render ++
          " for OSPF area") :: d, ?_, List.mem_cons_of_mem _ hw⟩
        rw [hd]
        simp [logAdd]

/-- Interface table and multicast snapshot for the silent-drop counterexample:
interface `"5"` maps to `"7"`, interface `"ZZZ9"` is unmappable. -/
def c9Imap : List (Val × Val) := [(Val.str "5", Val.str "7")]

def c9Mc : Val := Val.dict [("igmpSnoopingSettings",
  Val.dict [("interfaceIds", Val.list [Val.str "5", Val.str "ZZZ9"])])]

def c9St : RSt := { resp := fun _ => ApiR.nil, idx := 0, trace := [], log := [] }

/-- C9 counterexample: the multicast IGMP-snooping rewrite drops the
unmappable interface id `"ZZZ9"` from the submitted payload while the run
logs only the aggregate success line — no log entry mentions the dropped id,
at any level.  This contradicts the claim that every resource category
rewriting interface ids leaves at least a debug-level trace for an
unmappable identifier. -/
theorem multicast_unmapped_id_dropped_silently :
    ((restoreMulticast c9St "S2" c9Imap c9Mc).1.trace =
      [Ev.putMulticast "S2" (Val.dict [("igmpSnoopingSettings",
        Val.dict [("interfaceIds", Val.list [Val.str "7"])])])]) ∧
    ((restoreMulticast c9St "S2" c9Imap c9Mc).1.log =
      [LogEntry.info "  ✓ Restored multicast settings"]) ∧
    (∀ e ∈ (restoreMulticast c9St "S2" c9Imap c9Mc).1.log,
      strContains e.msg "ZZZ9" = false) :=
  ⟨rfl, rfl, by decide⟩

/-- C9 (amended): of the five resource categories that rewrite interface
ids, four log every unmappable reference — OSPF areas warn per dropped id by
name, a static route with an unmappable next hop is skipped with a warning,
a DHCP server with an unmappable interface is skipped with a warning, and a
rendezvous point with an unmappable interface is skipped with a warning —
but the multicast IGMP-snooping rewrite emits only the aggregate
success/failure line of the step, independent of which ids it dropped. -/
theorem unmapped_reference_logging_amended :
    (∀ (imap : List (Val × Val)) (st : RSt) (ids : List Val) (oldId : Val),
      oldId ∈ ids → truthy (mlookup imap oldId) = false →
      ∃ d, (rewriteOspfIds imap st ids).1.log = st.log ++ d ∧
        LogEntry.warn ("    ⚠ Cannot map interface ID " ++ oldId.render ++
          " for OSPF area") ∈ d) ∧
    (∀ (serial : String) (imap : List (Val × Val)) (st : RSt)
      (rmap : List (Val × Val)) (succ failed : Nat) (route : Val),
      truthy ((route.excl ["staticRouteId"]).get "interfaceId") = true →
      truthy (mlookup imap ((route.excl ["staticRouteId"]).get "interfaceId")) = false →
      restoreOneRoute serial imap st rmap succ failed route =
        (logAdd st (LogEntry.warn ("    ⚠ Cannot map interface ID for route to " ++
          (route.get "subnet").render)), rmap, succ, failed)) ∧
    (∀ (serial : String) (imap : List (Val × Val)) (st : RSt)
      (smap : List (Val × Val)) (count : Nat) (server : Val) (rest : List Val),
      truthy ((server.excl ["id"]).get "interfaceId") = true →
      truthy (mlookup imap ((server.excl ["id"]).get "interfaceId")) = false →
      restoreDhcpServersGo serial imap st smap count (server :: rest) =
        restoreDhcpServersGo serial imap
          (logAdd st (LogEntry.warn "    ⚠ Cannot map interface ID for DHCP server"))
          smap count rest) ∧
    (∀ (serial : String) (imap : List (Val × Val)) (st : RSt)
      (pmap : List (Val × Val)) (count : Nat) (rp : Val) (rest : List Val),
      truthy ((rp.excl ["rendezvousPointId"]).get "interfaceId") = true →
      truthy (mlookup imap ((rp.excl ["rendezvousPointId"]).get "interfaceId")) = false →
      restoreRendezvousGo serial imap st pmap count (rp :: rest) =
        restoreRendezvousGo serial imap
          (logAdd st (LogEntry.warn "    ⚠ Cannot map interface ID for rendezvous point"))
          pmap count rest) ∧
    (∀ (st : RSt) (serial : String) (imap : List (Val × Val)) (mc : Val),
      ∃ e, (restoreMulticast st serial imap mc).1.log = st.log ++ [e] ∧
        (e = LogEntry.info "  ✓ Restored multicast settings" ∨
          ∃ m, e = LogEntry.warn ("  ⚠ Failed to restore multicast: " ++
            strTake m 100))) := by
  refine ⟨?_, ?_, ?_, ?_, ?_⟩
  · intro imap st ids oldId hmem hf
    exact rewriteOspfIds_warn imap oldId ids st hmem hf
  · intro serial imap st rmap succ failed route h1 h2
    simp only [restoreOneRoute]
    rw [if_pos h1, if_neg (by simp [h2])]
  · intro serial imap st smap count server rest h1 h2
    rw [restoreDhcpServersGo]
    rw [if_pos h1, if_neg (by simp [h2])]
  · intro serial imap st pmap count rp rest h1 h2
    rw [restoreRendezvousGo]
    rw [if_pos h1, if_neg (by simp [h2])]
  · intro st serial imap mc
    simp only [restoreMulticast, apiCall]
    cases h0 : st.resp st.idx with
    | exn m =>
      simp only [h0]
      exact ⟨LogEntry.warn ("  ⚠ Failed to restore multicast: " ++ strTake m 100),
        by simp [logAdd], Or.inr ⟨m, rfl⟩⟩
    | val v =>
      simp only [h0]
      exact ⟨LogEntry.info "  ✓ Restored multicast settings",
        by simp [logAdd], Or.inl rfl⟩
    | nil =>
      simp only [h0]
      exact ⟨LogEntry.info "  ✓ Restored multicast settings",
        by simp [logAdd], Or.inl rfl⟩

/-- Witness: the OSPF conjunct of the amended statement at a concrete
unmappable id. -/
theorem unmapped_reference_logging_amended_witness :
    ((Val.str "9") ∈ [Val.str "9"] ∧ truthy (mlookup [] (Val.str "9")) = false) ∧
    (∃ d, (rewriteOspfIds [] c9St [Val.str "9"]).1.log = c9St.log ++ d ∧
      LogEntry.warn ("    ⚠ Cannot map interface ID " ++ (Val.str "9").render ++
        " for OSPF area") ∈ d) :=
  ⟨⟨List.mem_cons_self _ _, rfl⟩,
    unmapped_reference_logging_amended.1 [] c9St [Val.str "9"] (Val.str "9")
      (List.mem_cons_self _ _) rfl⟩

def c10St : RSt := { resp := fun _ => ApiR.nil, idx := 0, trace := [], log := [] }

/-- C10: with no device mapping, `restore_all_settings` skips the entire
device-level restoration behind a single warning while the network-level
settings are still restored (the run's API calls are exactly network-level
ones) and the backup document is returned untouched; and inside the device
loop, a mapped serial with no entry in the snapshot's device settings is
skipped with a warning and the loop continues with the remaining devices. -/
theorem restore_skips_devices_without_mapping (st : RSt) (backup : Val) (nid : String)
    (st₂ : RSt) (deviceSettings : Val) (oldSerial newSerial : String)
    (rest : List (String × String))
    (hmiss : deviceSettings.hasKey oldSerial = false) :
    ((restoreAllSettings st backup nid Option.none).2 = backup ∧
      (∃ d, (restoreAllSettings st backup nid Option.none).1.trace = st.trace ++ d ∧
        ∀ e ∈ d, netEvOk e = true) ∧
      LogEntry.warn "No device mapping provided, skipping device-specific settings" ∈
        (restoreAllSettings st backup nid Option.none).1.log) ∧
    restoreDeviceSettingsGo st₂ deviceSettings ((oldSerial, newSerial) :: rest) =
      restoreDeviceSettingsGo
        (logAdd st₂ (LogEntry.warn ("No settings found for device " ++ oldSerial)))
        deviceSettings rest := by
  rcases hN : restoreNetworkSettings (logAdds st
      [LogEntry.info ("Starting comprehensive restore to network " ++ nid),
       LogEntry.info eqBanner,
       LogEntry.info "RESTORATION MODE: Force all settings regardless of device status",
       LogEntry.info eqBanner]) (backup.get "network_settings") nid
    with ⟨stN, t1, t2, t3, t4⟩
  refine ⟨⟨?_, ?_, ?_⟩, ?_⟩
  · simp only [restoreAllSettings]
  · obtain ⟨d, hd, hP⟩ := restoreNetworkSettings_trace (logAdds st
      [LogEntry.info ("Starting comprehensive restore to network " ++ nid),
       LogEntry.info eqBanner,
       LogEntry.info "RESTORATION MODE: Force all settings regardless of device status",
       LogEntry.info eqBanner]) (backup.get "network_settings") nid
    rw [hN] at hd
    simp only [trace_logAdds] at hd
    refine ⟨d, ?_, hP⟩
    simp only [restoreAllSettings]
    rw [hN]
    exact hd
  · simp only [restoreAllSettings]
    rw [hN]
    simp [logAdd, logAdds]
  · rw [restoreDeviceSettingsGo]
    rw [if_neg (by simp [hmiss])]

/-- Witness: the device-loop conjunct at a snapshot with no settings for the
mapped serial. -/
theorem restore_skips_devices_without_mapping_witness :
    ((Val.dict []).hasKey "OLDX" = false) ∧
    restoreDeviceSettingsGo c10St (Val.dict []) [("OLDX", "NEWX")] =
      restoreDeviceSettingsGo
        (logAdd c10St (LogEntry.warn ("No settings found for device " ++ "OLDX")))
        (Val.dict []) [] :=
  ⟨rfl, (restore_skips_devices_without_mapping c10St (Val.dict []) "NT" c10St
    (Val.dict []) "OLDX" "NEWX" [] rfl).2⟩

/-- Device info and fetch oracle for the device-level backup counterexample:
an MS switch whose management read reports absent and whose routing-interfaces
read raises a non-404 server error. -/
def c4dInfo : Val := Val.dict [("name", Val.str "sw1"), ("model", Val.str "MS250"),
  ("networkId", Val.str "N1")]

def c4dFetch (u : String) : ApiR :=
  if u = "/devices/S1/switch/routing/interfaces" then ApiR.exn "500 internal server error"
  else ApiR.nil

/-- C4 counterexample: at device level the claimed per-read isolation fails
twice.  The management read reports absent, yet the snapshot keeps the key
`management` bound to the pre-initialized empty-dict placeholder (likewise
`ports` keeps its `[]` placeholder on an absent read); and the
routing-interfaces read fails with a non-404 server error, yet the run's
complete log carries no warning and never mentions the failure at all —
the `except: pass` handler swallows it. -/
theorem device_backup_placeholder_and_silent_failure :
    ((backupDeviceSettings c4dFetch "S1" c4dInfo).1.hasKey "management" = true ∧
     (backupDeviceSettings c4dFetch "S1" c4dInfo).1.get "management" = Val.dict []) ∧
    ((backupDeviceSettings c4dFetch "S1" c4dInfo).1.hasKey "ports" = true ∧
     (backupDeviceSettings c4dFetch "S1" c4dInfo).1.get "ports" = Val.list []) ∧
    ((backupDeviceSettings c4dFetch "S1" c4dInfo).2 =
      [LogEntry.info "Backing up device S1 (sw1)",
       LogEntry.debug "No management interface configured for S1",
       LogEntry.info "No port configuration for S1"]) ∧
    (∀ e ∈ (backupDeviceSettings c4dFetch "S1" c4dInfo).2,
      strContains e.msg "500" = false) :=
  ⟨⟨rfl, rfl⟩, ⟨rfl, rfl⟩, rfl, by decide⟩

/-- C4 (amended): per-resource error isolation holds as specified for the
network-level switch-settings loop — an absent read leaves the key absent
with no placeholder, a non-404 failure logs a warning with the key still
absent, and every endpoint whose read returns a value is captured — but the
device-level backup departs from it: the settings bundle pre-initializes
`management`, `ports` and `warmSpare` as empty placeholders, an absent
management read keeps the placeholder (only a debug note is emitted), and
every `except: pass` read (routing, DHCP, multicast, rendezvous points, warm
spare, stacks) swallows any raised failure with no log line at all. -/
theorem backup_error_isolation_amended :
    (∀ (fetch : String → ApiR) (nid : String) (kvs : List (String × Val))
      (name url : String), (name, url) ∈ switchEndpoints nid →
      (Val.dict kvs).hasKey name = false → (fetch url).isVal = false →
      (∀ p ∈ switchEndpoints nid, p.1 = name → p.2 = url) →
      (backupSwitchNetworkSettings fetch nid (Val.dict kvs)).1.hasKey name = false ∧
      (∀ m, fetch url = ApiR.exn m → strContains m "404" = false →
        LogEntry.warn ("Could not backup switch " ++ name ++ ": " ++ m) ∈
          (backupSwitchNetworkSettings fetch nid (Val.dict kvs)).2) ∧
      (∀ name₂ url₂ v, (name₂, url₂) ∈ switchEndpoints nid →
        (∀ p ∈ switchEndpoints nid, p.1 = name₂ → p.2 = url₂) →
        fetch url₂ = ApiR.val v →
        (backupSwitchNetworkSettings fetch nid (Val.dict kvs)).1.get name₂ = v)) ∧
    (∀ deviceInfo : Val,
      (devInitSettings deviceInfo).get "management" = Val.dict [] ∧
      (devInitSettings deviceInfo).get "ports" = Val.list [] ∧
      (devInitSettings deviceInfo).get "warmSpare" = Val.dict []) ∧
    (∀ (fetch : String → ApiR) (serial : String) (settings : Val),
      fetch ("/devices/" ++ serial ++ "/managementInterface") = ApiR.nil →
      devMgmtStep fetch serial settings =
        (settings, [LogEntry.debug ("No management interface configured for " ++ serial)])) ∧
    (∀ (fetch : String → ApiR) (url : String) (settings : Val) (k1 k2 : String)
      (ok : Val → LogEntry) (m : String), fetch url = ApiR.exn m →
      devQuietSet fetch url settings k1 k2 ok = (settings, [])) ∧
    (∀ (fetch : String → ApiR) (url : String) (settings : Val) (k : String)
      (ok : Val → LogEntry) (m : String), fetch url = ApiR.exn m →
      devQuietSetTop fetch url settings k ok = (settings, [])) := by
  refine ⟨?_, ?_, ?_, ?_, ?_⟩
  · intro fetch nid kvs name url h1 h2 h3 h4
    exact backup_capture_error_isolation fetch nid kvs name url h1 h2 h3 h4
  · intro deviceInfo
    exact ⟨rfl, rfl, rfl⟩
  · intro fetch serial settings h
    simp [devMgmtStep, h]
  · intro fetch url settings k1 k2 ok m h
    simp [devQuietSet, h]
  · intro fetch url settings k ok m h
    simp [devQuietSetTop, h]

/-- Witness: the management-absence and quiet-failure conjuncts of the
amended statement at the counterexample oracle. -/
theorem backup_error_isolation_amended_witness :
    (c4dFetch ("/devices/" ++ "S1" ++ "/managementInterface") = ApiR.nil) ∧
    (devMgmtStep c4dFetch "S1" (devInitSettings c4dInfo) =
      (devInitSettings c4dInfo,
       [LogEntry.debug ("No management interface configured for " ++ "S1")])) ∧
    (c4dFetch "/devices/S1/switch/routing/interfaces" =
      ApiR.exn "500 internal server error") ∧
    (devQuietSet c4dFetch "/devices/S1/switch/routing/interfaces"
      (devInitSettings c4dInfo) "routing" "interfaces"
      (fun v => LogEntry.info ("Backed up " ++ toString v.items.length ++
        " routing interfaces for " ++ "S1")) = (devInitSettings c4dInfo, [])) :=
  ⟨rfl,
   backup_error_isolation_amended.2.2.1 c4dFetch "S1" (devInitSettings c4dInfo) rfl,
   rfl,
   backup_error_isolation_amended.2.2.2.1 c4dFetch
     "/devices/S1/switch/routing/interfaces" (devInitSettings c4dInfo)
     "routing" "interfaces"
     (fun v => LogEntry.info ("Backed up " ++ toString v.items.length ++
       " routing interfaces for " ++ "S1")) "500 internal server error" rfl⟩

end Meraki
